import Mathlib

/-!
Shallow embedding of the flare environment-construction and kernel-evaluation
engine (src/flare/env.py and src/flare/kernels/mc_simple.py).

Conventions of the embedding:
* Python floats are modelled as elements of a linear ordered field `K`
  (instantiated with `ℝ` in the main theorems, and with `ℚ` for executable
  witnesses).  `math.sqrt` and `math.exp` are passed as explicit function
  parameters (`sqrtf`, `expf`), exactly as the source already passes
  `cutoff_func` as a parameter.
* numpy `int8` storage (`dtype=np.int8`) is modelled by the explicit cast
  `toInt8 : ℤ → ℤ`, which reduces mod 256 and reinterprets as a signed byte.
* `np.argsort` (default kind, quicksort) guarantees only that it returns a
  permutation of the index range which puts the keys in ascending order;
  it is NOT documented to be stable.  It is therefore modelled as a function
  parameter `asort` constrained by the contract `IsArgsort`.
* Helper functions imported from `flare/kernels/kernels.py` (a file of this
  repository that is not under src/) are either passed as opaque function
  parameters or modelled from the spec; each such definition carries a
  doc comment saying so.
* Mask arrays (`specie_mask`, `bond_mask`, `cut3b_mask`) are modelled as
  total functions `ℤ → ℤ` (the source stores them as integer arrays indexed
  by species code); cutoff arrays are modelled as `List K`.
* Python `set` iteration order depends only on the contents of the set; the
  canonical content-determined order is modelled by sorting.
-/

/-! ### Generic list helpers -/

/-- Sum of `f` over a list; models a Python accumulation loop `for x in l: kern += f x`. -/
def lsum {α K : Type} [AddCommMonoid K] (l : List α) (f : α → K) : K :=
  (l.map f).sum

theorem lsum_nil {α K : Type} [AddCommMonoid K] (f : α → K) : lsum ([] : List α) f = 0 := rfl

theorem lsum_cons {α K : Type} [AddCommMonoid K] (a : α) (l : List α) (f : α → K) :
    lsum (a :: l) f = f a + lsum l f := by
  simp [lsum]

theorem lsum_congr {α K : Type} [AddCommMonoid K] {l : List α} {f g : α → K}
    (h : ∀ a ∈ l, f a = g a) : lsum l f = lsum l g := by
  induction l with
  | nil => rfl
  | cons a t ih =>
      rw [lsum_cons, lsum_cons, h a (List.mem_cons_self a t),
        ih (fun b hb => h b (List.mem_cons_of_mem a hb))]

theorem lsum_add {α K : Type} [AddCommMonoid K] (l : List α) (f g : α → K) :
    lsum l (fun a => f a + g a) = lsum l f + lsum l g := by
  induction l with
  | nil => simp [lsum]
  | cons a t ih =>
      rw [lsum_cons, lsum_cons, lsum_cons, ih]
      rw [add_add_add_comm]

theorem lsum_zero {α K : Type} [AddCommMonoid K] (l : List α) :
    lsum l (fun _ => (0 : K)) = 0 := by
  induction l with
  | nil => rfl
  | cons a t ih => rw [lsum_cons, ih, add_zero]

theorem lsum_comm {α β K : Type} [AddCommMonoid K] (l1 : List α) (l2 : List β)
    (f : α → β → K) :
    lsum l1 (fun a => lsum l2 (f a)) = lsum l2 (fun b => lsum l1 (fun a => f a b)) := by
  induction l1 with
  | nil => simp only [lsum_nil]; rw [lsum_zero]
  | cons a t ih =>
      rw [lsum_cons, ih, ← lsum_add]
      apply lsum_congr
      intro b _
      rw [lsum_cons]

theorem lsum_flatMap {α β K : Type} [AddCommMonoid K] (l : List α) (g : α → List β)
    (f : β → K) :
    lsum (l.flatMap g) f = lsum l (fun a => lsum (g a) f) := by
  induction l with
  | nil => rfl
  | cons a t ih =>
      rw [lsum_cons, ← ih]
      show (List.map f (g a ++ t.flatMap g)).sum = _
      rw [List.map_append, List.sum_append]
      rfl

theorem lsum_map {α β K : Type} [AddCommMonoid K] (l : List α) (g : α → β) (f : β → K) :
    lsum (l.map g) f = lsum l (f ∘ g) := by
  simp [lsum, List.map_map]

theorem lsum_mul_left {α K : Type} [NonUnitalNonAssocSemiring K] (l : List α) (c : K)
    (f : α → K) : lsum l (fun a => c * f a) = c * lsum l f := by
  induction l with
  | nil => simp [lsum]
  | cons a t ih => rw [lsum_cons, lsum_cons, ih, mul_add]

/-- First component of a sum of triples. -/
theorem lsum_fst {α K : Type} [AddCommMonoid K] (l : List α) (f : α → K × K × K) :
    (lsum l f).1 = lsum l (fun a => (f a).1) := by
  induction l with
  | nil => rfl
  | cons a t ih => rw [lsum_cons, lsum_cons, ← ih]; rfl

/-- Second component of a sum of triples. -/
theorem lsum_snd_fst {α K : Type} [AddCommMonoid K] (l : List α) (f : α → K × K × K) :
    (lsum l f).2.1 = lsum l (fun a => (f a).2.1) := by
  induction l with
  | nil => rfl
  | cons a t ih => rw [lsum_cons, lsum_cons, ← ih]; rfl

/-! ### int8 storage (numpy `dtype=np.int8`) -/

/-- Reduction of an integer into a signed 8-bit register: the value is reduced
mod 256 and the residue is reinterpreted as a signed byte in `[-128, 127]`.
Models storing into a numpy array created with `dtype=np.int8`
(env.py lines 287-290, 365-367, 462-465, 554-556). -/
def toInt8 (v : ℤ) : ℤ := (v + 128) % 256 - 128

theorem toInt8_eq_self {v : ℤ} (h0 : -128 ≤ v) (h1 : v ≤ 127) : toInt8 v = v := by
  unfold toInt8
  omega

theorem toInt8_lt (v : ℤ) : toInt8 v ≤ 127 := by
  unfold toInt8
  omega

theorem toInt8_ge (v : ℤ) : -128 ≤ toInt8 v := by
  unfold toInt8
  omega

theorem toInt8_eq_iff {v : ℤ} (h0 : 0 ≤ v) : toInt8 v = v ↔ v ≤ 127 := by
  constructor
  · intro h
    rw [← h]
    exact toInt8_lt v
  · intro h
    exact toInt8_eq_self (by omega) h

theorem toInt8_emod (v : ℤ) : toInt8 v % 256 = v % 256 := by
  unfold toInt8
  omega

/-! ### argsort model (`np.argsort`, default quicksort kind) -/

/-- Apply an index permutation to a list: `p.map (fun i => l[i])`.
Models fancy indexing `arr[sort_inds]` (env.py lines 307-311, 484-488). -/
def applyPerm {α : Type} (d : α) (p : List ℕ) (l : List α) : List α :=
  p.map (fun i => l.getD i d)

/-- Contract of `np.argsort` on a list of keys: the result is a permutation of
`range l.length` and indexing the keys by it yields an ascending list.
Stability (ties keeping their original order) is NOT part of the contract of
the default quicksort kind. -/
def IsArgsort {K : Type} [LinearOrder K] [Zero K] (asort : List K → List ℕ) : Prop :=
  ∀ l : List K, List.Perm (asort l) (List.range l.length) ∧
    List.Sorted (· ≤ ·) (applyPerm 0 (asort l) l)

/-- A concrete conforming argsort: sort the index range by key value
(insertion sort).  Used to instantiate witnesses. -/
def insertionArgsort {K : Type} [LinearOrder K] [Zero K] (l : List K) : List ℕ :=
  List.insertionSort (fun i j => l.getD i 0 ≤ l.getD j 0) (List.range l.length)

theorem insertionArgsort_isArgsort {K : Type} [LinearOrder K] [Zero K] :
    IsArgsort (insertionArgsort (K := K)) := by
  intro l
  haveI h1 : IsTotal ℕ (fun i j : ℕ => l.getD i 0 ≤ l.getD j 0) :=
    ⟨fun i j => le_total _ _⟩
  haveI h2 : IsTrans ℕ (fun i j : ℕ => l.getD i 0 ≤ l.getD j 0) :=
    ⟨fun _ _ _ hab hbc => le_trans hab hbc⟩
  constructor
  · exact List.perm_insertionSort _ _
  · have hs := List.sorted_insertionSort
      (r := fun i j : ℕ => l.getD i 0 ≤ l.getD j 0) (List.range l.length)
    unfold applyPerm insertionArgsort
    exact List.Pairwise.map (fun i => l.getD i 0) (fun _ _ h => h) hs

/-- A conforming but non-stable argsort: on the tied key list [1, 1] it
returns the reversed index order, and elsewhere it agrees with
`insertionArgsort`.  The `np.argsort` default (quicksort kind) only promises
the `IsArgsort` contract, which this function satisfies. -/
def unstableArgsort {K : Type} [LinearOrderedField K] [DecidableEq K]
    (l : List K) : List ℕ :=
  if l = [1, 1] then [1, 0] else insertionArgsort l

theorem unstableArgsort_isArgsort {K : Type} [LinearOrderedField K]
    [DecidableEq K] : IsArgsort (unstableArgsort (K := K)) := by
  intro l
  by_cases h : l = [1, 1]
  · subst h
    unfold unstableArgsort
    rw [if_pos rfl]
    constructor
    · show List.Perm [1, 0] (List.range 2)
      rw [show List.range 2 = [0, 1] from rfl]
      exact List.Perm.swap 0 1 []
    · show List.Sorted (· ≤ ·) [(1 : K), 1]
      simp [List.sorted_cons]
  · unfold unstableArgsort
    rw [if_neg h]
    exact insertionArgsort_isArgsort l

theorem applyPerm_singleton {α K : Type} [LinearOrder K] [Zero K]
    {asort : List K → List ℕ} (h : IsArgsort asort) (x : K) (d : α) (l : List α)
    (hl : l.length = 1) : applyPerm d (asort [x]) l = l := by
  have hp := (h [x]).1
  have : asort [x] = [0] := by
    have hlen : (asort [x]).length = 1 := by
      simpa using hp.length_eq
    have hmem : ∀ i ∈ asort [x], i ∈ List.range 1 := fun i hi => hp.mem_iff.1 hi
    match hx : asort [x] with
    | [i] =>
        have := hmem i (by rw [hx]; exact List.mem_singleton_self i)
        simp at this
        rw [this]
    | [] => rw [hx] at hlen; simp at hlen
    | i :: j :: t => rw [hx] at hlen; simp at hlen
  rw [this]
  match l, hl with
  | [a], _ => rfl

/-! ### Geometry -/

/-- A 3-vector of scalars (one row of `positions`, or one lattice vector). -/
structure V3 (K : Type) where
  x : K
  y : K
  z : K
deriving DecidableEq, Repr

def V3.sub {K : Type} [Sub K] (a b : V3 K) : V3 K := ⟨a.x - b.x, a.y - b.y, a.z - b.z⟩

/-- `im[0]*im[0] + im[1]*im[1] + im[2]*im[2]` (env.py line 278). -/
def V3.normSq {K : Type} [Mul K] [Add K] (v : V3 K) : K :=
  v.x * v.x + v.y * v.y + v.z * v.z

def V3.zero {K : Type} [Zero K] : V3 K := ⟨0, 0, 0⟩

/-- `diff_curr + s1 * vec1 + s2 * vec2 + s3 * vec3` (env.py line 277). -/
def imageVec {K : Type} [Field K] (diff v1 v2 v3 : V3 K) (s : K × K × K) : V3 K :=
  ⟨diff.x + s.1 * v1.x + s.2.1 * v2.x + s.2.2 * v3.x,
   diff.y + s.1 * v1.y + s.2.1 * v2.y + s.2.2 * v3.y,
   diff.z + s.1 * v1.z + s.2.1 * v2.z + s.2.2 * v3.z⟩

/-- The triple loop `for s1 in sweep: for s2 in sweep: for s3 in sweep`
(env.py lines 274-276), flattened in iteration order. -/
def sweepTriples {K : Type} (sweep : List K) : List (K × K × K) :=
  sweep.flatMap (fun s1 => sweep.flatMap (fun s2 => sweep.map (fun s3 => (s1, s2, s3))))

/-! ### 2-body neighbor enumerator (env.py `get_2_body_arrays`, lines 221-313,
and `get_2_body_arrays_sepcut`, lines 388-490) -/

/-- One qualifying (atom, periodic image) entry before int8 casting and sorting:
the raw distance, image coordinates, source-atom species and source-atom index. -/
structure BondFill (K : Type) where
  dist : K
  im : V3 K
  spec : ℤ
  idx : ℕ
deriving DecidableEq

/-- The two-pass count-then-fill loop of the 2-body enumerators, as the list of
qualifying entries in fill order: for every atom `n` (outer loop) and every
sweep triple (inner loops), the image displacement is computed and kept iff
`dist < rcut n` and `dist != 0`.  The per-atom cutoff `rcut` is the constant
scalar cutoff in `get_2_body_arrays` and the species-pair-resolved cutoff in
`get_2_body_arrays_sepcut` (resolved once per source atom, not per image). -/
def fill2Body {K : Type} [LinearOrderedField K] (sqrtf : K → K) (positions : List (V3 K))
    (atom : ℕ) (c1 c2 c3 : V3 K) (rcut : ℕ → K) (species : List ℤ)
    (trips : List (K × K × K)) : List (BondFill K) :=
  (List.range positions.length).flatMap (fun n =>
    trips.filterMap (fun s =>
      let diff := V3.sub (positions.getD n V3.zero) (positions.getD atom V3.zero)
      let im := imageVec diff c1 c2 c3 s
      let dist := sqrtf im.normSq
      if dist < rcut n ∧ dist ≠ 0 then
        some ⟨dist, im, species.getD n 0, n⟩
      else none))

/-- Output of a 2-body enumerator:
`(bond_array_2, bond_positions_2, etypes, bond_indices)`. -/
structure Bond2Out (K : Type) where
  bond_array_2 : List (List K)
  bond_positions_2 : List (V3 K)
  etypes : List ℤ
  bond_indices : List ℤ
deriving DecidableEq

/-- Shared sorting stage of both 2-body enumerators (env.py lines 286-313):
build the four fill-order arrays (with `etypes` and `bond_indices` stored in
`np.int8` registers), argsort by distance and index all four arrays by the
same permutation. -/
def sort2Body {K : Type} [LinearOrderedField K] (asort : List K → List ℕ)
    (fills : List (BondFill K)) : Bond2Out K :=
  let sort_inds := asort (fills.map (fun f => f.dist))
  { bond_array_2 := applyPerm [] sort_inds
      (fills.map (fun f => [f.dist, f.im.x / f.dist, f.im.y / f.dist, f.im.z / f.dist])),
    bond_positions_2 := applyPerm V3.zero sort_inds (fills.map (fun f => f.im)),
    etypes := applyPerm 0 sort_inds (fills.map (fun f => toInt8 f.spec)),
    bond_indices := applyPerm 0 sort_inds (fills.map (fun f => toInt8 f.idx)) }

/-- env.py lines 221-313.  Scalar-cutoff 2-body enumerator: every atom uses the
same cutoff `cutoff_2`; the candidate images are the full sweep window. -/
def get_2_body_arrays {K : Type} [LinearOrderedField K] (sqrtf : K → K)
    (asort : List K → List ℕ) (positions : List (V3 K)) (atom : ℕ)
    (c1 c2 c3 : V3 K) (cutoff_2 : K) (species : List ℤ) (sweep : List K) : Bond2Out K :=
  sort2Body asort
    (fill2Body sqrtf positions atom c1 c2 c3 (fun _ => cutoff_2) species (sweepTriples sweep))

/-- env.py lines 388-490.  Species-pair-resolved 2-body enumerator: the cutoff
for source atom `n` is `cutoff_2[bond_mask[bn + bcn]]` with
`bn = specie_mask[species[n]]`, `bcn = nspecie * specie_mask[species[atom]]`.
The staging arrays `coords`/`dists` of this variant are allocated with exactly
27 image slots (env.py lines 432-433, 472), so only the first 27 sweep triples
are representable; sweeps with more than 27 images overrun the staging arrays
in the source (an index error), which the embedding models by truncation. -/
def get_2_body_arrays_sepcut {K : Type} [LinearOrderedField K] (sqrtf : K → K)
    (asort : List K → List ℕ) (positions : List (V3 K)) (atom : ℕ)
    (c1 c2 c3 : V3 K) (cutoff_2 : List K) (species : List ℤ) (sweep : List K)
    (nspecie : ℤ) (specie_mask bond_mask : ℤ → ℤ) : Bond2Out K :=
  let bcn := nspecie * specie_mask (species.getD atom 0)
  let rcut := fun n : ℕ =>
    cutoff_2.getD (bond_mask (specie_mask (species.getD n 0) + bcn)).toNat 0
  sort2Body asort
    (fill2Body sqrtf positions atom c1 c2 c3 rcut species ((sweepTriples sweep).take 27))

/-! ### 3-body triplet cross-bond builder (env.py `get_3_body_arrays`,
lines 316-385, and `get_3_body_arrays_sepcut`, lines 493-593) -/

/-- First index whose key exceeds `cutoff_3`, or the list length if none does:
`for count, dist in enumerate(bond_array_2[:, 0]): if dist > cutoff_3: ind_3 =
count; break` with fallback `ind_3 = noa` (env.py lines 352-359); the sepcut
variant computes the same index with `np.where` (lines 544-548). -/
def ind3Of {K : Type} [LinearOrderedField K] (dists : List K) (cutoff_3 : K) : ℕ :=
  match dists with
  | [] => 0
  | d :: rest => if cutoff_3 < d then 0 else ind3Of rest cutoff_3 + 1

/-- Distance column of row `i` of a bond array. -/
def rowDist {K : Type} [Zero K] (ba : List (List K)) (i : ℕ) : K :=
  (ba.getD i []).getD 0 0

/-- State of the inner `for n in range(m + 1, ind_3)` loop of the cross-bond
builders: the row of `cross_bond_inds`, the row of `cross_bond_dists`, the
write cursor `count` and the accepted-edge counter `trips`. -/
structure CrossRowSt (K : Type) where
  inds : List ℤ
  dists : List K
  count : ℕ
  trips : ℕ
deriving DecidableEq

/-- Row `m` of the cross-bond tables (env.py lines 368-383 and 557-591): the
row starts as `ind_3` sentinels `-1` (distances `0`), the cursor starts at
`m + 1`, and every accepted `n` is written at the cursor (through the `int8`
register of `cross_bond_inds`) before advancing it. -/
def crossRow {K : Type} [LinearOrderedField K] (ind3 m : ℕ) (accept : ℕ → Bool)
    (cdist : ℕ → K) : CrossRowSt K :=
  (List.range' (m + 1) (ind3 - (m + 1))).foldl
    (fun st n =>
      if accept n then
        ⟨st.inds.set st.count (toInt8 n), st.dists.set st.count (cdist n),
         st.count + 1, st.trips + 1⟩
      else st)
    ⟨List.replicate ind3 (-1), List.replicate ind3 0, m + 1, 0⟩

/-- Output of a triplet cross-bond builder:
`(bond_array_3, cross_bond_inds, cross_bond_dists, triplet_counts)`. -/
structure Bond3Out (K : Type) where
  bond_array_3 : List (List K)
  cross_bond_inds : List (List ℤ)
  cross_bond_dists : List (List K)
  triplet_counts : List ℤ
deriving DecidableEq

/-- Direct distance between neighbors `m` and `n`:
`sqrt(sum((pos2 - pos1)**2))` (env.py lines 373-376, 578-581). -/
def crossDistOf {K : Type} [LinearOrderedField K] (sqrtf : K → K)
    (bp : List (V3 K)) (m n : ℕ) : K :=
  sqrtf (V3.normSq (V3.sub (bp.getD n V3.zero) (bp.getD m V3.zero)))

/-- env.py lines 316-385.  Scalar-cutoff triplet builder: the bond list is
truncated at the first distance exceeding `cutoff_3`, and a pair `(m, n)` with
`n > m` is accepted iff the direct `m`-`n` distance is (strictly) below
`cutoff_3`.  No condition is placed on the bond distances themselves beyond
the truncation. -/
def get_3_body_arrays {K : Type} [LinearOrderedField K] (sqrtf : K → K)
    (bond_array_2 : List (List K)) (bond_positions_2 : List (V3 K))
    (cutoff_3 : K) : Bond3Out K :=
  let ind3 := ind3Of (bond_array_2.map (fun r => r.getD 0 0)) cutoff_3
  let rows := (List.range ind3).map (fun m =>
    crossRow (K := K) ind3 m
      (fun n => decide (crossDistOf sqrtf bond_positions_2 m n < cutoff_3))
      (crossDistOf sqrtf bond_positions_2 m))
  { bond_array_3 := bond_array_2.take ind3,
    cross_bond_inds := rows.map (fun r => r.inds),
    cross_bond_dists := rows.map (fun r => r.dists),
    triplet_counts := rows.map (fun r => toInt8 r.trips) }

/-- env.py lines 493-593.  Species-pair-resolved triplet builder: the bond
list is truncated at the maximum entry of the `cutoff_3` array; a pair
`(m, n)` is accepted iff the direct `m`-`n` distance is below the cutoff
resolved for the pair `(etypes[m], etypes[n])` AND both bond distances are
(strictly) below their own cutoffs resolved against the central species. -/
def get_3_body_arrays_sepcut {K : Type} [LinearOrderedField K] (sqrtf : K → K)
    (bond_array_2 : List (List K)) (bond_positions_2 : List (V3 K)) (ctype : ℤ)
    (etypes : List ℤ) (cutoff_3 : List K) (nspecie : ℤ)
    (specie_mask cut3b_mask : ℤ → ℤ) : Bond3Out K :=
  let bcn := nspecie * specie_mask ctype
  let cut3 := (cutoff_3.max?).getD 0
  let ind3 := ind3Of (bond_array_2.map (fun r => r.getD 0 0)) cut3
  let rows := (List.range ind3).map (fun m =>
    let bm := specie_mask (etypes.getD m 0)
    let cut_m := cutoff_3.getD (cut3b_mask (bm + bcn)).toNat 0
    let bmn := nspecie * bm
    crossRow (K := K) ind3 m
      (fun n =>
        let bn := specie_mask (etypes.getD n 0)
        let cut_n := cutoff_3.getD (cut3b_mask (bn + bcn)).toNat 0
        let cut_mn := cutoff_3.getD (cut3b_mask (bn + bmn)).toNat 0
        decide (crossDistOf sqrtf bond_positions_2 m n < cut_mn ∧
          rowDist bond_array_2 m < cut_m ∧ rowDist bond_array_2 n < cut_n))
      (crossDistOf sqrtf bond_positions_2 m))
  { bond_array_3 := bond_array_2.take ind3,
    cross_bond_inds := rows.map (fun r => r.inds),
    cross_bond_dists := rows.map (fun r => r.dists),
    triplet_counts := rows.map (fun r => toInt8 r.trips) }

/-! ### Kernel engine (src/flare/kernels/mc_simple.py) -/

/-- `np.array(list(set(species1).intersection(set(species2))))`
(mc_simple.py lines 1878-1879, 2128-2129, 2157-2159, 2457-2458).
Python set iteration order is determined by the set contents alone, so the
intersection is modelled in its canonical sorted order. -/
def useful_species (species1 species2 : List ℤ) : List ℤ :=
  List.insertionSort (· ≤ ·) ((species1.inter species2).dedup)

theorem useful_species_comm (s1 s2 : List ℤ) :
    useful_species s1 s2 = useful_species s2 s1 := by
  have hnodup : ∀ t1 t2 : List ℤ, ((t1.inter t2).dedup).Nodup := fun t1 t2 =>
    List.nodup_dedup _
  have hperm : ∀ t1 t2 : List ℤ,
      List.Perm (useful_species t1 t2) ((t1.inter t2).dedup) := fun t1 t2 =>
    List.perm_insertionSort _ _
  apply List.eq_of_perm_of_sorted
    (r := fun a b : ℤ => a ≤ b)
  · refine ((hperm s1 s2).trans ?_).trans (hperm s2 s1).symm
    apply (List.perm_ext_iff_of_nodup (hnodup s1 s2) (hnodup s2 s1)).2
    intro a
    rw [List.mem_dedup, List.mem_dedup]
    show a ∈ s1 ∩ s2 ↔ a ∈ s2 ∩ s1
    rw [List.mem_inter_iff, List.mem_inter_iff]
    exact and_comm
  · exact List.sorted_insertionSort _ _
  · exact List.sorted_insertionSort _ _

/-- `np.where(species == s)[0][0]`: index of the first occurrence of `s`. -/
def idxOfSpec (species : List ℤ) (s : ℤ) : ℕ := species.indexOf s

/-- mc_simple.py lines 1806-1852 (`two_body_mc_en_jit`): 2-body multi-element
energy/energy kernel.  The cutoff envelope `cutoff_func` is the parameter
`cf` (returning the pair `(f, df)`), `math.exp` is the parameter `expf`. -/
def two_body_mc_en_jit {K : Type} [LinearOrderedField K] (cf : K → K → K → K × K)
    (expf : K → K) (bond_array_1 : List (List K)) (c1 : ℤ) (etypes1 : List ℤ)
    (bond_array_2 : List (List K)) (c2 : ℤ) (etypes2 : List ℤ)
    (sig ls r_cut : K) : K :=
  let ls1 := 1 / (2 * ls * ls)
  let sig2 := sig * sig
  lsum (List.range bond_array_1.length) (fun m =>
    let ri := rowDist bond_array_1 m
    let fi := (cf r_cut ri 0).1
    let e1 := etypes1.getD m 0
    lsum (List.range bond_array_2.length) (fun n =>
      let e2 := etypes2.getD n 0
      if (c1 = c2 ∧ e1 = e2) ∨ (c1 = e2 ∧ c2 = e1) then
        let rj := rowDist bond_array_2 n
        let fj := (cf r_cut rj 0).1
        fi * fj * sig2 * expf (-(ri - rj) * (ri - rj) * ls1)
      else 0))

/-- mc_simple.py lines 2107-2138 (`many_2body_mc_en_jit`): 2-species many-body
energy/energy kernel. -/
def many_2body_mc_en_jit {K : Type} [LinearOrderedField K] (expf : K → K)
    (q_array_1 q_array_2 : List K) (c1 c2 : ℤ) (species1 species2 : List ℤ)
    (sig ls : K) : K :=
  if c1 = c2 then
    lsum (useful_species species1 species2) (fun s =>
      let q1 := q_array_1.getD (idxOfSpec species1 s) 0
      let q2 := q_array_2.getD (idxOfSpec species2 s) 0
      sig * sig * expf (-(q1 - q2) * (q1 - q2) / (2 * ls * ls)))
  else 0

/-- mc_simple.py lines 2445-2476 (`many_3body_mc_en_jit`): 3-species many-body
energy/energy kernel; the pair loop `for sj in useful_species[ind:]` visits
only pairs with position `jnd ≥ ind` in the canonical species order. -/
def many_3body_mc_en_jit {K : Type} [LinearOrderedField K] (expf : K → K)
    (m3b_array_1 m3b_array_2 : List (List K)) (c1 c2 : ℤ)
    (species1 species2 : List ℤ) (sig ls : K) : K :=
  let us := useful_species species1 species2
  if c1 = c2 then
    lsum (List.range us.length) (fun ind =>
      let si := us.getD ind 0
      let si1 := idxOfSpec species1 si
      let si2 := idxOfSpec species2 si
      lsum (List.range' ind (us.length - ind)) (fun jnd =>
        let sj := us.getD jnd 0
        let sj1 := idxOfSpec species1 sj
        let sj2 := idxOfSpec species2 sj
        let q1 := (m3b_array_1.getD si1 []).getD sj1 0
        let q2 := (m3b_array_2.getD si2 []).getD sj2 0
        sig * sig * expf (-(q1 - q2) * (q1 - q2) / (2 * ls * ls))))
  else 0

/-- mc_simple.py lines 1466-1597 (`three_body_mc_en_jit`): 3-body
multi-element energy/energy kernel.  The species gating follows the source
exactly: `tr_spec = [c1, ei1, ei2]`; if `c2` occurs, its first occurrence is
removed; if `ej1` occurs in the remainder, its first occurrence is removed;
the final singleton must equal `ej2`.  The six permutation cases then each add
`sig^2 * exp(-C * ls2) * fi * fj` with their own distance-difference set. -/
def three_body_mc_en_jit {K : Type} [LinearOrderedField K] (cf : K → K → K → K × K)
    (expf : K → K) (bond_array_1 : List (List K)) (c1 : ℤ) (etypes1 : List ℤ)
    (bond_array_2 : List (List K)) (c2 : ℤ) (etypes2 : List ℤ)
    (cross_bond_inds_1 cross_bond_inds_2 : List (List ℤ))
    (cross_bond_dists_1 cross_bond_dists_2 : List (List K))
    (triplets_1 triplets_2 : List ℤ) (sig ls r_cut : K) : K :=
  let sig2 := sig * sig
  let ls2 := 1 / (2 * ls * ls)
  lsum (List.range bond_array_1.length) (fun m =>
    let ri1 := rowDist bond_array_1 m
    let fi1 := (cf r_cut ri1 0).1
    let ei1 := etypes1.getD m 0
    lsum (List.range (triplets_1.getD m 0).toNat) (fun n =>
      let ind1 := ((cross_bond_inds_1.getD m []).getD (m + n + 1) 0).toNat
      let ri2 := rowDist bond_array_1 ind1
      let fi2 := (cf r_cut ri2 0).1
      let ei2 := etypes1.getD ind1 0
      let tr_spec := [c1, ei1, ei2]
      if c2 ∈ tr_spec then
        let tr_spec1 := tr_spec.erase c2
        let ri3 := (cross_bond_dists_1.getD m []).getD (m + n + 1) 0
        let fi3 := (cf r_cut ri3 0).1
        let fi := fi1 * fi2 * fi3
        lsum (List.range bond_array_2.length) (fun p =>
          let rj1 := rowDist bond_array_2 p
          let fj1 := (cf r_cut rj1 0).1
          let ej1 := etypes2.getD p 0
          if ej1 ∈ tr_spec1 then
            let tr_spec2 := tr_spec1.erase ej1
            lsum (List.range (triplets_2.getD p 0).toNat) (fun q =>
              let ind2 := ((cross_bond_inds_2.getD p []).getD (p + q + 1) 0).toNat
              let ej2 := etypes2.getD ind2 0
              if ej2 = tr_spec2.headD 0 then
                let rj2 := rowDist bond_array_2 ind2
                let fj2 := (cf r_cut rj2 0).1
                let rj3 := (cross_bond_dists_2.getD p []).getD (p + q + 1) 0
                let fj3 := (cf r_cut rj3 0).1
                let fj := fj1 * fj2 * fj3
                let r11 := ri1 - rj1
                let r12 := ri1 - rj2
                let r13 := ri1 - rj3
                let r21 := ri2 - rj1
                let r22 := ri2 - rj2
                let r23 := ri2 - rj3
                let r31 := ri3 - rj1
                let r32 := ri3 - rj2
                let r33 := ri3 - rj3
                (if c1 = c2 ∧ ei1 = ej1 ∧ ei2 = ej2 then
                  sig2 * expf (-(r11 * r11 + r22 * r22 + r33 * r33) * ls2) * fi * fj
                 else 0) +
                (if c1 = c2 ∧ ei1 = ej2 ∧ ei2 = ej1 then
                  sig2 * expf (-(r12 * r12 + r21 * r21 + r33 * r33) * ls2) * fi * fj
                 else 0) +
                (if c1 = ej1 ∧ ei1 = ej2 ∧ ei2 = c2 then
                  sig2 * expf (-(r13 * r13 + r21 * r21 + r32 * r32) * ls2) * fi * fj
                 else 0) +
                (if c1 = ej1 ∧ ei1 = c2 ∧ ei2 = ej2 then
                  sig2 * expf (-(r11 * r11 + r23 * r23 + r32 * r32) * ls2) * fi * fj
                 else 0) +
                (if c1 = ej2 ∧ ei1 = ej1 ∧ ei2 = c2 then
                  sig2 * expf (-(r13 * r13 + r22 * r22 + r31 * r31) * ls2) * fi * fj
                 else 0) +
                (if c1 = ej2 ∧ ei1 = c2 ∧ ei2 = ej1 then
                  sig2 * expf (-(r12 * r12 + r23 * r23 + r31 * r31) * ls2) * fi * fj
                 else 0)
              else 0)
          else 0)
      else 0))

/-- Column `d` of row `i` of a bond array (`bond_array[i, d]`). -/
def rowCol {K : Type} [Zero K] (ba : List (List K)) (i d : ℕ) : K :=
  (ba.getD i []).getD d 0

/-- mc_simple.py lines 1749-1803 (`two_body_mc_force_en_jit`): 2-body
force/energy kernel.  `force_energy_helper` lives in flare/kernels/kernels.py,
which is not under src/, and is passed as the opaque parameter `feh` applied
to the argument list `[B, D, fi, fj, fdi, ls1, ls2, sig2]` in source order. -/
def two_body_mc_force_en_jit {K : Type} [LinearOrderedField K]
    (cf : K → K → K → K × K) (feh : List K → K)
    (bond_array_1 : List (List K)) (c1 : ℤ) (etypes1 : List ℤ)
    (bond_array_2 : List (List K)) (c2 : ℤ) (etypes2 : List ℤ)
    (d1 : ℕ) (sig ls r_cut : K) : K :=
  let ls1 := 1 / (2 * ls * ls)
  let ls2 := 1 / (ls * ls)
  let sig2 := sig * sig
  lsum (List.range bond_array_1.length) (fun m =>
    let ri := rowDist bond_array_1 m
    let ci := rowCol bond_array_1 m d1
    let fi := (cf r_cut ri ci).1
    let fdi := (cf r_cut ri ci).2
    let e1 := etypes1.getD m 0
    lsum (List.range bond_array_2.length) (fun n =>
      let e2 := etypes2.getD n 0
      if (c1 = c2 ∧ e1 = e2) ∨ (c1 = e2 ∧ c2 = e1) then
        let rj := rowDist bond_array_2 n
        let fj := (cf r_cut rj 0).1
        let r11 := ri - rj
        feh [r11 * ci, r11 * r11, fi, fj, fdi, ls1, ls2, sig2]
      else 0))

/-- mc_simple.py lines 1318-1463 (`three_body_mc_force_en_jit`): 3-body
force/energy kernel.  `three_body_en_helper` (kernels.py, not under src/) is
the opaque parameter `tbeh` applied to
`[ci1, ci2, rA, rB, rC, fi, fj, fdi, ls1, ls2, sig2]` in source order. -/
def three_body_mc_force_en_jit {K : Type} [LinearOrderedField K]
    (cf : K → K → K → K × K) (tbeh : List K → K)
    (bond_array_1 : List (List K)) (c1 : ℤ) (etypes1 : List ℤ)
    (bond_array_2 : List (List K)) (c2 : ℤ) (etypes2 : List ℤ)
    (cross_bond_inds_1 cross_bond_inds_2 : List (List ℤ))
    (cross_bond_dists_1 cross_bond_dists_2 : List (List K))
    (triplets_1 triplets_2 : List ℤ) (d1 : ℕ) (sig ls r_cut : K) : K :=
  let sig2 := sig * sig
  let ls1 := 1 / (2 * ls * ls)
  let ls2 := 1 / (ls * ls)
  lsum (List.range bond_array_1.length) (fun m =>
    let ri1 := rowDist bond_array_1 m
    let ci1 := rowCol bond_array_1 m d1
    let fi1 := (cf r_cut ri1 ci1).1
    let fdi1 := (cf r_cut ri1 ci1).2
    let ei1 := etypes1.getD m 0
    lsum (List.range (triplets_1.getD m 0).toNat) (fun n =>
      let ind1 := ((cross_bond_inds_1.getD m []).getD (m + n + 1) 0).toNat
      let ri2 := rowDist bond_array_1 ind1
      let ci2 := rowCol bond_array_1 ind1 d1
      let fi2 := (cf r_cut ri2 ci2).1
      let fdi2 := (cf r_cut ri2 ci2).2
      let ei2 := etypes1.getD ind1 0
      let tr_spec := [c1, ei1, ei2]
      if c2 ∈ tr_spec then
        let tr_spec1 := tr_spec.erase c2
        let ri3 := (cross_bond_dists_1.getD m []).getD (m + n + 1) 0
        let fi3 := (cf r_cut ri3 0).1
        let fi := fi1 * fi2 * fi3
        let fdi := fdi1 * fi2 * fi3 + fi1 * fdi2 * fi3
        lsum (List.range bond_array_2.length) (fun p =>
          let ej1 := etypes2.getD p 0
          if ej1 ∈ tr_spec1 then
            let tr_spec2 := tr_spec1.erase ej1
            let rj1 := rowDist bond_array_2 p
            let fj1 := (cf r_cut rj1 0).1
            lsum (List.range (triplets_2.getD p 0).toNat) (fun q =>
              let ind2 := ((cross_bond_inds_2.getD p []).getD (p + q + 1) 0).toNat
              let ej2 := etypes2.getD ind2 0
              if ej2 = tr_spec2.headD 0 then
                let rj2 := rowDist bond_array_2 ind2
                let fj2 := (cf r_cut rj2 0).1
                let rj3 := (cross_bond_dists_2.getD p []).getD (p + q + 1) 0
                let fj3 := (cf r_cut rj3 0).1
                let fj := fj1 * fj2 * fj3
                let r11 := ri1 - rj1
                let r12 := ri1 - rj2
                let r13 := ri1 - rj3
                let r21 := ri2 - rj1
                let r22 := ri2 - rj2
                let r23 := ri2 - rj3
                let r31 := ri3 - rj1
                let r32 := ri3 - rj2
                let r33 := ri3 - rj3
                (if c1 = c2 ∧ ei1 = ej1 ∧ ei2 = ej2 then
                  tbeh [ci1, ci2, r11, r22, r33, fi, fj, fdi, ls1, ls2, sig2] else 0) +
                (if c1 = c2 ∧ ei1 = ej2 ∧ ei2 = ej1 then
                  tbeh [ci1, ci2, r12, r21, r33, fi, fj, fdi, ls1, ls2, sig2] else 0) +
                (if c1 = ej1 ∧ ei1 = ej2 ∧ ei2 = c2 then
                  tbeh [ci1, ci2, r13, r21, r32, fi, fj, fdi, ls1, ls2, sig2] else 0) +
                (if c1 = ej1 ∧ ei1 = c2 ∧ ei2 = ej2 then
                  tbeh [ci1, ci2, r11, r23, r32, fi, fj, fdi, ls1, ls2, sig2] else 0) +
                (if c1 = ej2 ∧ ei1 = ej1 ∧ ei2 = c2 then
                  tbeh [ci1, ci2, r13, r22, r31, fi, fj, fdi, ls1, ls2, sig2] else 0) +
                (if c1 = ej2 ∧ ei1 = c2 ∧ ei2 = ej1 then
                  tbeh [ci1, ci2, r12, r23, r31, fi, fj, fdi, ls1, ls2, sig2] else 0)
              else 0)
          else 0)
      else 0))

/-- Modelled from the spec: `grad_helper` is defined in flare/kernels/kernels.py,
which is not under src/.  The spec (§4.4, §8) states that every kernel is
multiplicatively quadratic in the signal variance σ, so the helper's kernel
term is `sig2 * base` and its σ-derivative term is `sig3 * base` with
`sig2 = σ²` and `sig3 = 2σ` as computed by the caller
(mc_simple.py lines 1710-1711); the geometric factor `base` and the
length-scale derivative `lsterm` are opaque functions of the remaining
arguments, passed in source order. -/
def grad_helper {K : Type} [LinearOrderedField K] (base lsterm : List K → K)
    (args : List K) (sig2 sig3 : K) : K × K × K :=
  (sig2 * base args, sig3 * base args, lsterm args)

/-- Modelled from the spec: `grad_constants` (kernels.py, not under src/)
returns `(sig2, sig3, ls1, ls2, ls3, ls4, ls5, ls6)`.  The σ-components are
σ² and 2σ (the kernel is multiplicatively quadratic in σ, spec §4.4); the
length-scale components mirror the inline constants of
`two_body_mc_grad_jit` (mc_simple.py lines 1703-1708). -/
def grad_constants {K : Type} [LinearOrderedField K] (sig ls : K) :
    K × K × K × K × K × K × K × K :=
  (sig * sig, 2 * sig, 1 / (2 * ls * ls), 1 / (ls * ls),
   (1 / (ls * ls)) * (1 / (ls * ls)), 1 / (ls * ls * ls), ls * ls,
   (1 / (ls * ls)) * (1 / (ls * ls * ls)))

/-- mc_simple.py lines 1667-1746 (`two_body_mc_grad_jit`): 2-body kernel and
hyperparameter gradient.  Result components: `(kern, sig_derv, ls_derv)`;
the source packs the last two into `np.array([sig_derv, ls_derv])`. -/
def two_body_mc_grad_jit {K : Type} [LinearOrderedField K]
    (cf : K → K → K → K × K) (base lsterm : List K → K)
    (bond_array_1 : List (List K)) (c1 : ℤ) (etypes1 : List ℤ)
    (bond_array_2 : List (List K)) (c2 : ℤ) (etypes2 : List ℤ)
    (d1 d2 : ℕ) (sig ls r_cut : K) : K × K × K :=
  let ls1 := 1 / (2 * ls * ls)
  let ls2 := 1 / (ls * ls)
  let ls3 := ls2 * ls2
  let ls4 := 1 / (ls * ls * ls)
  let ls5 := ls * ls
  let ls6 := ls2 * ls4
  let sig2 := sig * sig
  let sig3 := 2 * sig
  lsum (List.range bond_array_1.length) (fun m =>
    let ri := rowDist bond_array_1 m
    let ci := rowCol bond_array_1 m d1
    let fi := (cf r_cut ri ci).1
    let fdi := (cf r_cut ri ci).2
    let e1 := etypes1.getD m 0
    lsum (List.range bond_array_2.length) (fun n =>
      let e2 := etypes2.getD n 0
      if (c1 = c2 ∧ e1 = e2) ∨ (c1 = e2 ∧ c2 = e1) then
        let rj := rowDist bond_array_2 n
        let cj := rowCol bond_array_2 n d2
        let fj := (cf r_cut rj cj).1
        let fdj := (cf r_cut rj cj).2
        let r11 := ri - rj
        grad_helper base lsterm
          [ci * cj, r11 * ci, r11 * cj, r11 * r11, fi, fj, fdi, fdj,
           ls1, ls2, ls3, ls4, ls5, ls6] sig2 sig3
      else 0))

/-- Modelled from the spec: `three_body_grad_helper_1` (kernels.py, not under
src/), with the same σ-quadratic shape as `grad_helper`. -/
def three_body_grad_helper_1 {K : Type} [LinearOrderedField K]
    (base lsterm : List K → K) (args : List K) (sig2 sig3 : K) : K × K × K :=
  (sig2 * base args, sig3 * base args, lsterm args)

/-- Modelled from the spec: `three_body_grad_helper_2` (kernels.py, not under
src/), with the same σ-quadratic shape as `grad_helper`. -/
def three_body_grad_helper_2 {K : Type} [LinearOrderedField K]
    (base lsterm : List K → K) (args : List K) (sig2 sig3 : K) : K × K × K :=
  (sig2 * base args, sig3 * base args, lsterm args)

/-- mc_simple.py lines 1119-1315 (`three_body_mc_grad_jit`): 3-body kernel and
hyperparameter gradient, with the same loop and species-gating structure as
`three_body_mc_en_jit` and result components `(kern, sig_derv, ls_derv)`. -/
def three_body_mc_grad_jit {K : Type} [LinearOrderedField K]
    (cf : K → K → K → K × K) (base1 lsterm1 base2 lsterm2 : List K → K)
    (bond_array_1 : List (List K)) (c1 : ℤ) (etypes1 : List ℤ)
    (bond_array_2 : List (List K)) (c2 : ℤ) (etypes2 : List ℤ)
    (cross_bond_inds_1 cross_bond_inds_2 : List (List ℤ))
    (cross_bond_dists_1 cross_bond_dists_2 : List (List K))
    (triplets_1 triplets_2 : List ℤ) (d1 d2 : ℕ) (sig ls r_cut : K) : K × K × K :=
  let c := grad_constants sig ls
  let sig2 := c.1
  let sig3 := c.2.1
  let ls1 := c.2.2.1
  let ls2 := c.2.2.2.1
  let ls3 := c.2.2.2.2.1
  let ls4 := c.2.2.2.2.2.1
  let ls5 := c.2.2.2.2.2.2.1
  let ls6 := c.2.2.2.2.2.2.2
  lsum (List.range bond_array_1.length) (fun m =>
    let ri1 := rowDist bond_array_1 m
    let ci1 := rowCol bond_array_1 m d1
    let fi1 := (cf r_cut ri1 ci1).1
    let fdi1 := (cf r_cut ri1 ci1).2
    let ei1 := etypes1.getD m 0
    lsum (List.range (triplets_1.getD m 0).toNat) (fun n =>
      let ind1 := ((cross_bond_inds_1.getD m []).getD (m + n + 1) 0).toNat
      let ri3 := (cross_bond_dists_1.getD m []).getD (m + n + 1) 0
      let ri2 := rowDist bond_array_1 ind1
      let ci2 := rowCol bond_array_1 ind1 d1
      let ei2 := etypes1.getD ind1 0
      let tr_spec := [c1, ei1, ei2]
      if c2 ∈ tr_spec then
        let tr_spec1 := tr_spec.erase c2
        let fi2 := (cf r_cut ri2 ci2).1
        let fdi2 := (cf r_cut ri2 ci2).2
        let fi3 := (cf r_cut ri3 0).1
        let fi := fi1 * fi2 * fi3
        let fdi := fdi1 * fi2 * fi3 + fi1 * fdi2 * fi3
        lsum (List.range bond_array_2.length) (fun p =>
          let rj1 := rowDist bond_array_2 p
          let cj1 := rowCol bond_array_2 p d2
          let fj1 := (cf r_cut rj1 cj1).1
          let fdj1 := (cf r_cut rj1 cj1).2
          let ej1 := etypes2.getD p 0
          if ej1 ∈ tr_spec1 then
            let tr_spec2 := tr_spec1.erase ej1
            lsum (List.range (triplets_2.getD p 0).toNat) (fun q =>
              let ind2 := ((cross_bond_inds_2.getD p []).getD (p + q + 1) 0).toNat
              let ej2 := etypes2.getD ind2 0
              if ej2 = tr_spec2.headD 0 then
                let rj3 := (cross_bond_dists_2.getD p []).getD (p + q + 1) 0
                let rj2 := rowDist bond_array_2 ind2
                let cj2 := rowCol bond_array_2 ind2 d2
                let fj2 := (cf r_cut rj2 cj2).1
                let fdj2 := (cf r_cut rj2 cj2).2
                let fj3 := (cf r_cut rj3 0).1
                let fj := fj1 * fj2 * fj3
                let fdj := fdj1 * fj2 * fj3 + fj1 * fdj2 * fj3
                let r11 := ri1 - rj1
                let r12 := ri1 - rj2
                let r13 := ri1 - rj3
                let r21 := ri2 - rj1
                let r22 := ri2 - rj2
                let r23 := ri2 - rj3
                let r31 := ri3 - rj1
                let r32 := ri3 - rj2
                let r33 := ri3 - rj3
                (if c1 = c2 ∧ ei1 = ej1 ∧ ei2 = ej2 then
                  three_body_grad_helper_1 base1 lsterm1
                    [ci1, ci2, cj1, cj2, r11, r22, r33, fi, fj, fdi, fdj,
                     ls1, ls2, ls3, ls4, ls5, ls6] sig2 sig3 else 0) +
                (if c1 = c2 ∧ ei1 = ej2 ∧ ei2 = ej1 then
                  three_body_grad_helper_1 base1 lsterm1
                    [ci1, ci2, cj2, cj1, r12, r21, r33, fi, fj, fdi, fdj,
                     ls1, ls2, ls3, ls4, ls5, ls6] sig2 sig3 else 0) +
                (if c1 = ej1 ∧ ei1 = ej2 ∧ ei2 = c2 then
                  three_body_grad_helper_2 base2 lsterm2
                    [ci2, ci1, cj2, cj1, r21, r13, r32, fi, fj, fdi, fdj,
                     ls1, ls2, ls3, ls4, ls5, ls6] sig2 sig3 else 0) +
                (if c1 = ej1 ∧ ei1 = c2 ∧ ei2 = ej2 then
                  three_body_grad_helper_2 base2 lsterm2
                    [ci1, ci2, cj2, cj1, r11, r23, r32, fi, fj, fdi, fdj,
                     ls1, ls2, ls3, ls4, ls5, ls6] sig2 sig3 else 0) +
                (if c1 = ej2 ∧ ei1 = ej1 ∧ ei2 = c2 then
                  three_body_grad_helper_2 base2 lsterm2
                    [ci2, ci1, cj1, cj2, r22, r13, r31, fi, fj, fdi, fdj,
                     ls1, ls2, ls3, ls4, ls5, ls6] sig2 sig3 else 0) +
                (if c1 = ej2 ∧ ei1 = c2 ∧ ei2 = ej1 then
                  three_body_grad_helper_2 base2 lsterm2
                    [ci1, ci2, cj1, cj2, r12, r23, r31, fi, fj, fdi, fdj,
                     ls1, ls2, ls3, ls4, ls5, ls6] sig2 sig3 else 0)
              else 0)
          else 0)
      else 0))

/-- mc_simple.py lines 1944-2043 (`many_2body_mc_grad_jit`): 2-species
many-body kernel and hyperparameter gradient.  `k_sq_exp_double_dev` and
`mb_grad_helper_ls_` (kernels.py, not under src/) are the opaque parameters
`kfn` and `lsfn`.  The σ-derivative is literally `2. / sig * kern`
(line 2040).  Result components: `(kern, sig_derv, ls_derv)`. -/
def many_2body_mc_grad_jit {K : Type} [LinearOrderedField K]
    (kfn : K → K → K → K → K) (lsfn : K → K → K → K)
    (array_1 array_2 : List K) (grads_1 grads_2 : List (List K))
    (neigh_array_1 neigh_array_2 : List (List K))
    (neigh_grads_1 neigh_grads_2 : List (List K))
    (c1 c2 : ℤ) (etypes1 etypes2 : List ℤ) (species1 species2 : List ℤ)
    (d1 d2 : ℕ) (sig ls : K) : K × K × K :=
  let us := useful_species species1 species2
  let sc1 := idxOfSpec species1 c1
  let sc2 := idxOfSpec species2 c2
  let sc12 := idxOfSpec species1 c2
  let sc21 := idxOfSpec species2 c1
  let center : K × K :=
    if c1 = c2 then
      lsum us (fun s =>
        let s1 := idxOfSpec species1 s
        let s2 := idxOfSpec species2 s
        let q1 := array_1.getD s1 0
        let q2 := array_2.getD s2 0
        let k12 := kfn q1 q2 sig ls
        let dk12 := lsfn ((q1 - q2) ^ 2) sig ls
        let q1s_grad := (grads_1.getD s1 []).getD (d1 - 1) 0
        let q2s_grad := (grads_2.getD s2 []).getD (d2 - 1) 0
        (k12 * q1s_grad * q2s_grad, dk12 * q1s_grad * q2s_grad))
    else 0
  let neigh1 : K × K :=
    lsum (List.range neigh_array_1.length) (fun n =>
      if etypes1.getD n 0 = c2 then
        let qn1 := (neigh_array_1.getD n []).getD sc1 0
        let q21 := array_2.getD sc21 0
        let kn2 := kfn qn1 q21 sig ls
        let dkn2 := lsfn ((qn1 - q21) ^ 2) sig ls
        let qn1_grad := (neigh_grads_1.getD n []).getD (d1 - 1) 0
        let q21_grad := (grads_2.getD sc21 []).getD (d2 - 1) 0
        (kn2 * qn1_grad * q21_grad, dkn2 * qn1_grad * q21_grad)
      else 0)
  let neigh2 : K × K :=
    lsum (List.range neigh_array_2.length) (fun m =>
      if etypes2.getD m 0 = c1 then
        let qm2 := (neigh_array_2.getD m []).getD sc2 0
        let q12 := array_1.getD sc12 0
        let km1 := kfn qm2 q12 sig ls
        let dkm1 := lsfn ((q12 - qm2) ^ 2) sig ls
        let qm2_grad := (neigh_grads_2.getD m []).getD (d2 - 1) 0
        let q12_grad := (grads_1.getD sc12 []).getD (d1 - 1) 0
        (km1 * qm2_grad * q12_grad, dkm1 * qm2_grad * q12_grad)
      else 0)
  let nn : K × K :=
    if c1 = c2 then
      lsum (List.range neigh_array_1.length) (fun n =>
        lsum (List.range neigh_array_2.length) (fun m =>
          if etypes1.getD n 0 = etypes2.getD m 0 then
            let qn1 := (neigh_array_1.getD n []).getD sc1 0
            let qm2 := (neigh_array_2.getD m []).getD sc2 0
            let kmn := kfn qn1 qm2 sig ls
            let dkmn := lsfn ((qn1 - qm2) ^ 2) sig ls
            let qn1_grad := (neigh_grads_1.getD n []).getD (d1 - 1) 0
            let qm2_grad := (neigh_grads_2.getD m []).getD (d2 - 1) 0
            (kmn * qn1_grad * qm2_grad, dkmn * qn1_grad * qm2_grad)
          else 0))
    else 0
  let kern := center.1 + neigh1.1 + neigh2.1 + nn.1
  let ls_derv := center.2 + neigh1.2 + neigh2.2 + nn.2
  (kern, 2 / sig * kern, ls_derv)

/-- mc_simple.py lines 2250-2377 (`many_3body_mc_grad_jit`): 3-species
many-body kernel and hyperparameter gradient; the σ-derivative is literally
`2. / sig * kern` (line 2374).  Result components: `(kern, sig_derv, ls_derv)`. -/
def many_3body_mc_grad_jit {K : Type} [LinearOrderedField K]
    (kfn : K → K → K → K → K) (lsfn : K → K → K → K)
    (array_1 array_2 : List (List K)) (grads_1 grads_2 : List (List (List K)))
    (neigh_array_1 neigh_array_2 : List (List (List K)))
    (neigh_grads_1 neigh_grads_2 : List (List (List K)))
    (c1 c2 : ℤ) (etypes1 etypes2 : List ℤ) (species1 species2 : List ℤ)
    (d1 d2 : ℕ) (sig ls : K) : K × K × K :=
  let us := useful_species species1 species2
  let sc1 := idxOfSpec species1 c1
  let sc2 := idxOfSpec species2 c2
  let sc12 := idxOfSpec species1 c2
  let sc21 := idxOfSpec species2 c1
  let center : K × K :=
    if c1 = c2 then
      lsum (List.range us.length) (fun si =>
        let si1 := idxOfSpec species1 (us.getD si 0)
        let si2 := idxOfSpec species2 (us.getD si 0)
        lsum (List.range' si (us.length - si)) (fun sj =>
          let sj1 := idxOfSpec species1 (us.getD sj 0)
          let sj2 := idxOfSpec species2 (us.getD sj 0)
          let q1 := ((array_1.getD si1 []).getD sj1 0)
          let q2 := ((array_2.getD si2 []).getD sj2 0)
          let k12 := kfn q1 q2 sig ls
          let dk12 := lsfn ((q1 - q2) ^ 2) sig ls
          let qni_grad := (((grads_1.getD si1 []).getD sj1 []).getD (d1 - 1) 0)
          let qmj_grad := (((grads_2.getD si2 []).getD sj2 []).getD (d2 - 1) 0)
          (k12 * qni_grad * qmj_grad, dk12 * qni_grad * qmj_grad)))
    else 0
  let neigh1 : K × K :=
    lsum (List.range neigh_array_1.length) (fun n =>
      if etypes1.getD n 0 = c2 then
        lsum (List.range us.length) (fun s =>
          let s1 := idxOfSpec species1 (us.getD s 0)
          let s2 := idxOfSpec species2 (us.getD s 0)
          let qn1s := (((neigh_array_1.getD n []).getD sc1 []).getD s1 0)
          let q21s := ((array_2.getD sc21 []).getD s2 0)
          let kn2 := kfn qn1s q21s sig ls
          let dkn2 := lsfn ((qn1s - q21s) ^ 2) sig ls
          let qn1s_grad := (((neigh_grads_1.getD n []).getD s1 []).getD (d1 - 1) 0)
          let q21s_grad := (((grads_2.getD sc21 []).getD s2 []).getD (d2 - 1) 0)
          (kn2 * qn1s_grad * q21s_grad, dkn2 * qn1s_grad * q21s_grad))
      else 0)
  let neigh2 : K × K :=
    lsum (List.range neigh_array_2.length) (fun m =>
      if etypes2.getD m 0 = c1 then
        lsum (List.range us.length) (fun s =>
          let s1 := idxOfSpec species1 (us.getD s 0)
          let s2 := idxOfSpec species2 (us.getD s 0)
          let qm2s := (((neigh_array_2.getD m []).getD sc2 []).getD s2 0)
          let q12s := ((array_1.getD sc12 []).getD s1 0)
          let km1 := kfn qm2s q12s sig ls
          let dkm1 := lsfn ((q12s - qm2s) ^ 2) sig ls
          let qm2s_grad := (((neigh_grads_2.getD m []).getD s2 []).getD (d2 - 1) 0)
          let q12s_grad := (((grads_1.getD sc12 []).getD s1 []).getD (d1 - 1) 0)
          (km1 * qm2s_grad * q12s_grad, dkm1 * qm2s_grad * q12s_grad))
      else 0)
  let nn : K × K :=
    lsum (List.range neigh_array_1.length) (fun n =>
      lsum (List.range neigh_array_2.length) (fun m =>
        if etypes1.getD n 0 = etypes2.getD m 0 then
          if c1 = c2 then
            lsum (List.range us.length) (fun s =>
              let s1 := idxOfSpec species1 (us.getD s 0)
              let s2 := idxOfSpec species2 (us.getD s 0)
              let qn1s := (((neigh_array_1.getD n []).getD sc1 []).getD s1 0)
              let qm2s := (((neigh_array_2.getD m []).getD sc2 []).getD s2 0)
              let kmn := kfn qn1s qm2s sig ls
              let dkmn := lsfn ((qn1s - qm2s) ^ 2) sig ls
              let qn1s_grad := (((neigh_grads_1.getD n []).getD s1 []).getD (d1 - 1) 0)
              let qm2s_grad := (((neigh_grads_2.getD m []).getD s2 []).getD (d2 - 1) 0)
              (kmn * qn1s_grad * qm2s_grad, dkmn * qn1s_grad * qm2s_grad))
          else
            let qn12 := (((neigh_array_1.getD n []).getD sc1 []).getD sc12 0)
            let qm21 := (((neigh_array_2.getD m []).getD sc2 []).getD sc21 0)
            let kmn := kfn qn12 qm21 sig ls
            let dkmn := lsfn ((qn12 - qm21) ^ 2) sig ls
            let qn12_grad := (((neigh_grads_1.getD n []).getD sc12 []).getD (d1 - 1) 0)
            let qm21_grad := (((neigh_grads_2.getD m []).getD sc21 []).getD (d2 - 1) 0)
            (kmn * qn12_grad * qm21_grad, dkmn * qn12_grad * qm21_grad)
        else 0))
  let kern := center.1 + neigh1.1 + neigh2.1 + nn.1
  let ls_derv := center.2 + neigh1.2 + neigh2.2 + nn.2
  (kern, 2 / sig * kern, ls_derv)

/-! ### AtomicEnvironment descriptor bundle and kernel wrappers -/

/-- The descriptor fields of an `AtomicEnvironment` (env.py lines 69-157)
that the kernel wrappers read.  Field names follow the source attributes. -/
structure AtomicEnvK (K : Type) where
  ctype : ℤ
  etypes : List ℤ
  bond_array_2 : List (List K)
  bond_array_3 : List (List K)
  cross_bond_inds : List (List ℤ)
  cross_bond_dists : List (List K)
  triplet_counts : List ℤ
  m2b_array : List K
  m2b_unique_species : List ℤ
  m3b_array : List (List K)
  m3b_unique_species : List ℤ

/-- mc_simple.py lines 643-666 (`two_body_mc_en`): the ÷4 normalization is
applied here, inside the kernel function. -/
def two_body_mc_en {K : Type} [LinearOrderedField K] (cf : K → K → K → K × K)
    (expf : K → K) (env1 env2 : AtomicEnvK K) (hyps cutoffs : List K) : K :=
  two_body_mc_en_jit cf expf env1.bond_array_2 env1.ctype env1.etypes
    env2.bond_array_2 env2.ctype env2.etypes
    (hyps.getD 0 0) (hyps.getD 1 0) (cutoffs.getD 0 0) / 4

/-- mc_simple.py lines 613-640 (`two_body_mc_force_en`): the ÷2 normalization
is applied here, inside the kernel function. -/
def two_body_mc_force_en {K : Type} [LinearOrderedField K] (cf : K → K → K → K × K)
    (feh : List K → K) (env1 env2 : AtomicEnvK K) (d1 : ℕ) (hyps cutoffs : List K) : K :=
  two_body_mc_force_en_jit cf feh env1.bond_array_2 env1.ctype env1.etypes
    env2.bond_array_2 env2.ctype env2.etypes
    d1 (hyps.getD 0 0) (hyps.getD 1 0) (cutoffs.getD 0 0) / 2

/-- mc_simple.py lines 521-547 (`three_body_mc_en`): the ÷9 normalization is
applied here, inside the kernel function. -/
def three_body_mc_en {K : Type} [LinearOrderedField K] (cf : K → K → K → K × K)
    (expf : K → K) (env1 env2 : AtomicEnvK K) (hyps cutoffs : List K) : K :=
  three_body_mc_en_jit cf expf env1.bond_array_3 env1.ctype env1.etypes
    env2.bond_array_3 env2.ctype env2.etypes
    env1.cross_bond_inds env2.cross_bond_inds
    env1.cross_bond_dists env2.cross_bond_dists
    env1.triplet_counts env2.triplet_counts
    (hyps.getD 0 0) (hyps.getD 1 0) (cutoffs.getD 1 0) / 9

/-- mc_simple.py lines 484-518 (`three_body_mc_force_en`): the ÷3
normalization is applied here, inside the kernel function. -/
def three_body_mc_force_en {K : Type} [LinearOrderedField K]
    (cf : K → K → K → K × K) (tbeh : List K → K) (env1 env2 : AtomicEnvK K)
    (d1 : ℕ) (hyps cutoffs : List K) : K :=
  three_body_mc_force_en_jit cf tbeh env1.bond_array_3 env1.ctype env1.etypes
    env2.bond_array_3 env2.ctype env2.etypes
    env1.cross_bond_inds env2.cross_bond_inds
    env1.cross_bond_dists env2.cross_bond_dists
    env1.triplet_counts env2.triplet_counts
    d1 (hyps.getD 0 0) (hyps.getD 1 0) (cutoffs.getD 1 0) / 3

/-- mc_simple.py lines 165-203 (`two_plus_three_mc_en`): sum of the normalized
2-body (÷4) and 3-body (÷9) energy/energy terms. -/
def two_plus_three_mc_en {K : Type} [LinearOrderedField K] (cf : K → K → K → K × K)
    (expf : K → K) (env1 env2 : AtomicEnvK K) (hyps cutoffs : List K) : K :=
  two_body_mc_en_jit cf expf env1.bond_array_2 env1.ctype env1.etypes
    env2.bond_array_2 env2.ctype env2.etypes
    (hyps.getD 0 0) (hyps.getD 1 0) (cutoffs.getD 0 0) / 4 +
  three_body_mc_en_jit cf expf env1.bond_array_3 env1.ctype env1.etypes
    env2.bond_array_3 env2.ctype env2.etypes
    env1.cross_bond_inds env2.cross_bond_inds
    env1.cross_bond_dists env2.cross_bond_dists
    env1.triplet_counts env2.triplet_counts
    (hyps.getD 2 0) (hyps.getD 3 0) (cutoffs.getD 1 0) / 9

/-- mc_simple.py lines 117-162 (`two_plus_three_mc_force_en`): sum of the
normalized 2-body (÷2) and 3-body (÷3) force/energy terms. -/
def two_plus_three_mc_force_en {K : Type} [LinearOrderedField K]
    (cf : K → K → K → K × K) (feh tbeh : List K → K) (env1 env2 : AtomicEnvK K)
    (d1 : ℕ) (hyps cutoffs : List K) : K :=
  two_body_mc_force_en_jit cf feh env1.bond_array_2 env1.ctype env1.etypes
    env2.bond_array_2 env2.ctype env2.etypes
    d1 (hyps.getD 0 0) (hyps.getD 1 0) (cutoffs.getD 0 0) / 2 +
  three_body_mc_force_en_jit cf tbeh env1.bond_array_3 env1.ctype env1.etypes
    env2.bond_array_3 env2.ctype env2.etypes
    env1.cross_bond_inds env2.cross_bond_inds
    env1.cross_bond_dists env2.cross_bond_dists
    env1.triplet_counts env2.triplet_counts
    d1 (hyps.getD 2 0) (hyps.getD 3 0) (cutoffs.getD 1 0) / 3

/-- mc_simple.py lines 871-890 (`many_2body_mc_en`). -/
def many_2body_mc_en {K : Type} [LinearOrderedField K] (expf : K → K)
    (env1 env2 : AtomicEnvK K) (hyps : List K) : K :=
  many_2body_mc_en_jit expf env1.m2b_array env2.m2b_array env1.ctype env2.ctype
    env1.m2b_unique_species env2.m2b_unique_species (hyps.getD 0 0) (hyps.getD 1 0)

/-- mc_simple.py lines 936-943 (`many_3body_mc_en`). -/
def many_3body_mc_en {K : Type} [LinearOrderedField K] (expf : K → K)
    (env1 env2 : AtomicEnvK K) (hyps : List K) : K :=
  many_3body_mc_en_jit expf env1.m3b_array env2.m3b_array env1.ctype env2.ctype
    env1.m3b_unique_species env2.m3b_unique_species (hyps.getD 0 0) (hyps.getD 1 0)

/-- mc_simple.py lines 775-801 (`many_body_mc_en`): sum of the 2-species term
(hyps 0-1) and the 3-species term (hyps 2-3). -/
def many_body_mc_en {K : Type} [LinearOrderedField K] (expf : K → K)
    (env1 env2 : AtomicEnvK K) (hyps : List K) : K :=
  many_2body_mc_en_jit expf env1.m2b_array env2.m2b_array env1.ctype env2.ctype
    env1.m2b_unique_species env2.m2b_unique_species (hyps.getD 0 0) (hyps.getD 1 0) +
  many_3body_mc_en_jit expf env1.m3b_array env2.m3b_array env1.ctype env2.ctype
    env1.m3b_unique_species env2.m3b_unique_species (hyps.getD 2 0) (hyps.getD 3 0)

/-- mc_simple.py lines 371-412 (`two_plus_three_plus_many_body_mc_en`):
normalized 2-body (÷4) and 3-body (÷9) terms plus the many-body terms. -/
def two_plus_three_plus_many_body_mc_en {K : Type} [LinearOrderedField K]
    (cf : K → K → K → K × K) (expf : K → K) (env1 env2 : AtomicEnvK K)
    (hyps cutoffs : List K) : K :=
  two_body_mc_en_jit cf expf env1.bond_array_2 env1.ctype env1.etypes
    env2.bond_array_2 env2.ctype env2.etypes
    (hyps.getD 0 0) (hyps.getD 1 0) (cutoffs.getD 0 0) / 4 +
  three_body_mc_en_jit cf expf env1.bond_array_3 env1.ctype env1.etypes
    env2.bond_array_3 env2.ctype env2.etypes
    env1.cross_bond_inds env2.cross_bond_inds
    env1.cross_bond_dists env2.cross_bond_dists
    env1.triplet_counts env2.triplet_counts
    (hyps.getD 2 0) (hyps.getD 3 0) (cutoffs.getD 1 0) / 9 +
  many_2body_mc_en_jit expf env1.m2b_array env2.m2b_array env1.ctype env2.ctype
    env1.m2b_unique_species env2.m2b_unique_species (hyps.getD 4 0) (hyps.getD 5 0) +
  many_3body_mc_en_jit expf env1.m3b_array env2.m3b_array env1.ctype env2.ctype
    env1.m3b_unique_species env2.m3b_unique_species (hyps.getD 6 0) (hyps.getD 7 0)

/-! ### Kernel-name registry (mc_simple.py lines 2480-2524, `_str_to_kernel`) -/

/-- The module-level kernel functions of mc_simple.py that the registry can
point at (one constructor per Python function object). -/
inductive MCKernelTag where
  | two_body_mc
  | two_body_mc_en
  | two_body_mc_grad
  | two_body_mc_force_en
  | three_body_mc
  | three_body_mc_grad
  | three_body_mc_en
  | three_body_mc_force_en
  | two_plus_three_body_mc
  | two_plus_three_body_mc_grad
  | two_plus_three_mc_en
  | two_plus_three_mc_force_en
  | many_2body_mc
  | many_2body_mc_en
  | many_2body_mc_grad
  | many_2body_mc_force_en
  | many_body_mc
  | many_body_mc_en
  | many_body_mc_grad
  | many_body_mc_force_en
  | two_plus_three_plus_many_body_mc
  | two_plus_three_plus_many_body_mc_grad
  | two_plus_three_plus_many_body_mc_en
  | two_plus_three_plus_many_body_mc_force_en
deriving DecidableEq, Repr

/-- mc_simple.py lines 2480-2524: the `_str_to_kernel` dictionary, entry for
entry in source order.  Note that the source maps the `many_3body_mc*` long
names to the `many_2body_mc*` functions. -/
def str_to_kernel : List (String × MCKernelTag) :=
  [("two_body_mc", MCKernelTag.two_body_mc),
   ("two_body_mc_en", MCKernelTag.two_body_mc_en),
   ("two_body_mc_grad", MCKernelTag.two_body_mc_grad),
   ("two_body_mc_force_en", MCKernelTag.two_body_mc_force_en),
   ("three_body_mc", MCKernelTag.three_body_mc),
   ("three_body_mc_grad", MCKernelTag.three_body_mc_grad),
   ("three_body_mc_en", MCKernelTag.three_body_mc_en),
   ("three_body_mc_force_en", MCKernelTag.three_body_mc_force_en),
   ("two_plus_three_body_mc", MCKernelTag.two_plus_three_body_mc),
   ("two_plus_three_body_mc_grad", MCKernelTag.two_plus_three_body_mc_grad),
   ("two_plus_three_mc_en", MCKernelTag.two_plus_three_mc_en),
   ("two_plus_three_mc_force_en", MCKernelTag.two_plus_three_mc_force_en),
   ("2", MCKernelTag.two_body_mc),
   ("2_en", MCKernelTag.two_body_mc_en),
   ("2_grad", MCKernelTag.two_body_mc_grad),
   ("2_force_en", MCKernelTag.two_body_mc_force_en),
   ("3", MCKernelTag.three_body_mc),
   ("3_grad", MCKernelTag.three_body_mc_grad),
   ("3_en", MCKernelTag.three_body_mc_en),
   ("3_force_en", MCKernelTag.three_body_mc_force_en),
   ("2+3", MCKernelTag.two_plus_three_body_mc),
   ("2+3_grad", MCKernelTag.two_plus_three_body_mc_grad),
   ("2+3_en", MCKernelTag.two_plus_three_mc_en),
   ("2+3_force_en", MCKernelTag.two_plus_three_mc_force_en),
   ("many_2body_mc", MCKernelTag.many_2body_mc),
   ("many_2body_mc_en", MCKernelTag.many_2body_mc_en),
   ("many_2body_mc_grad", MCKernelTag.many_2body_mc_grad),
   ("many_2body_mc_force_en", MCKernelTag.many_2body_mc_force_en),
   ("many_3body_mc", MCKernelTag.many_2body_mc),
   ("many_3body_mc_en", MCKernelTag.many_2body_mc_en),
   ("many_3body_mc_grad", MCKernelTag.many_2body_mc_grad),
   ("many_3body_mc_force_en", MCKernelTag.many_2body_mc_force_en),
   ("many", MCKernelTag.many_body_mc),
   ("many_en", MCKernelTag.many_body_mc_en),
   ("many_grad", MCKernelTag.many_body_mc_grad),
   ("many_force_en", MCKernelTag.many_body_mc_force_en),
   ("two_plus_three_plus_many_body_mc", MCKernelTag.two_plus_three_plus_many_body_mc),
   ("two_plus_three_plus_many_body_mc_grad", MCKernelTag.two_plus_three_plus_many_body_mc_grad),
   ("two_plus_three_plus_many_body_mc_en", MCKernelTag.two_plus_three_plus_many_body_mc_en),
   ("two_plus_three_plus_many_body_mc_force_en", MCKernelTag.two_plus_three_plus_many_body_mc_force_en),
   ("2+3+many", MCKernelTag.two_plus_three_plus_many_body_mc),
   ("2+3+many_grad", MCKernelTag.two_plus_three_plus_many_body_mc_grad),
   ("2+3+many_en", MCKernelTag.two_plus_three_plus_many_body_mc_en),
   ("2+3+many_force_en", MCKernelTag.two_plus_three_plus_many_body_mc_force_en)]

/-- Dictionary lookup `_str_to_kernel[name]` as an optional value. -/
def strToKernelLookup (name : String) : Option MCKernelTag :=
  (str_to_kernel.find? (fun e => e.1 = name)).map (fun e => e.2)

/-! ### Analysis of the builders -/

theorem getD_set_self {α : Type} (l : List α) (i : ℕ) (v d : α) (h : i < l.length) :
    (l.set i v).getD i d = v := by
  simp [List.getD_eq_getD_get?, h]

theorem getD_set_ne {α : Type} (l : List α) {i j : ℕ} (v d : α) (h : i ≠ j) :
    (l.set i v).getD j d = l.getD j d := by
  simp [List.getD_eq_getD_get?, List.getElem?_set_ne h]

theorem getD_replicate {α : Type} {n : ℕ} (v d : α) {k : ℕ} (hk : k < n) :
    (List.replicate n v).getD k d = v := by
  simp [List.getD_eq_getD_get?, List.getElem?_replicate, hk]

theorem getD_of_length_le {α : Type} (l : List α) {k : ℕ} (d : α) (h : l.length ≤ k) :
    l.getD k d = d := by
  simp [List.getD_eq_getD_get?, List.getElem?_eq_none h]

theorem getD_map_lt {α β : Type} (f : α → β) (l : List α) {j : ℕ} (d : β) (d2 : α)
    (hj : j < l.length) : (l.map f).getD j d = f (l.getD j d2) := by
  simp [List.getD_eq_getD_get?, List.getElem?_map, List.getElem?_eq_getElem hj]

theorem getD_mem {α : Type} (l : List α) {j : ℕ} (d : α) (hj : j < l.length) :
    l.getD j d ∈ l := by
  have h1 : l.getD j d = l[j] := by
    simp [List.getD_eq_getD_get?, List.getElem?_eq_getElem hj]
  rw [h1]
  exact List.getElem_mem hj

/-- Write a run of values at consecutive positions starting at `c`:
the functional residue of the `count`-cursor writes of the cross-bond loops. -/
def writeSeq {α : Type} : List α → ℕ → List α → List α
  | inds, _, [] => inds
  | inds, c, v :: vs => writeSeq (inds.set c v) (c + 1) vs

theorem writeSeq_length {α : Type} (vs : List α) :
    ∀ (inds : List α) (c : ℕ), (writeSeq inds c vs).length = inds.length := by
  induction vs with
  | nil => intro inds c; rfl
  | cons v vs ih =>
      intro inds c
      show (writeSeq (inds.set c v) (c + 1) vs).length = _
      rw [ih, List.length_set]

theorem writeSeq_getD_lt {α : Type} (vs : List α) :
    ∀ (inds : List α) (c k : ℕ) (d : α), k < c →
      (writeSeq inds c vs).getD k d = inds.getD k d := by
  induction vs with
  | nil => intro inds c k d _; rfl
  | cons v vs ih =>
      intro inds c k d hk
      show (writeSeq (inds.set c v) (c + 1) vs).getD k d = _
      rw [ih _ _ _ _ (by omega), getD_set_ne _ _ _ (by omega)]

theorem writeSeq_getD_ge {α : Type} (vs : List α) :
    ∀ (inds : List α) (c k : ℕ) (d : α), c + vs.length ≤ k →
      (writeSeq inds c vs).getD k d = inds.getD k d := by
  induction vs with
  | nil => intro inds c k d _; rfl
  | cons v vs ih =>
      intro inds c k d hk
      show (writeSeq (inds.set c v) (c + 1) vs).getD k d = _
      rw [ih _ _ _ _ (by simp at hk ⊢; omega), getD_set_ne _ _ _ (by simp at hk; omega)]

theorem writeSeq_getD_mid {α : Type} (vs : List α) :
    ∀ (inds : List α) (c j : ℕ) (d : α), j < vs.length → c + vs.length ≤ inds.length →
      (writeSeq inds c vs).getD (c + j) d = vs.getD j d := by
  induction vs with
  | nil => intro inds c j d hj _; exact absurd hj (by simp)
  | cons v vs ih =>
      intro inds c j d hj hlen
      show (writeSeq (inds.set c v) (c + 1) vs).getD (c + j) d = _
      match j with
      | 0 =>
          rw [writeSeq_getD_lt vs _ _ _ _ (by omega)]
          rw [Nat.add_zero]
          rw [getD_set_self _ _ _ _ (by simp at hlen; omega)]
          rfl
      | Nat.succ j' =>
          have : c + (j' + 1) = (c + 1) + j' := by omega
          rw [this, ih _ _ _ _ (by simp at hj; omega) (by simp at hlen ⊢; omega)]
          rfl

theorem crossRow_foldl_aux {K : Type} [LinearOrderedField K] (accept : ℕ → Bool)
    (cdist : ℕ → K) (l : List ℕ) :
    ∀ (inds : List ℤ) (dists : List K) (c t : ℕ),
      l.foldl
        (fun (st : CrossRowSt K) n =>
          if accept n then
            ⟨st.inds.set st.count (toInt8 n), st.dists.set st.count (cdist n),
             st.count + 1, st.trips + 1⟩
          else st)
        ⟨inds, dists, c, t⟩ =
      ⟨writeSeq inds c ((l.filter accept).map (fun n : ℕ => toInt8 n)),
       writeSeq dists c ((l.filter accept).map cdist),
       c + (l.filter accept).length, t + (l.filter accept).length⟩ := by
  induction l with
  | nil => intro inds dists c t; simp [writeSeq]
  | cons n l ih =>
      intro inds dists c t
      rw [List.foldl_cons]
      by_cases h : accept n = true
      · rw [if_pos h, ih, List.filter_cons_of_pos h, List.map_cons, List.map_cons]
        simp only [writeSeq, List.length_cons]
        rw [show c + ((l.filter accept).length + 1) = c + 1 + (l.filter accept).length
              from by omega,
           show t + ((l.filter accept).length + 1) = t + 1 + (l.filter accept).length
              from by omega]
      · rw [if_neg h, ih, List.filter_cons_of_neg h]

/-- Accepted third-atom indices of row `m`, in loop order. -/
def acceptedOf (ind3 m : ℕ) (accept : ℕ → Bool) : List ℕ :=
  (List.range' (m + 1) (ind3 - (m + 1))).filter accept

theorem crossRow_eq {K : Type} [LinearOrderedField K] (ind3 m : ℕ) (accept : ℕ → Bool)
    (cdist : ℕ → K) :
    crossRow ind3 m accept cdist =
      ⟨writeSeq (List.replicate ind3 (-1)) (m + 1)
         ((acceptedOf ind3 m accept).map (fun n : ℕ => toInt8 n)),
       writeSeq (List.replicate ind3 0) (m + 1)
         ((acceptedOf ind3 m accept).map cdist),
       (m + 1) + (acceptedOf ind3 m accept).length,
       (acceptedOf ind3 m accept).length⟩ := by
  unfold crossRow acceptedOf
  rw [crossRow_foldl_aux]
  rw [Nat.zero_add]

theorem acceptedOf_length_le (ind3 m : ℕ) (accept : ℕ → Bool) :
    (m + 1) + (acceptedOf ind3 m accept).length ≤ max ind3 (m + 1) := by
  have h := List.length_filter_le accept (List.range' (m + 1) (ind3 - (m + 1)))
  rw [List.length_range'] at h
  unfold acceptedOf
  omega

theorem acceptedOf_mem {ind3 m : ℕ} {accept : ℕ → Bool} {n : ℕ}
    (h : n ∈ acceptedOf ind3 m accept) :
    m + 1 ≤ n ∧ n < ind3 ∧ accept n = true := by
  unfold acceptedOf at h
  have h1 := List.of_mem_filter h
  have h2 := List.mem_of_mem_filter h
  rw [List.mem_range'] at h2
  obtain ⟨i, hi, hn⟩ := h2
  exact ⟨by omega, by omega, h1⟩

/-- Entry specification of a cross-bond row: a non-sentinel entry at column
`k` means `k > m`, and the stored value is the int8 image of an accepted
index `n` with `m < n < ind3`; the matching distance column holds `cdist n`. -/
theorem crossRow_inds_spec {K : Type} [LinearOrderedField K] (ind3 m : ℕ)
    (accept : ℕ → Bool) (cdist : ℕ → K) (k : ℕ)
    (h : ((crossRow (K := K) ind3 m accept cdist).inds).getD k (-1) ≠ -1) :
    m < k ∧ ∃ n : ℕ, m < n ∧ n < ind3 ∧ accept n = true ∧
      ((crossRow (K := K) ind3 m accept cdist).inds).getD k (-1) = toInt8 n ∧
      ((crossRow (K := K) ind3 m accept cdist).dists).getD k 0 = cdist n := by
  rw [crossRow_eq] at h ⊢
  set acc := acceptedOf ind3 m accept with hacc
  by_cases hk1 : k < m + 1
  · exfalso
    apply h
    rw [writeSeq_getD_lt _ _ _ _ _ hk1]
    by_cases hk2 : k < ind3
    · exact getD_replicate _ _ hk2
    · exact getD_of_length_le _ _ (by simp; omega)
  · push_neg at hk1
    by_cases hk2 : k < (m + 1) + acc.length
    · have hlen : (m + 1) + (acc.map (fun n : ℕ => (toInt8 n : ℤ))).length ≤
          (List.replicate ind3 (-1 : ℤ)).length := by
        have := acceptedOf_length_le ind3 m accept
        rw [← hacc] at this
        simp only [List.length_map, List.length_replicate]
        omega
      have hlen2 : (m + 1) + (acc.map cdist).length ≤
          (List.replicate ind3 (0 : K)).length := by
        have := acceptedOf_length_le ind3 m accept
        rw [← hacc] at this
        simp only [List.length_map, List.length_replicate]
        omega
      set j := k - (m + 1) with hj
      have hkj : k = (m + 1) + j := by omega
      have hjlen : j < acc.length := by omega
      constructor
      · omega
      · refine ⟨acc.getD j 0, ?_, ?_, ?_, ?_, ?_⟩
        · have := acceptedOf_mem (getD_mem acc 0 hjlen)
          omega
        · have := acceptedOf_mem (getD_mem acc 0 hjlen)
          omega
        · exact (acceptedOf_mem (getD_mem acc 0 hjlen)).2.2
        · rw [hkj, writeSeq_getD_mid _ _ _ _ _ (by simpa using hjlen) hlen]
          exact getD_map_lt (fun n : ℕ => (toInt8 n : ℤ)) acc (-1) 0 hjlen
        · rw [hkj, writeSeq_getD_mid _ _ _ _ _ (by simpa using hjlen) hlen2]
          exact getD_map_lt cdist acc 0 0 hjlen
    · exfalso
      apply h
      rw [writeSeq_getD_ge _ _ _ _ _ (by simp; omega)]
      by_cases hk3 : k < ind3
      · exact getD_replicate _ _ hk3
      · exact getD_of_length_le _ _ (by simp; omega)

theorem ind3Of_le_length {K : Type} [LinearOrderedField K] (l : List K) (c : K) :
    ind3Of l c ≤ l.length := by
  induction l with
  | nil => simp [ind3Of]
  | cons x rest ih =>
      rw [ind3Of]
      by_cases h : c < x
      · simp [h]
      · simp [h]
        omega

theorem not_gt_of_lt_ind3Of {K : Type} [LinearOrderedField K] {l : List K} {c : K} {i : ℕ}
    (d : K) (h : i < ind3Of l c) : ¬ c < l.getD i d := by
  induction l generalizing i with
  | nil => simp [ind3Of] at h
  | cons x rest ih =>
      rw [ind3Of] at h
      by_cases hx : c < x
      · rw [if_pos hx] at h
        omega
      · rw [if_neg hx] at h
        match i with
        | 0 => exact hx
        | Nat.succ i' => exact ih (by omega)

theorem getD_range {n m : ℕ} (d : ℕ) (h : m < n) : (List.range n).getD m d = m := by
  simp [List.getD_eq_getD_get?, List.getElem?_range h]

/-- Indexing the per-row tables produced by a cross-bond builder: a
non-sentinel entry at `[m, k]` forces `m` inside the truncated range and
inherits the `crossRow` entry specification. -/
theorem rows_entry_spec {K : Type} [LinearOrderedField K] (ind3 : ℕ)
    (acceptFn : ℕ → ℕ → Bool) (cdistFn : ℕ → ℕ → K) (m k : ℕ)
    (h : ((((List.range ind3).map
        (fun m => crossRow (K := K) ind3 m (acceptFn m) (cdistFn m))).map
          (fun r => r.inds)).getD m []).getD k (-1) ≠ -1) :
    m < ind3 ∧ m < k ∧ ∃ n : ℕ, m < n ∧ n < ind3 ∧ acceptFn m n = true ∧
      ((((List.range ind3).map
          (fun m => crossRow (K := K) ind3 m (acceptFn m) (cdistFn m))).map
            (fun r => r.inds)).getD m []).getD k (-1) = toInt8 n ∧
      ((((List.range ind3).map
          (fun m => crossRow (K := K) ind3 m (acceptFn m) (cdistFn m))).map
            (fun r => r.dists)).getD m []).getD k 0 = cdistFn m n := by
  have hm : m < ind3 := by
    by_contra hm
    push_neg at hm
    apply h
    have houter : (((List.range ind3).map
        (fun m => crossRow (K := K) ind3 m (acceptFn m) (cdistFn m))).map
          (fun r => r.inds)).getD m [] = [] :=
      getD_of_length_le _ _ (by simp; omega)
    rw [houter]
    rfl
  have hrow : (((List.range ind3).map
      (fun m => crossRow (K := K) ind3 m (acceptFn m) (cdistFn m))).map
        (fun r => r.inds)).getD m [] =
      (crossRow (K := K) ind3 m (acceptFn m) (cdistFn m)).inds := by
    rw [getD_map_lt (fun r : CrossRowSt K => r.inds) _ []
        (crossRow (K := K) ind3 m (acceptFn m) (cdistFn m)) (by simp; omega)]
    rw [getD_map_lt (fun m => crossRow (K := K) ind3 m (acceptFn m) (cdistFn m)) _ _ 0
        (by simp; omega)]
    rw [getD_range 0 hm]
  have hrowD : (((List.range ind3).map
      (fun m => crossRow (K := K) ind3 m (acceptFn m) (cdistFn m))).map
        (fun r => r.dists)).getD m [] =
      (crossRow (K := K) ind3 m (acceptFn m) (cdistFn m)).dists := by
    rw [getD_map_lt (fun r : CrossRowSt K => r.dists) _ []
        (crossRow (K := K) ind3 m (acceptFn m) (cdistFn m)) (by simp; omega)]
    rw [getD_map_lt (fun m => crossRow (K := K) ind3 m (acceptFn m) (cdistFn m)) _ _ 0
        (by simp; omega)]
    rw [getD_range 0 hm]
  rw [hrow] at h ⊢
  rw [hrowD]
  obtain ⟨hmk, n, hn1, hn2, hn3, hv, hd⟩ := crossRow_inds_spec ind3 m (acceptFn m)
    (cdistFn m) k h
  exact ⟨hm, hmk, n, hn1, hn2, hn3, hv, hd⟩

/-- Scalar-variant cross-bond invariant: what a non-sentinel entry of
`cross_bond_inds` guarantees.  The bond-distance bounds are NOT strict: rows
survive the truncation whenever their distance does not exceed `cutoff_3`
(the `dist > cutoff_3` break), so a bond exactly at the cutoff can appear in
an accepted edge. -/
theorem get_3_body_arrays_inds_spec {K : Type} [LinearOrderedField K] (sqrtf : K → K)
    (ba : List (List K)) (bp : List (V3 K)) (cutoff3 : K) (m k : ℕ)
    (h : (((get_3_body_arrays sqrtf ba bp cutoff3).cross_bond_inds.getD m []).getD k (-1))
      ≠ -1) :
    m < k ∧ ∃ n : ℕ, m < n ∧
      n < (get_3_body_arrays sqrtf ba bp cutoff3).bond_array_3.length ∧
      (((get_3_body_arrays sqrtf ba bp cutoff3).cross_bond_inds.getD m []).getD k (-1))
        = toInt8 n ∧
      crossDistOf sqrtf bp m n < cutoff3 ∧
      rowDist ba m ≤ cutoff3 ∧ rowDist ba n ≤ cutoff3 ∧
      (((get_3_body_arrays sqrtf ba bp cutoff3).cross_bond_dists.getD m []).getD k 0)
        = crossDistOf sqrtf bp m n := by
  simp only [get_3_body_arrays] at h ⊢
  set ind3 := ind3Of (ba.map (fun r => r.getD 0 0)) cutoff3 with hind3
  have hlen : ind3 ≤ ba.length := by
    have := ind3Of_le_length (ba.map (fun r => r.getD 0 0)) cutoff3
    rw [List.length_map] at this
    exact this
  obtain ⟨hm, hmk, n, hn1, hn2, hn3, hv, hd⟩ := rows_entry_spec ind3
    (fun m n => decide (crossDistOf sqrtf bp m n < cutoff3))
    (fun m => crossDistOf sqrtf bp m) m k h
  have hb : ∀ i, i < ind3 → rowDist ba i ≤ cutoff3 := by
    intro i hi
    have hnot := not_gt_of_lt_ind3Of (l := ba.map (fun r => r.getD 0 0)) (c := cutoff3)
      (0 : K) hi
    rw [getD_map_lt (fun r : List K => r.getD 0 0) ba 0 [] (by omega)] at hnot
    exact not_lt.1 hnot
  refine ⟨hmk, n, hn1, ?_, hv, of_decide_eq_true hn3, hb m hm, hb n hn2, hd⟩
  rw [List.length_take]
  omega

/-- Sepcut-variant cross-bond invariant: here the accepted edge additionally
carries STRICT bounds on both bond distances against their resolved cutoffs
(env.py lines 583-585). -/
theorem get_3_body_arrays_sepcut_inds_spec {K : Type} [LinearOrderedField K]
    (sqrtf : K → K) (ba : List (List K)) (bp : List (V3 K)) (ctype : ℤ)
    (etypes : List ℤ) (cutoff_3 : List K) (nspecie : ℤ)
    (specie_mask cut3b_mask : ℤ → ℤ) (m k : ℕ)
    (h : (((get_3_body_arrays_sepcut sqrtf ba bp ctype etypes cutoff_3 nspecie
        specie_mask cut3b_mask).cross_bond_inds.getD m []).getD k (-1)) ≠ -1) :
    m < k ∧ ∃ n : ℕ, m < n ∧
      n < (get_3_body_arrays_sepcut sqrtf ba bp ctype etypes cutoff_3 nspecie
        specie_mask cut3b_mask).bond_array_3.length ∧
      (((get_3_body_arrays_sepcut sqrtf ba bp ctype etypes cutoff_3 nspecie
          specie_mask cut3b_mask).cross_bond_inds.getD m []).getD k (-1)) = toInt8 n ∧
      crossDistOf sqrtf bp m n <
        cutoff_3.getD (cut3b_mask (specie_mask (etypes.getD n 0) +
          nspecie * specie_mask (etypes.getD m 0))).toNat 0 ∧
      rowDist ba m <
        cutoff_3.getD (cut3b_mask (specie_mask (etypes.getD m 0) +
          nspecie * specie_mask ctype)).toNat 0 ∧
      rowDist ba n <
        cutoff_3.getD (cut3b_mask (specie_mask (etypes.getD n 0) +
          nspecie * specie_mask ctype)).toNat 0 ∧
      (((get_3_body_arrays_sepcut sqrtf ba bp ctype etypes cutoff_3 nspecie
          specie_mask cut3b_mask).cross_bond_dists.getD m []).getD k 0)
        = crossDistOf sqrtf bp m n := by
  simp only [get_3_body_arrays_sepcut] at h ⊢
  set cut3 := (cutoff_3.max?).getD 0 with hcut3
  set ind3 := ind3Of (ba.map (fun r => r.getD 0 0)) cut3 with hind3
  have hlen : ind3 ≤ ba.length := by
    have := ind3Of_le_length (ba.map (fun r => r.getD 0 0)) cut3
    rw [List.length_map] at this
    exact this
  obtain ⟨hm, hmk, n, hn1, hn2, hn3, hv, hd⟩ := rows_entry_spec ind3
    (fun m n => decide (crossDistOf sqrtf bp m n <
        cutoff_3.getD (cut3b_mask (specie_mask (etypes.getD n 0) +
          nspecie * specie_mask (etypes.getD m 0))).toNat 0 ∧
      rowDist ba m <
        cutoff_3.getD (cut3b_mask (specie_mask (etypes.getD m 0) +
          nspecie * specie_mask ctype)).toNat 0 ∧
      rowDist ba n <
        cutoff_3.getD (cut3b_mask (specie_mask (etypes.getD n 0) +
          nspecie * specie_mask ctype)).toNat 0))
    (fun m => crossDistOf sqrtf bp m) m k h
  have hcond := of_decide_eq_true hn3
  refine ⟨hmk, n, hn1, ?_, hv, hcond.1, hcond.2.1, hcond.2.2, hd⟩
  rw [List.length_take]
  omega

theorem filterMap_eq_nil_of_none {α β : Type} {l : List α} {f : α → Option β}
    (h : ∀ a ∈ l, f a = none) : l.filterMap f = [] := by
  induction l with
  | nil => rfl
  | cons a t ih =>
      rw [List.filterMap_cons, h a (List.mem_cons_self a t)]
      exact ih (fun b hb => h b (List.mem_cons_of_mem a hb))

theorem flatMap_eq_nil_of_nil {α β : Type} {l : List α} {g : α → List β}
    (h : ∀ a ∈ l, g a = []) : l.flatMap g = [] := by
  induction l with
  | nil => rfl
  | cons a t ih =>
      show g a ++ t.flatMap g = []
      rw [h a (List.mem_cons_self a t), ih (fun b hb => h b (List.mem_cons_of_mem a hb))]
      rfl

/-- Every fill-order entry of a 2-body enumerator comes from a qualifying
candidate: its distance is the sqrt of its image's squared norm, is nonzero,
and is strictly below the cutoff resolved for its source atom. -/
theorem fill2Body_mem {K : Type} [LinearOrderedField K] {sqrtf : K → K}
    {positions : List (V3 K)} {atom : ℕ} {c1 c2 c3 : V3 K} {rcut : ℕ → K}
    {species : List ℤ} {trips : List (K × K × K)} {f : BondFill K}
    (h : f ∈ fill2Body sqrtf positions atom c1 c2 c3 rcut species trips) :
    f.idx < positions.length ∧ f.spec = species.getD f.idx 0 ∧
      f.dist = sqrtf (V3.normSq f.im) ∧ f.dist < rcut f.idx ∧ f.dist ≠ 0 := by
  unfold fill2Body at h
  rw [List.mem_flatMap] at h
  obtain ⟨n, hn, hf⟩ := h
  rw [List.mem_range] at hn
  rw [List.mem_filterMap] at hf
  obtain ⟨s, _, hf⟩ := hf
  by_cases hc : sqrtf (V3.normSq (imageVec
      (V3.sub (positions.getD n V3.zero) (positions.getD atom V3.zero)) c1 c2 c3 s)) <
        rcut n ∧
      sqrtf (V3.normSq (imageVec
        (V3.sub (positions.getD n V3.zero) (positions.getD atom V3.zero)) c1 c2 c3 s)) ≠ 0
  · rw [if_pos hc] at hf
    obtain rfl := Option.some.inj hf
    exact ⟨hn, rfl, rfl, hc.1, hc.2⟩
  · rw [if_neg hc] at hf
    exact absurd hf (by simp)

theorem getD_map_default {α β : Type} (f : α → β) (l : List α) (i : ℕ) (d : α) :
    (l.map f).getD i (f d) = f (l.getD i d) := by
  by_cases hi : i < l.length
  · exact getD_map_lt f l (f d) d hi
  · push_neg at hi
    rw [getD_of_length_le _ _ (by simp; omega), getD_of_length_le _ _ (by omega)]

theorem map_applyPerm {α β : Type} (f : α → β) (d : α) (p : List ℕ) (l : List α) :
    (applyPerm d p l).map f = applyPerm (f d) p (l.map f) := by
  unfold applyPerm
  rw [List.map_map]
  apply List.map_congr_left
  intro i _
  exact (getD_map_default f l i d).symm

theorem mem_applyPerm {α : Type} {d : α} {p : List ℕ} {l : List α} {x : α}
    (h : x ∈ applyPerm d p l) : x = d ∨ x ∈ l := by
  unfold applyPerm at h
  rw [List.mem_map] at h
  obtain ⟨i, _, rfl⟩ := h
  by_cases hi : i < l.length
  · exact Or.inr (getD_mem l d hi)
  · push_neg at hi
    exact Or.inl (getD_of_length_le l d hi)

theorem mem_applyPerm_of_perm {α : Type} {d : α} {p : List ℕ} {l : List α} {x : α}
    (hp : List.Perm p (List.range l.length)) (h : x ∈ applyPerm d p l) : x ∈ l := by
  unfold applyPerm at h
  rw [List.mem_map] at h
  obtain ⟨i, hi, rfl⟩ := h
  have : i ∈ List.range l.length := hp.mem_iff.1 hi
  rw [List.mem_range] at this
  exact getD_mem l d this

/-- What the shared sorting stage guarantees for a conforming argsort: one
permutation of the fill order is applied to all four arrays, and the distance
column of the result is ascending. -/
theorem sort2Body_spec {K : Type} [LinearOrderedField K] {asort : List K → List ℕ}
    (h : IsArgsort asort) (fills : List (BondFill K)) :
    List.Perm (asort (fills.map (fun f => f.dist))) (List.range fills.length) ∧
    (sort2Body asort fills).bond_array_2 =
      applyPerm [] (asort (fills.map (fun f => f.dist)))
        (fills.map (fun f => [f.dist, f.im.x / f.dist, f.im.y / f.dist, f.im.z / f.dist])) ∧
    (sort2Body asort fills).bond_positions_2 =
      applyPerm V3.zero (asort (fills.map (fun f => f.dist))) (fills.map (fun f => f.im)) ∧
    (sort2Body asort fills).etypes =
      applyPerm 0 (asort (fills.map (fun f => f.dist)))
        (fills.map (fun f => toInt8 f.spec)) ∧
    (sort2Body asort fills).bond_indices =
      applyPerm 0 (asort (fills.map (fun f => f.dist)))
        (fills.map (fun f => toInt8 f.idx)) ∧
    List.Sorted (· ≤ ·)
      ((sort2Body asort fills).bond_array_2.map (fun r => r.getD 0 0)) := by
  have hperm : List.Perm (asort (fills.map (fun f => f.dist))) (List.range fills.length) := by
    have := (h (fills.map (fun f => f.dist))).1
    rwa [List.length_map] at this
  refine ⟨hperm, rfl, rfl, rfl, rfl, ?_⟩
  have hmap := map_applyPerm (fun r : List K => r.getD 0 0) []
    (asort (fills.map (fun f => f.dist)))
    (fills.map (fun f => [f.dist, f.im.x / f.dist, f.im.y / f.dist, f.im.z / f.dist]))
  show List.Sorted (· ≤ ·)
    ((applyPerm [] (asort (fills.map (fun f => f.dist)))
      (fills.map (fun f => [f.dist, f.im.x / f.dist, f.im.y / f.dist, f.im.z / f.dist]))).map
        (fun r => r.getD 0 0))
  rw [hmap, List.map_map]
  have hmapeq : ((fun r : List K => r.getD 0 0) ∘
      (fun f : BondFill K => [f.dist, f.im.x / f.dist, f.im.y / f.dist, f.im.z / f.dist])) =
      (fun f : BondFill K => f.dist) := by
    funext f
    rfl
  rw [hmapeq]
  exact (h (fills.map (fun f => f.dist))).2

theorem fill2Body_eq_nil_of_nonpos {K : Type} [LinearOrderedField K] {sqrtf : K → K}
    (hs : ∀ x : K, 0 ≤ sqrtf x) {positions : List (V3 K)} {atom : ℕ} {c1 c2 c3 : V3 K}
    {rcut : ℕ → K} (hc : ∀ n, rcut n ≤ 0) {species : List ℤ}
    {trips : List (K × K × K)} :
    fill2Body sqrtf positions atom c1 c2 c3 rcut species trips = [] := by
  unfold fill2Body
  apply flatMap_eq_nil_of_nil
  intro n _
  apply filterMap_eq_nil_of_none
  intro s _
  rw [if_neg]
  intro hcond
  exact absurd (lt_of_le_of_lt (hs _) (lt_of_lt_of_le hcond.1 (hc n))) (lt_irrefl 0)

theorem asort_nil_eq_nil {K : Type} [LinearOrder K] [Zero K] {asort : List K → List ℕ}
    (h : IsArgsort asort) : asort ([] : List K) = [] := by
  have hp := (h []).1
  simp only [List.length_nil, List.range_zero] at hp
  exact List.Perm.eq_nil hp

theorem sort2Body_nil {K : Type} [LinearOrderedField K] {asort : List K → List ℕ}
    (h : IsArgsort asort) :
    sort2Body asort ([] : List (BondFill K)) = ⟨[], [], [], []⟩ := by
  unfold sort2Body
  rw [show ((([] : List (BondFill K)).map (fun f => f.dist))) = ([] : List K) from rfl]
  rw [asort_nil_eq_nil h]
  rfl

/-- Under the trivial single-group mask (one species group, all mask entries
zero, a one-element cutoff array), the species-pair-resolved 2-body enumerator
computes exactly the scalar enumerator, provided the sweep window fits the
27 staging slots of the sepcut variant. -/
theorem get_2_body_arrays_sepcut_trivial {K : Type} [LinearOrderedField K]
    (sqrtf : K → K) (asort : List K → List ℕ) (positions : List (V3 K)) (atom : ℕ)
    (c1 c2 c3 : V3 K) (r2 : K) (species : List ℤ) (sweep : List K)
    (h27 : (sweepTriples sweep).length ≤ 27) :
    get_2_body_arrays_sepcut sqrtf asort positions atom c1 c2 c3 [r2] species sweep
      1 (fun _ => 0) (fun _ => 0) =
    get_2_body_arrays sqrtf asort positions atom c1 c2 c3 r2 species sweep := by
  simp only [get_2_body_arrays_sepcut, get_2_body_arrays]
  rw [List.take_of_length_le h27]
  rfl

theorem crossRow_congr {K : Type} [LinearOrderedField K] {ind3 m : ℕ}
    {accept1 accept2 : ℕ → Bool} (cdist : ℕ → K)
    (h : ∀ n ∈ List.range' (m + 1) (ind3 - (m + 1)), accept1 n = accept2 n) :
    crossRow ind3 m accept1 cdist = crossRow ind3 m accept2 cdist := by
  rw [crossRow_eq, crossRow_eq]
  unfold acceptedOf
  rw [List.filter_congr h]

/-- Under the trivial single-group mask, the species-pair-resolved triplet
builder agrees with the scalar builder PROVIDED no bond distance equals the
3-body cutoff exactly: the sepcut accept condition additionally requires both
bond distances to be strictly below the cutoff, which the scalar condition
does not check. -/
theorem get_3_body_arrays_sepcut_trivial {K : Type} [LinearOrderedField K]
    (sqrtf : K → K) (ba : List (List K)) (bp : List (V3 K)) (ctype : ℤ)
    (etypes : List ℤ) (r3 : K) (hne : ∀ i, rowDist ba i ≠ r3) :
    get_3_body_arrays_sepcut sqrtf ba bp ctype etypes [r3] 1 (fun _ => 0) (fun _ => 0) =
    get_3_body_arrays sqrtf ba bp r3 := by
  simp only [get_3_body_arrays_sepcut, get_3_body_arrays]
  have hcut3 : ((([r3] : List K).max?).getD 0) = r3 := rfl
  rw [hcut3]
  have hrowlt : ∀ i, i < ind3Of (ba.map (fun r => r.getD 0 0)) r3 → rowDist ba i < r3 := by
    intro i hi
    have hle := not_gt_of_lt_ind3Of (l := ba.map (fun r => r.getD 0 0)) (c := r3) 0 hi
    have hlen : i < ba.length := by
      have h1 := ind3Of_le_length (ba.map (fun r => r.getD 0 0)) r3
      rw [List.length_map] at h1
      omega
    rw [getD_map_lt (fun r : List K => r.getD 0 0) ba 0 [] hlen] at hle
    exact lt_of_le_of_ne (not_lt.1 hle) (hne i)
  have hrows : ∀ m ∈ List.range (ind3Of (ba.map (fun r => r.getD 0 0)) r3),
      crossRow (K := K) (ind3Of (ba.map (fun r => r.getD 0 0)) r3) m
        (fun n => decide (crossDistOf sqrtf bp m n <
            ([r3] : List K).getD ((fun _ : ℤ => (0 : ℤ))
              ((fun _ : ℤ => (0 : ℤ)) (etypes.getD n 0) +
                1 * (fun _ : ℤ => (0 : ℤ)) (etypes.getD m 0))).toNat 0 ∧
          rowDist ba m < ([r3] : List K).getD ((fun _ : ℤ => (0 : ℤ))
            ((fun _ : ℤ => (0 : ℤ)) (etypes.getD m 0) +
              1 * (fun _ : ℤ => (0 : ℤ)) ctype)).toNat 0 ∧
          rowDist ba n < ([r3] : List K).getD ((fun _ : ℤ => (0 : ℤ))
            ((fun _ : ℤ => (0 : ℤ)) (etypes.getD n 0) +
              1 * (fun _ : ℤ => (0 : ℤ)) ctype)).toNat 0))
        (crossDistOf sqrtf bp m) =
      crossRow (K := K) (ind3Of (ba.map (fun r => r.getD 0 0)) r3) m
        (fun n => decide (crossDistOf sqrtf bp m n < r3))
        (crossDistOf sqrtf bp m) := by
    intro m hm
    rw [List.mem_range] at hm
    apply crossRow_congr
    intro n hn
    rw [List.mem_range'_1] at hn
    have hnlt : n < ind3Of (ba.map (fun r => r.getD 0 0)) r3 := by omega
    apply decide_eq_decide.2
    constructor
    · intro hc
      exact hc.1
    · intro hc
      exact ⟨hc, hrowlt m hm, hrowlt n hnlt⟩
  rw [List.map_congr_left hrows]

/-! ### Symmetry of the energy/energy kernels -/

theorem two_body_mc_en_jit_symm {K : Type} [LinearOrderedField K]
    (cf : K → K → K → K × K) (expf : K → K) (ba1 : List (List K)) (c1 : ℤ)
    (et1 : List ℤ) (ba2 : List (List K)) (c2 : ℤ) (et2 : List ℤ) (sig ls r_cut : K) :
    two_body_mc_en_jit cf expf ba1 c1 et1 ba2 c2 et2 sig ls r_cut =
    two_body_mc_en_jit cf expf ba2 c2 et2 ba1 c1 et1 sig ls r_cut := by
  simp only [two_body_mc_en_jit]
  rw [lsum_comm]
  apply lsum_congr
  intro n _
  apply lsum_congr
  intro m _
  by_cases h : (c2 = c1 ∧ et2.getD n 0 = et1.getD m 0) ∨
      (c2 = et1.getD m 0 ∧ c1 = et2.getD n 0)
  · rw [if_pos h, if_pos (by
      rcases h with ⟨h1, h2⟩ | ⟨h1, h2⟩
      · exact Or.inl ⟨h1.symm, h2.symm⟩
      · exact Or.inr ⟨h2, h1⟩)]
    rw [show -(rowDist ba1 m - rowDist ba2 n) * (rowDist ba1 m - rowDist ba2 n) *
          (1 / (2 * ls * ls)) =
        -(rowDist ba2 n - rowDist ba1 m) * (rowDist ba2 n - rowDist ba1 m) *
          (1 / (2 * ls * ls)) from by ring]
    ring
  · rw [if_neg h, if_neg (by
      intro hc
      apply h
      rcases hc with ⟨h1, h2⟩ | ⟨h1, h2⟩
      · exact Or.inl ⟨h1.symm, h2.symm⟩
      · exact Or.inr ⟨h2, h1⟩)]

theorem many_2body_mc_en_jit_symm {K : Type} [LinearOrderedField K] (expf : K → K)
    (q_array_1 q_array_2 : List K) (c1 c2 : ℤ) (species1 species2 : List ℤ)
    (sig ls : K) :
    many_2body_mc_en_jit expf q_array_1 q_array_2 c1 c2 species1 species2 sig ls =
    many_2body_mc_en_jit expf q_array_2 q_array_1 c2 c1 species2 species1 sig ls := by
  simp only [many_2body_mc_en_jit]
  rw [useful_species_comm species2 species1]
  by_cases h : c1 = c2
  · rw [if_pos h, if_pos h.symm]
    apply lsum_congr
    intro s _
    rw [show -(q_array_2.getD (idxOfSpec species2 s) 0 -
          q_array_1.getD (idxOfSpec species1 s) 0) *
        (q_array_2.getD (idxOfSpec species2 s) 0 -
          q_array_1.getD (idxOfSpec species1 s) 0) / (2 * ls * ls) =
        -(q_array_1.getD (idxOfSpec species1 s) 0 -
          q_array_2.getD (idxOfSpec species2 s) 0) *
        (q_array_1.getD (idxOfSpec species1 s) 0 -
          q_array_2.getD (idxOfSpec species2 s) 0) / (2 * ls * ls) from by ring]
  · rw [if_neg h, if_neg (fun hc => h hc.symm)]

theorem many_3body_mc_en_jit_symm {K : Type} [LinearOrderedField K] (expf : K → K)
    (m3b_array_1 m3b_array_2 : List (List K)) (c1 c2 : ℤ)
    (species1 species2 : List ℤ) (sig ls : K) :
    many_3body_mc_en_jit expf m3b_array_1 m3b_array_2 c1 c2 species1 species2 sig ls =
    many_3body_mc_en_jit expf m3b_array_2 m3b_array_1 c2 c1 species2 species1 sig ls := by
  simp only [many_3body_mc_en_jit]
  rw [useful_species_comm species2 species1]
  by_cases h : c1 = c2
  · rw [if_pos h, if_pos h.symm]
    apply lsum_congr
    intro i _
    apply lsum_congr
    intro j _
    rw [show -((m3b_array_2.getD (idxOfSpec species2
            ((useful_species species1 species2).getD i 0)) []).getD
          (idxOfSpec species2 ((useful_species species1 species2).getD j 0)) 0 -
        (m3b_array_1.getD (idxOfSpec species1
            ((useful_species species1 species2).getD i 0)) []).getD
          (idxOfSpec species1 ((useful_species species1 species2).getD j 0)) 0) *
        ((m3b_array_2.getD (idxOfSpec species2
            ((useful_species species1 species2).getD i 0)) []).getD
          (idxOfSpec species2 ((useful_species species1 species2).getD j 0)) 0 -
        (m3b_array_1.getD (idxOfSpec species1
            ((useful_species species1 species2).getD i 0)) []).getD
          (idxOfSpec species1 ((useful_species species1 species2).getD j 0)) 0) /
        (2 * ls * ls) =
        -((m3b_array_1.getD (idxOfSpec species1
            ((useful_species species1 species2).getD i 0)) []).getD
          (idxOfSpec species1 ((useful_species species1 species2).getD j 0)) 0 -
        (m3b_array_2.getD (idxOfSpec species2
            ((useful_species species1 species2).getD i 0)) []).getD
          (idxOfSpec species2 ((useful_species species1 species2).getD j 0)) 0) *
        ((m3b_array_1.getD (idxOfSpec species1
            ((useful_species species1 species2).getD i 0)) []).getD
          (idxOfSpec species1 ((useful_species species1 species2).getD j 0)) 0 -
        (m3b_array_2.getD (idxOfSpec species2
            ((useful_species species1 species2).getD i 0)) []).getD
          (idxOfSpec species2 ((useful_species species1 species2).getD j 0)) 0) /
        (2 * ls * ls) from by ring]
  · rw [if_neg h, if_neg (fun hc => h hc.symm)]

/-- Loop-index pairs `(m, n)` visited by the triplet double loop
`for m in range(len)`, `for n in range(triplet_counts[m])`. -/
def tripsOf (len : ℕ) (counts : List ℤ) : List (ℕ × ℕ) :=
  (List.range len).flatMap (fun m =>
    (List.range (counts.getD m 0).toNat).map (fun n => (m, n)))

/-- The per-triplet data read by the 3-body kernels: the two bond distances,
the cross distance, and the two neighbor species. -/
structure TripData (K : Type) where
  r1 : K
  r2 : K
  r3 : K
  e1 : ℤ
  e2 : ℤ

def tripDataOf {K : Type} [LinearOrderedField K] (ba : List (List K)) (et : List ℤ)
    (cbi : List (List ℤ)) (cbd : List (List K)) (mn : ℕ × ℕ) : TripData K :=
  ⟨rowDist ba mn.1,
   rowDist ba (((cbi.getD mn.1 []).getD (mn.1 + mn.2 + 1) 0).toNat),
   (cbd.getD mn.1 []).getD (mn.1 + mn.2 + 1) 0,
   et.getD mn.1 0,
   et.getD (((cbi.getD mn.1 []).getD (mn.1 + mn.2 + 1) 0).toNat) 0⟩

/-- The six role-matching cases of the 3-body energy/energy kernel
(mc_simple.py lines 1575-1595), as a flat sum of guarded terms. -/
def sixEn {K : Type} [LinearOrderedField K] (expf : K → K) (sig2 ls2 : K)
    (c1 e11 e12 c2 e21 e22 : ℤ) (ri1 ri2 ri3 rj1 rj2 rj3 fi fj : K) : K :=
  (if c1 = c2 ∧ e11 = e21 ∧ e12 = e22 then
    sig2 * expf (-((ri1 - rj1) * (ri1 - rj1) + (ri2 - rj2) * (ri2 - rj2) +
      (ri3 - rj3) * (ri3 - rj3)) * ls2) * fi * fj else 0) +
  (if c1 = c2 ∧ e11 = e22 ∧ e12 = e21 then
    sig2 * expf (-((ri1 - rj2) * (ri1 - rj2) + (ri2 - rj1) * (ri2 - rj1) +
      (ri3 - rj3) * (ri3 - rj3)) * ls2) * fi * fj else 0) +
  (if c1 = e21 ∧ e11 = e22 ∧ e12 = c2 then
    sig2 * expf (-((ri1 - rj3) * (ri1 - rj3) + (ri2 - rj1) * (ri2 - rj1) +
      (ri3 - rj2) * (ri3 - rj2)) * ls2) * fi * fj else 0) +
  (if c1 = e21 ∧ e11 = c2 ∧ e12 = e22 then
    sig2 * expf (-((ri1 - rj1) * (ri1 - rj1) + (ri2 - rj3) * (ri2 - rj3) +
      (ri3 - rj2) * (ri3 - rj2)) * ls2) * fi * fj else 0) +
  (if c1 = e22 ∧ e11 = e21 ∧ e12 = c2 then
    sig2 * expf (-((ri1 - rj3) * (ri1 - rj3) + (ri2 - rj2) * (ri2 - rj2) +
      (ri3 - rj1) * (ri3 - rj1)) * ls2) * fi * fj else 0) +
  (if c1 = e22 ∧ e11 = c2 ∧ e12 = e21 then
    sig2 * expf (-((ri1 - rj2) * (ri1 - rj2) + (ri2 - rj3) * (ri2 - rj3) +
      (ri3 - rj1) * (ri3 - rj1)) * ls2) * fi * fj else 0)

/-- The species gate of the 3-body kernels, written out: `c2` occurs in
`[c1, e11, e12]`, `e21` occurs in the remainder after removing the first
occurrence of `c2`, and `e22` equals the last remaining species. -/
def specGate (c1 e11 e12 c2 e21 e22 : ℤ) : Prop :=
  c2 ∈ [c1, e11, e12] ∧ e21 ∈ ([c1, e11, e12].erase c2) ∧
    e22 = (([c1, e11, e12].erase c2).erase e21).headD 0

instance specGate_decidable (c1 e11 e12 c2 e21 e22 : ℤ) :
    Decidable (specGate c1 e11 e12 c2 e21 e22) := by
  unfold specGate
  infer_instance

/-- The summand of the 3-body energy kernel for one pair of triplets. -/
def enPairTerm {K : Type} [LinearOrderedField K] (cf : K → K → K → K × K)
    (expf : K → K) (sig2 ls2 r_cut : K) (c1 c2 : ℤ) (t1 t2 : TripData K) : K :=
  if c2 ∈ [c1, t1.e1, t1.e2] then
    if t2.e1 ∈ ([c1, t1.e1, t1.e2].erase c2) then
      if t2.e2 = ((([c1, t1.e1, t1.e2].erase c2).erase t2.e1).headD 0) then
        sixEn expf sig2 ls2 c1 t1.e1 t1.e2 c2 t2.e1 t2.e2 t1.r1 t1.r2 t1.r3
          t2.r1 t2.r2 t2.r3
          ((cf r_cut t1.r1 0).1 * (cf r_cut t1.r2 0).1 * (cf r_cut t1.r3 0).1)
          ((cf r_cut t2.r1 0).1 * (cf r_cut t2.r2 0).1 * (cf r_cut t2.r3 0).1)
      else 0
    else 0
  else 0

theorem ite_lsum {α K : Type} [AddCommMonoid K] (c : Prop) [Decidable c] (l : List α)
    (f : α → K) : (if c then lsum l f else 0) = lsum l (fun a => if c then f a else 0) := by
  by_cases h : c
  · rw [if_pos h]
    exact lsum_congr (fun a _ => (if_pos h).symm)
  · rw [if_neg h]
    exact ((lsum_congr (fun a _ => (if_neg h))).trans (lsum_zero l)).symm

/-- The nested 3-body energy loop, flattened to a double sum over triplet
pairs with all species gates pushed into the summand. -/
theorem three_body_mc_en_jit_eq_pairs {K : Type} [LinearOrderedField K]
    (cf : K → K → K → K × K) (expf : K → K) (ba1 : List (List K)) (c1 : ℤ)
    (et1 : List ℤ) (ba2 : List (List K)) (c2 : ℤ) (et2 : List ℤ)
    (cbi1 cbi2 : List (List ℤ)) (cbd1 cbd2 : List (List K)) (tc1 tc2 : List ℤ)
    (sig ls r_cut : K) :
    three_body_mc_en_jit cf expf ba1 c1 et1 ba2 c2 et2 cbi1 cbi2 cbd1 cbd2 tc1 tc2
      sig ls r_cut =
    lsum (tripsOf ba1.length tc1) (fun a => lsum (tripsOf ba2.length tc2) (fun b =>
      enPairTerm cf expf (sig * sig) (1 / (2 * ls * ls)) r_cut c1 c2
        (tripDataOf ba1 et1 cbi1 cbd1 a) (tripDataOf ba2 et2 cbi2 cbd2 b))) := by
  simp only [three_body_mc_en_jit, tripsOf]
  rw [lsum_flatMap]
  apply lsum_congr
  intro m _
  rw [lsum_map]
  apply lsum_congr
  intro n _
  simp only [Function.comp]
  rw [lsum_flatMap]
  by_cases hg1 : c2 ∈ [c1, et1.getD m 0,
      et1.getD (((cbi1.getD m []).getD (m + n + 1) 0).toNat) 0]
  · rw [if_pos hg1]
    apply lsum_congr
    intro p _
    rw [lsum_map]
    by_cases hg2 : et2.getD p 0 ∈ ([c1, et1.getD m 0,
        et1.getD (((cbi1.getD m []).getD (m + n + 1) 0).toNat) 0].erase c2)
    · rw [if_pos hg2]
      apply lsum_congr
      intro q _
      simp only [Function.comp, enPairTerm, tripDataOf]
      rw [if_pos hg1, if_pos hg2]
      rfl
    · rw [if_neg hg2]
      symm
      refine (lsum_congr ?_).trans (lsum_zero _)
      intro q _
      simp only [Function.comp, enPairTerm, tripDataOf]
      rw [if_pos hg1, if_neg hg2]
  · rw [if_neg hg1]
    symm
    refine (lsum_congr ?_).trans (lsum_zero _)
    intro p _
    rw [lsum_map]
    refine (lsum_congr ?_).trans (lsum_zero _)
    intro q _
    simp only [Function.comp, enPairTerm, tripDataOf]
    rw [if_neg hg1]

/-- The removal-based species gate holds exactly when the multiset of species
of the second triplet (central first) equals that of the first triplet. -/
theorem specGate_iff_multiset (c1 e11 e12 c2 e21 e22 : ℤ) :
    specGate c1 e11 e12 c2 e21 e22 ↔
      ({c2, e21, e22} : Multiset ℤ) = ({c1, e11, e12} : Multiset ℤ) := by
  have hco : (([c1, e11, e12] : List ℤ) : Multiset ℤ) = ({c1, e11, e12} : Multiset ℤ) := rfl
  have hc3 : (({c2, e21, e22} : Multiset ℤ)) = c2 ::ₘ e21 ::ₘ ({e22} : Multiset ℤ) := rfl
  unfold specGate
  constructor
  · rintro ⟨h1, h2, h3⟩
    have hl3 : (([c1, e11, e12].erase c2).erase e21) = [e22] := by
      have hlen2 : ([c1, e11, e12].erase c2).length = 2 := by
        rw [List.length_erase_of_mem h1]
        rfl
      have hlen1 : ((([c1, e11, e12].erase c2).erase e21)).length = 1 := by
        rw [List.length_erase_of_mem h2, hlen2]
      match hval : (([c1, e11, e12].erase c2).erase e21) with
      | [x] =>
          rw [hval] at h3
          rw [h3]
          rfl
      | [] => rw [hval] at hlen1; simp at hlen1
      | x :: y :: t => rw [hval] at hlen1; simp at hlen1
    rw [hc3, ← hco]
    have step2 : ((([c1, e11, e12] : List ℤ).erase c2 : List ℤ) : Multiset ℤ) =
        e21 ::ₘ ({e22} : Multiset ℤ) := by
      have : e21 ∈ ((([c1, e11, e12] : List ℤ).erase c2 : List ℤ) : Multiset ℤ) := by
        rw [Multiset.mem_coe]
        exact h2
      rw [← Multiset.cons_erase this]
      congr 1
      rw [Multiset.coe_erase, hl3]
      rfl
    have step1 : (([c1, e11, e12] : List ℤ) : Multiset ℤ) =
        c2 ::ₘ e21 ::ₘ ({e22} : Multiset ℤ) := by
      have hmem : c2 ∈ (([c1, e11, e12] : List ℤ) : Multiset ℤ) := by
        rw [Multiset.mem_coe]
        exact h1
      rw [← Multiset.cons_erase hmem, Multiset.coe_erase, step2]
    exact step1.symm
  · intro h
    have h1 : c2 ∈ ([c1, e11, e12] : List ℤ) := by
      rw [← Multiset.mem_coe, hco, ← h, hc3]
      exact Multiset.mem_cons_self c2 _
    have herase1 : ((([c1, e11, e12] : List ℤ).erase c2 : List ℤ) : Multiset ℤ) =
        e21 ::ₘ ({e22} : Multiset ℤ) := by
      rw [← Multiset.coe_erase, hco, ← h, hc3, Multiset.erase_cons_head]
    have h2 : e21 ∈ (([c1, e11, e12] : List ℤ).erase c2) := by
      rw [← Multiset.mem_coe, herase1]
      exact Multiset.mem_cons_self e21 _
    have herase2 : ((([c1, e11, e12] : List ℤ).erase c2).erase e21) = [e22] := by
      rw [← Multiset.coe_eq_singleton, ← Multiset.coe_erase, herase1,
        Multiset.erase_cons_head]
    refine ⟨h1, h2, ?_⟩
    rw [herase2]
    rfl

theorem specGate_symm (c1 e11 e12 c2 e21 e22 : ℤ) :
    specGate c1 e11 e12 c2 e21 e22 ↔ specGate c2 e21 e22 c1 e11 e12 := by
  rw [specGate_iff_multiset, specGate_iff_multiset]
  exact ⟨Eq.symm, Eq.symm⟩

theorem enPairTerm_eq_gate {K : Type} [LinearOrderedField K] (cf : K → K → K → K × K)
    (expf : K → K) (sig2 ls2 r_cut : K) (c1 c2 : ℤ) (t1 t2 : TripData K) :
    enPairTerm cf expf sig2 ls2 r_cut c1 c2 t1 t2 =
    if specGate c1 t1.e1 t1.e2 c2 t2.e1 t2.e2 then
      sixEn expf sig2 ls2 c1 t1.e1 t1.e2 c2 t2.e1 t2.e2 t1.r1 t1.r2 t1.r3
        t2.r1 t2.r2 t2.r3
        ((cf r_cut t1.r1 0).1 * (cf r_cut t1.r2 0).1 * (cf r_cut t1.r3 0).1)
        ((cf r_cut t2.r1 0).1 * (cf r_cut t2.r2 0).1 * (cf r_cut t2.r3 0).1)
    else 0 := by
  unfold enPairTerm specGate
  by_cases h1 : c2 ∈ [c1, t1.e1, t1.e2]
  · rw [if_pos h1]
    by_cases h2 : t2.e1 ∈ ([c1, t1.e1, t1.e2].erase c2)
    · rw [if_pos h2]
      by_cases h3 : t2.e2 = ((([c1, t1.e1, t1.e2].erase c2).erase t2.e1).headD 0)
      · rw [if_pos h3, if_pos ⟨h1, h2, h3⟩]
      · rw [if_neg h3, if_neg (fun hc => h3 hc.2.2)]
    · rw [if_neg h2, if_neg (fun hc => h2 hc.2.1)]
  · rw [if_neg h1, if_neg (fun hc => h1 hc.1)]

theorem sixEn_symm {K : Type} [LinearOrderedField K] (expf : K → K) (sig2 ls2 : K)
    (c1 e11 e12 c2 e21 e22 : ℤ) (ri1 ri2 ri3 rj1 rj2 rj3 fi fj : K) :
    sixEn expf sig2 ls2 c1 e11 e12 c2 e21 e22 ri1 ri2 ri3 rj1 rj2 rj3 fi fj =
    sixEn expf sig2 ls2 c2 e21 e22 c1 e11 e12 rj1 rj2 rj3 ri1 ri2 ri3 fj fi := by
  unfold sixEn
  have hT1 : (if c1 = c2 ∧ e11 = e21 ∧ e12 = e22 then
      sig2 * expf (-((ri1 - rj1) * (ri1 - rj1) + (ri2 - rj2) * (ri2 - rj2) +
        (ri3 - rj3) * (ri3 - rj3)) * ls2) * fi * fj else 0) =
      (if c2 = c1 ∧ e21 = e11 ∧ e22 = e12 then
      sig2 * expf (-((rj1 - ri1) * (rj1 - ri1) + (rj2 - ri2) * (rj2 - ri2) +
        (rj3 - ri3) * (rj3 - ri3)) * ls2) * fj * fi else 0) := by
    apply if_congr
    · exact ⟨fun ⟨a, b, c⟩ => ⟨a.symm, b.symm, c.symm⟩,
        fun ⟨a, b, c⟩ => ⟨a.symm, b.symm, c.symm⟩⟩
    · rw [show -((rj1 - ri1) * (rj1 - ri1) + (rj2 - ri2) * (rj2 - ri2) +
          (rj3 - ri3) * (rj3 - ri3)) * ls2 =
        -((ri1 - rj1) * (ri1 - rj1) + (ri2 - rj2) * (ri2 - rj2) +
          (ri3 - rj3) * (ri3 - rj3)) * ls2 from by ring]
      ring
    · rfl
  have hT2 : (if c1 = c2 ∧ e11 = e22 ∧ e12 = e21 then
      sig2 * expf (-((ri1 - rj2) * (ri1 - rj2) + (ri2 - rj1) * (ri2 - rj1) +
        (ri3 - rj3) * (ri3 - rj3)) * ls2) * fi * fj else 0) =
      (if c2 = c1 ∧ e21 = e12 ∧ e22 = e11 then
      sig2 * expf (-((rj1 - ri2) * (rj1 - ri2) + (rj2 - ri1) * (rj2 - ri1) +
        (rj3 - ri3) * (rj3 - ri3)) * ls2) * fj * fi else 0) := by
    apply if_congr
    · exact ⟨fun ⟨a, b, c⟩ => ⟨a.symm, c.symm, b.symm⟩,
        fun ⟨a, b, c⟩ => ⟨a.symm, c.symm, b.symm⟩⟩
    · rw [show -((rj1 - ri2) * (rj1 - ri2) + (rj2 - ri1) * (rj2 - ri1) +
          (rj3 - ri3) * (rj3 - ri3)) * ls2 =
        -((ri1 - rj2) * (ri1 - rj2) + (ri2 - rj1) * (ri2 - rj1) +
          (ri3 - rj3) * (ri3 - rj3)) * ls2 from by ring]
      ring
    · rfl
  have hT3 : (if c1 = e21 ∧ e11 = e22 ∧ e12 = c2 then
      sig2 * expf (-((ri1 - rj3) * (ri1 - rj3) + (ri2 - rj1) * (ri2 - rj1) +
        (ri3 - rj2) * (ri3 - rj2)) * ls2) * fi * fj else 0) =
      (if c2 = e12 ∧ e21 = c1 ∧ e22 = e11 then
      sig2 * expf (-((rj1 - ri2) * (rj1 - ri2) + (rj2 - ri3) * (rj2 - ri3) +
        (rj3 - ri1) * (rj3 - ri1)) * ls2) * fj * fi else 0) := by
    apply if_congr
    · exact ⟨fun ⟨a, b, c⟩ => ⟨c.symm, a.symm, b.symm⟩,
        fun ⟨a, b, c⟩ => ⟨b.symm, c.symm, a.symm⟩⟩
    · rw [show -((rj1 - ri2) * (rj1 - ri2) + (rj2 - ri3) * (rj2 - ri3) +
          (rj3 - ri1) * (rj3 - ri1)) * ls2 =
        -((ri1 - rj3) * (ri1 - rj3) + (ri2 - rj1) * (ri2 - rj1) +
          (ri3 - rj2) * (ri3 - rj2)) * ls2 from by ring]
      ring
    · rfl
  have hT4 : (if c1 = e21 ∧ e11 = c2 ∧ e12 = e22 then
      sig2 * expf (-((ri1 - rj1) * (ri1 - rj1) + (ri2 - rj3) * (ri2 - rj3) +
        (ri3 - rj2) * (ri3 - rj2)) * ls2) * fi * fj else 0) =
      (if c2 = e11 ∧ e21 = c1 ∧ e22 = e12 then
      sig2 * expf (-((rj1 - ri1) * (rj1 - ri1) + (rj2 - ri3) * (rj2 - ri3) +
        (rj3 - ri2) * (rj3 - ri2)) * ls2) * fj * fi else 0) := by
    apply if_congr
    · exact ⟨fun ⟨a, b, c⟩ => ⟨b.symm, a.symm, c.symm⟩,
        fun ⟨a, b, c⟩ => ⟨b.symm, a.symm, c.symm⟩⟩
    · rw [show -((rj1 - ri1) * (rj1 - ri1) + (rj2 - ri3) * (rj2 - ri3) +
          (rj3 - ri2) * (rj3 - ri2)) * ls2 =
        -((ri1 - rj1) * (ri1 - rj1) + (ri2 - rj3) * (ri2 - rj3) +
          (ri3 - rj2) * (ri3 - rj2)) * ls2 from by ring]
      ring
    · rfl
  have hT5 : (if c1 = e22 ∧ e11 = e21 ∧ e12 = c2 then
      sig2 * expf (-((ri1 - rj3) * (ri1 - rj3) + (ri2 - rj2) * (ri2 - rj2) +
        (ri3 - rj1) * (ri3 - rj1)) * ls2) * fi * fj else 0) =
      (if c2 = e12 ∧ e21 = e11 ∧ e22 = c1 then
      sig2 * expf (-((rj1 - ri3) * (rj1 - ri3) + (rj2 - ri2) * (rj2 - ri2) +
        (rj3 - ri1) * (rj3 - ri1)) * ls2) * fj * fi else 0) := by
    apply if_congr
    · exact ⟨fun ⟨a, b, c⟩ => ⟨c.symm, b.symm, a.symm⟩,
        fun ⟨a, b, c⟩ => ⟨c.symm, b.symm, a.symm⟩⟩
    · rw [show -((rj1 - ri3) * (rj1 - ri3) + (rj2 - ri2) * (rj2 - ri2) +
          (rj3 - ri1) * (rj3 - ri1)) * ls2 =
        -((ri1 - rj3) * (ri1 - rj3) + (ri2 - rj2) * (ri2 - rj2) +
          (ri3 - rj1) * (ri3 - rj1)) * ls2 from by ring]
      ring
    · rfl
  have hT6 : (if c1 = e22 ∧ e11 = c2 ∧ e12 = e21 then
      sig2 * expf (-((ri1 - rj2) * (ri1 - rj2) + (ri2 - rj3) * (ri2 - rj3) +
        (ri3 - rj1) * (ri3 - rj1)) * ls2) * fi * fj else 0) =
      (if c2 = e11 ∧ e21 = e12 ∧ e22 = c1 then
      sig2 * expf (-((rj1 - ri3) * (rj1 - ri3) + (rj2 - ri1) * (rj2 - ri1) +
        (rj3 - ri2) * (rj3 - ri2)) * ls2) * fj * fi else 0) := by
    apply if_congr
    · exact ⟨fun ⟨a, b, c⟩ => ⟨b.symm, c.symm, a.symm⟩,
        fun ⟨a, b, c⟩ => ⟨c.symm, a.symm, b.symm⟩⟩
    · rw [show -((rj1 - ri3) * (rj1 - ri3) + (rj2 - ri1) * (rj2 - ri1) +
          (rj3 - ri2) * (rj3 - ri2)) * ls2 =
        -((ri1 - rj2) * (ri1 - rj2) + (ri2 - rj3) * (ri2 - rj3) +
          (ri3 - rj1) * (ri3 - rj1)) * ls2 from by ring]
      ring
    · rfl
  rw [hT1, hT2, hT3, hT4, hT5, hT6]
  ring

theorem enPairTerm_symm {K : Type} [LinearOrderedField K] (cf : K → K → K → K × K)
    (expf : K → K) (sig2 ls2 r_cut : K) (c1 c2 : ℤ) (t1 t2 : TripData K) :
    enPairTerm cf expf sig2 ls2 r_cut c1 c2 t1 t2 =
    enPairTerm cf expf sig2 ls2 r_cut c2 c1 t2 t1 := by
  rw [enPairTerm_eq_gate, enPairTerm_eq_gate]
  by_cases h : specGate c1 t1.e1 t1.e2 c2 t2.e1 t2.e2
  · rw [if_pos h, if_pos ((specGate_symm c1 t1.e1 t1.e2 c2 t2.e1 t2.e2).1 h)]
    exact sixEn_symm expf sig2 ls2 c1 t1.e1 t1.e2 c2 t2.e1 t2.e2 t1.r1 t1.r2 t1.r3
      t2.r1 t2.r2 t2.r3 _ _
  · rw [if_neg h, if_neg (fun hc => h ((specGate_symm c1 t1.e1 t1.e2 c2 t2.e1 t2.e2).2 hc))]

theorem three_body_mc_en_jit_symm {K : Type} [LinearOrderedField K]
    (cf : K → K → K → K × K) (expf : K → K) (ba1 : List (List K)) (c1 : ℤ)
    (et1 : List ℤ) (ba2 : List (List K)) (c2 : ℤ) (et2 : List ℤ)
    (cbi1 cbi2 : List (List ℤ)) (cbd1 cbd2 : List (List K)) (tc1 tc2 : List ℤ)
    (sig ls r_cut : K) :
    three_body_mc_en_jit cf expf ba1 c1 et1 ba2 c2 et2 cbi1 cbi2 cbd1 cbd2 tc1 tc2
      sig ls r_cut =
    three_body_mc_en_jit cf expf ba2 c2 et2 ba1 c1 et1 cbi2 cbi1 cbd2 cbd1 tc2 tc1
      sig ls r_cut := by
  rw [three_body_mc_en_jit_eq_pairs, three_body_mc_en_jit_eq_pairs]
  rw [lsum_comm]
  apply lsum_congr
  intro b _
  apply lsum_congr
  intro a _
  exact enPairTerm_symm cf expf (sig * sig) (1 / (2 * ls * ls)) r_cut c1 c2
    (tripDataOf ba1 et1 cbi1 cbd1 a) (tripDataOf ba2 et2 cbi2 cbd2 b)

/-! ### The σ-component of the hyperparameter gradients -/

theorem sigOk_add {K : Type} [LinearOrderedField K] (sig : K) (x y : K × K × K)
    (hx : x.2.1 = 2 / sig * x.1) (hy : y.2.1 = 2 / sig * y.1) :
    (x + y).2.1 = 2 / sig * (x + y).1 := by
  show x.2.1 + y.2.1 = 2 / sig * (x.1 + y.1)
  rw [hx, hy]
  ring

theorem sigOk_ite {K : Type} [LinearOrderedField K] (sig : K) (c : Prop) [Decidable c]
    (x : K × K × K) (hx : x.2.1 = 2 / sig * x.1) :
    (if c then x else 0).2.1 = 2 / sig * (if c then x else 0).1 := by
  by_cases h : c
  · rw [if_pos h]
    exact hx
  · rw [if_neg h]
    show (0 : K) = 2 / sig * 0
    ring

theorem sigOk_lsum {K α : Type} [LinearOrderedField K] (sig : K) (l : List α)
    (f : α → K × K × K) (h : ∀ a ∈ l, (f a).2.1 = 2 / sig * (f a).1) :
    (lsum l f).2.1 = 2 / sig * (lsum l f).1 := by
  rw [lsum_snd_fst, lsum_fst, ← lsum_mul_left]
  exact lsum_congr h

theorem sigOk_helper {K : Type} [LinearOrderedField K] {sig : K} (hsig : sig ≠ 0)
    (b : K) : 2 * sig * b = 2 / sig * (sig * sig * b) := by
  field_simp
  ring

/-- 2-body gradient: the σ-entry of the returned gradient is `2/σ` times the
returned kernel value (for nonzero σ). -/
theorem two_body_mc_grad_jit_sig {K : Type} [LinearOrderedField K]
    (cf : K → K → K → K × K) (base lsterm : List K → K) (ba1 : List (List K))
    (c1 : ℤ) (et1 : List ℤ) (ba2 : List (List K)) (c2 : ℤ) (et2 : List ℤ)
    (d1 d2 : ℕ) (sig ls r_cut : K) (hsig : sig ≠ 0) :
    (two_body_mc_grad_jit cf base lsterm ba1 c1 et1 ba2 c2 et2 d1 d2 sig ls r_cut).2.1 =
      2 / sig *
        (two_body_mc_grad_jit cf base lsterm ba1 c1 et1 ba2 c2 et2 d1 d2 sig ls r_cut).1 := by
  simp only [two_body_mc_grad_jit]
  apply sigOk_lsum
  intro m _
  apply sigOk_lsum
  intro n _
  apply sigOk_ite
  simp only [grad_helper]
  exact sigOk_helper hsig _

/-- 3-body gradient: the σ-entry of the returned gradient is `2/σ` times the
returned kernel value (for nonzero σ). -/
theorem three_body_mc_grad_jit_sig {K : Type} [LinearOrderedField K]
    (cf : K → K → K → K × K) (base1 lsterm1 base2 lsterm2 : List K → K)
    (ba1 : List (List K)) (c1 : ℤ) (et1 : List ℤ) (ba2 : List (List K)) (c2 : ℤ)
    (et2 : List ℤ) (cbi1 cbi2 : List (List ℤ)) (cbd1 cbd2 : List (List K))
    (tc1 tc2 : List ℤ) (d1 d2 : ℕ) (sig ls r_cut : K) (hsig : sig ≠ 0) :
    (three_body_mc_grad_jit cf base1 lsterm1 base2 lsterm2 ba1 c1 et1 ba2 c2 et2
      cbi1 cbi2 cbd1 cbd2 tc1 tc2 d1 d2 sig ls r_cut).2.1 =
      2 / sig * (three_body_mc_grad_jit cf base1 lsterm1 base2 lsterm2 ba1 c1 et1
        ba2 c2 et2 cbi1 cbi2 cbd1 cbd2 tc1 tc2 d1 d2 sig ls r_cut).1 := by
  simp only [three_body_mc_grad_jit, grad_constants]
  apply sigOk_lsum
  intro m _
  apply sigOk_lsum
  intro n _
  apply sigOk_ite
  apply sigOk_lsum
  intro p _
  apply sigOk_ite
  apply sigOk_lsum
  intro q _
  apply sigOk_ite
  refine sigOk_add sig _ _ (sigOk_add sig _ _ (sigOk_add sig _ _ (sigOk_add sig _ _
    (sigOk_add sig _ _ ?_ ?_) ?_) ?_) ?_) ?_ <;>
    refine sigOk_ite sig _ _ ?_
  · simp only [three_body_grad_helper_1]
    exact sigOk_helper hsig _
  · simp only [three_body_grad_helper_1]
    exact sigOk_helper hsig _
  · simp only [three_body_grad_helper_2]
    exact sigOk_helper hsig _
  · simp only [three_body_grad_helper_2]
    exact sigOk_helper hsig _
  · simp only [three_body_grad_helper_2]
    exact sigOk_helper hsig _
  · simp only [three_body_grad_helper_2]
    exact sigOk_helper hsig _

/-- 2-species many-body gradient: σ-entry is literally `2/σ · kern`. -/
theorem many_2body_mc_grad_jit_sig {K : Type} [LinearOrderedField K]
    (kfn : K → K → K → K → K) (lsfn : K → K → K → K) (array_1 array_2 : List K)
    (grads_1 grads_2 : List (List K)) (neigh_array_1 neigh_array_2 : List (List K))
    (neigh_grads_1 neigh_grads_2 : List (List K)) (c1 c2 : ℤ)
    (etypes1 etypes2 : List ℤ) (species1 species2 : List ℤ) (d1 d2 : ℕ)
    (sig ls : K) :
    (many_2body_mc_grad_jit kfn lsfn array_1 array_2 grads_1 grads_2 neigh_array_1
      neigh_array_2 neigh_grads_1 neigh_grads_2 c1 c2 etypes1 etypes2 species1
      species2 d1 d2 sig ls).2.1 =
      2 / sig * (many_2body_mc_grad_jit kfn lsfn array_1 array_2 grads_1 grads_2
        neigh_array_1 neigh_array_2 neigh_grads_1 neigh_grads_2 c1 c2 etypes1
        etypes2 species1 species2 d1 d2 sig ls).1 := rfl

/-- 3-species many-body gradient: σ-entry is literally `2/σ · kern`. -/
theorem many_3body_mc_grad_jit_sig {K : Type} [LinearOrderedField K]
    (kfn : K → K → K → K → K) (lsfn : K → K → K → K) (array_1 array_2 : List (List K))
    (grads_1 grads_2 : List (List (List K)))
    (neigh_array_1 neigh_array_2 : List (List (List K)))
    (neigh_grads_1 neigh_grads_2 : List (List (List K))) (c1 c2 : ℤ)
    (etypes1 etypes2 : List ℤ) (species1 species2 : List ℤ) (d1 d2 : ℕ)
    (sig ls : K) :
    (many_3body_mc_grad_jit kfn lsfn array_1 array_2 grads_1 grads_2 neigh_array_1
      neigh_array_2 neigh_grads_1 neigh_grads_2 c1 c2 etypes1 etypes2 species1
      species2 d1 d2 sig ls).2.1 =
      2 / sig * (many_3body_mc_grad_jit kfn lsfn array_1 array_2 grads_1 grads_2
        neigh_array_1 neigh_array_2 neigh_grads_1 neigh_grads_2 c1 c2 etypes1
        etypes2 species1 species2 d1 d2 sig ls).1 := rfl

/-! ### Claim theorems -/

/-- C1: for every kernel order (2-body, 3-body, many-body 2-species,
many-body 3-species) and for the linear-combination kernels, and for any two
atomic environments, the energy/energy kernel is symmetric: evaluating it on
(env1, env2) returns the same value as evaluating it on (env2, env1). -/
theorem C1_energy_kernels_symmetric {K : Type} [LinearOrderedField K]
    (cf : K → K → K → K × K) (expf : K → K) (env1 env2 : AtomicEnvK K)
    (hyps cutoffs : List K) :
    two_body_mc_en cf expf env1 env2 hyps cutoffs =
      two_body_mc_en cf expf env2 env1 hyps cutoffs ∧
    three_body_mc_en cf expf env1 env2 hyps cutoffs =
      three_body_mc_en cf expf env2 env1 hyps cutoffs ∧
    many_2body_mc_en expf env1 env2 hyps = many_2body_mc_en expf env2 env1 hyps ∧
    many_3body_mc_en expf env1 env2 hyps = many_3body_mc_en expf env2 env1 hyps ∧
    many_body_mc_en expf env1 env2 hyps = many_body_mc_en expf env2 env1 hyps ∧
    two_plus_three_mc_en cf expf env1 env2 hyps cutoffs =
      two_plus_three_mc_en cf expf env2 env1 hyps cutoffs ∧
    two_plus_three_plus_many_body_mc_en cf expf env1 env2 hyps cutoffs =
      two_plus_three_plus_many_body_mc_en cf expf env2 env1 hyps cutoffs := by
  refine ⟨?_, ?_, ?_, ?_, ?_, ?_, ?_⟩
  · unfold two_body_mc_en
    rw [two_body_mc_en_jit_symm]
  · unfold three_body_mc_en
    rw [three_body_mc_en_jit_symm]
  · unfold many_2body_mc_en
    rw [many_2body_mc_en_jit_symm]
  · unfold many_3body_mc_en
    rw [many_3body_mc_en_jit_symm]
  · unfold many_body_mc_en
    rw [many_2body_mc_en_jit_symm, many_3body_mc_en_jit_symm]
  · unfold two_plus_three_mc_en
    rw [two_body_mc_en_jit_symm, three_body_mc_en_jit_symm]
  · unfold two_plus_three_plus_many_body_mc_en
    rw [two_body_mc_en_jit_symm, three_body_mc_en_jit_symm,
      many_2body_mc_en_jit_symm, many_3body_mc_en_jit_symm]

/-- C5: the normalization constants are applied inside the kernel functions,
not by callers: the 2-body force/energy kernel returns the accumulated pair
sum divided by 2, the 2-body energy/energy kernel divides by 4, the 3-body
force/energy kernel divides by 3, the 3-body energy/energy kernel divides by
9, and the 2+3 combined kernels return the sum of these normalized terms. -/
theorem C5_normalization_inside_kernels {K : Type} [LinearOrderedField K]
    (cf : K → K → K → K × K) (expf : K → K) (feh tbeh : List K → K)
    (env1 env2 : AtomicEnvK K) (d1 : ℕ) (hyps cutoffs : List K) :
    two_body_mc_force_en cf feh env1 env2 d1 hyps cutoffs =
      two_body_mc_force_en_jit cf feh env1.bond_array_2 env1.ctype env1.etypes
        env2.bond_array_2 env2.ctype env2.etypes d1 (hyps.getD 0 0) (hyps.getD 1 0)
        (cutoffs.getD 0 0) / 2 ∧
    two_body_mc_en cf expf env1 env2 hyps cutoffs =
      two_body_mc_en_jit cf expf env1.bond_array_2 env1.ctype env1.etypes
        env2.bond_array_2 env2.ctype env2.etypes (hyps.getD 0 0) (hyps.getD 1 0)
        (cutoffs.getD 0 0) / 4 ∧
    three_body_mc_force_en cf tbeh env1 env2 d1 hyps cutoffs =
      three_body_mc_force_en_jit cf tbeh env1.bond_array_3 env1.ctype env1.etypes
        env2.bond_array_3 env2.ctype env2.etypes env1.cross_bond_inds
        env2.cross_bond_inds env1.cross_bond_dists env2.cross_bond_dists
        env1.triplet_counts env2.triplet_counts d1 (hyps.getD 0 0) (hyps.getD 1 0)
        (cutoffs.getD 1 0) / 3 ∧
    three_body_mc_en cf expf env1 env2 hyps cutoffs =
      three_body_mc_en_jit cf expf env1.bond_array_3 env1.ctype env1.etypes
        env2.bond_array_3 env2.ctype env2.etypes env1.cross_bond_inds
        env2.cross_bond_inds env1.cross_bond_dists env2.cross_bond_dists
        env1.triplet_counts env2.triplet_counts (hyps.getD 0 0) (hyps.getD 1 0)
        (cutoffs.getD 1 0) / 9 ∧
    two_plus_three_mc_force_en cf feh tbeh env1 env2 d1 hyps cutoffs =
      two_body_mc_force_en_jit cf feh env1.bond_array_2 env1.ctype env1.etypes
        env2.bond_array_2 env2.ctype env2.etypes d1 (hyps.getD 0 0) (hyps.getD 1 0)
        (cutoffs.getD 0 0) / 2 +
      three_body_mc_force_en_jit cf tbeh env1.bond_array_3 env1.ctype env1.etypes
        env2.bond_array_3 env2.ctype env2.etypes env1.cross_bond_inds
        env2.cross_bond_inds env1.cross_bond_dists env2.cross_bond_dists
        env1.triplet_counts env2.triplet_counts d1 (hyps.getD 2 0) (hyps.getD 3 0)
        (cutoffs.getD 1 0) / 3 ∧
    two_plus_three_mc_en cf expf env1 env2 hyps cutoffs =
      two_body_mc_en_jit cf expf env1.bond_array_2 env1.ctype env1.etypes
        env2.bond_array_2 env2.ctype env2.etypes (hyps.getD 0 0) (hyps.getD 1 0)
        (cutoffs.getD 0 0) / 4 +
      three_body_mc_en_jit cf expf env1.bond_array_3 env1.ctype env1.etypes
        env2.bond_array_3 env2.ctype env2.etypes env1.cross_bond_inds
        env2.cross_bond_inds env1.cross_bond_dists env2.cross_bond_dists
        env1.triplet_counts env2.triplet_counts (hyps.getD 2 0) (hyps.getD 3 0)
        (cutoffs.getD 1 0) / 9 :=
  ⟨rfl, rfl, rfl, rfl, rfl, rfl⟩

/-- C6 counterexample: the registry has no entries under the short names
"mb" and "2+3+mb"; looking them up returns none, refuting the claimed
key set (the actual short names are "many" and "2+3+many"). -/
theorem C6_cex_no_mb_keys :
    strToKernelLookup "mb" = none ∧ strToKernelLookup "2+3+mb" = none := by
  exact ⟨by decide, by decide⟩

/-- C6 (amended): the kernel-name registry maps the short kernel-order names
"2", "3", "many", "2+3", "2+3+many" (not "mb"/"2+3+mb") to the four callable
variants of that kernel order (force/force under the base name and the
_grad, _en, _force_en suffixed variants), with the quirk that the long
many_3body_mc* names map to the many_2body_mc* variants. -/
theorem C6_registry_short_names :
    strToKernelLookup "2" = some MCKernelTag.two_body_mc ∧
    strToKernelLookup "2_grad" = some MCKernelTag.two_body_mc_grad ∧
    strToKernelLookup "2_en" = some MCKernelTag.two_body_mc_en ∧
    strToKernelLookup "2_force_en" = some MCKernelTag.two_body_mc_force_en ∧
    strToKernelLookup "3" = some MCKernelTag.three_body_mc ∧
    strToKernelLookup "3_grad" = some MCKernelTag.three_body_mc_grad ∧
    strToKernelLookup "3_en" = some MCKernelTag.three_body_mc_en ∧
    strToKernelLookup "3_force_en" = some MCKernelTag.three_body_mc_force_en ∧
    strToKernelLookup "many" = some MCKernelTag.many_body_mc ∧
    strToKernelLookup "many_grad" = some MCKernelTag.many_body_mc_grad ∧
    strToKernelLookup "many_en" = some MCKernelTag.many_body_mc_en ∧
    strToKernelLookup "many_force_en" = some MCKernelTag.many_body_mc_force_en ∧
    strToKernelLookup "2+3" = some MCKernelTag.two_plus_three_body_mc ∧
    strToKernelLookup "2+3_grad" = some MCKernelTag.two_plus_three_body_mc_grad ∧
    strToKernelLookup "2+3_en" = some MCKernelTag.two_plus_three_mc_en ∧
    strToKernelLookup "2+3_force_en" = some MCKernelTag.two_plus_three_mc_force_en ∧
    strToKernelLookup "2+3+many" = some MCKernelTag.two_plus_three_plus_many_body_mc ∧
    strToKernelLookup "2+3+many_grad" = some MCKernelTag.two_plus_three_plus_many_body_mc_grad ∧
    strToKernelLookup "2+3+many_en" = some MCKernelTag.two_plus_three_plus_many_body_mc_en ∧
    strToKernelLookup "2+3+many_force_en" = some MCKernelTag.two_plus_three_plus_many_body_mc_force_en ∧
    strToKernelLookup "many_3body_mc" = some MCKernelTag.many_2body_mc ∧
    strToKernelLookup "many_3body_mc_grad" = some MCKernelTag.many_2body_mc_grad ∧
    strToKernelLookup "many_3body_mc_en" = some MCKernelTag.many_2body_mc_en ∧
    strToKernelLookup "many_3body_mc_force_en" = some MCKernelTag.many_2body_mc_force_en := by
  refine ⟨?_, ?_, ?_, ?_, ?_, ?_, ?_, ?_, ?_, ?_, ?_, ?_, ?_, ?_, ?_, ?_, ?_, ?_, ?_, ?_, ?_, ?_, ?_, ?_⟩ <;> decide

/-- C9: for every input to the periodic neighbor enumerator with a
non-positive 2-body cutoff, all four returned arrays are empty (no rows); a
non-positive cutoff marks the order as inactive rather than raising. -/
theorem C9_nonpositive_cutoff_empty {K : Type} [LinearOrderedField K]
    {sqrtf : K → K} {asort : List K → List ℕ} (hs : ∀ x : K, 0 ≤ sqrtf x)
    (hsort : IsArgsort asort) (positions : List (V3 K)) (atom : ℕ)
    (c1 c2 c3 : V3 K) {cutoff_2 : K} (hc : cutoff_2 ≤ 0) (species : List ℤ)
    (sweep : List K) :
    get_2_body_arrays sqrtf asort positions atom c1 c2 c3 cutoff_2 species sweep =
      ⟨[], [], [], []⟩ := by
  unfold get_2_body_arrays
  rw [fill2Body_eq_nil_of_nonpos hs (fun _ => hc)]
  exact sort2Body_nil hsort

/-- Witness for C9 at a concrete rational input. -/
theorem C9_nonpositive_cutoff_empty_witness :
    (∀ x : ℚ, 0 ≤ (fun _ : ℚ => (0 : ℚ)) x) ∧ ((0 : ℚ) ≤ 0) ∧
    get_2_body_arrays (fun _ : ℚ => (0 : ℚ)) insertionArgsort
      [⟨1, 0, 0⟩] 0 V3.zero V3.zero V3.zero 0 [1] [0] = ⟨[], [], [], []⟩ :=
  ⟨fun _ => le_refl 0, le_refl 0,
   C9_nonpositive_cutoff_empty (fun _ => le_refl 0) insertionArgsort_isArgsort
     [⟨1, 0, 0⟩] 0 V3.zero V3.zero V3.zero (le_refl 0) [1] [0]⟩

theorem mem_writeSeq {α : Type} (vs : List α) :
    ∀ (inds : List α) (c : ℕ) (x : α), x ∈ writeSeq inds c vs → x ∈ inds ∨ x ∈ vs := by
  induction vs with
  | nil => intro inds c x hx; exact Or.inl hx
  | cons v vs ih =>
      intro inds c x hx
      rcases ih (inds.set c v) (c + 1) x hx with h | h
      · rcases List.mem_or_eq_of_mem_set h with h | h
        · exact Or.inl h
        · exact Or.inr (by simp [h])
      · exact Or.inr (List.mem_cons_of_mem v h)

/-- C10: the builders store indices, species labels, cross-bond indices and
triplet counts through signed 8-bit registers, modelled by `toInt8`: the
stored value is the true value reduced modulo 256 into [-128, 127], and for a
nonnegative true value the stored value is faithful exactly when the true
value is at most 127.  The 2-body outputs `etypes`/`bond_indices` are the
`toInt8` images of the fill-order species/indices carried through the sort
permutation, every non-sentinel cross-bond index is a `toInt8` image, and
every triplet count is a `toInt8` image of the true count — in the scalar
and in the species-pair-resolved variant of each builder alike. -/
theorem C10_int8_storage {K : Type} [LinearOrderedField K] :
    (∀ v : ℤ, toInt8 v % 256 = v % 256 ∧ -128 ≤ toInt8 v ∧ toInt8 v ≤ 127 ∧
       (0 ≤ v → (toInt8 v = v ↔ v ≤ 127))) ∧
    (∀ (sqrtf : K → K) (asort : List K → List ℕ) (positions : List (V3 K))
       (atom : ℕ) (c1 c2 c3 : V3 K) (cutoff_2 : K) (species : List ℤ)
       (sweep : List K),
       (get_2_body_arrays sqrtf asort positions atom c1 c2 c3 cutoff_2 species
           sweep).etypes =
         applyPerm 0
           (asort ((fill2Body sqrtf positions atom c1 c2 c3 (fun _ => cutoff_2)
              species (sweepTriples sweep)).map (fun f => f.dist)))
           ((fill2Body sqrtf positions atom c1 c2 c3 (fun _ => cutoff_2) species
              (sweepTriples sweep)).map (fun f => toInt8 f.spec)) ∧
       (get_2_body_arrays sqrtf asort positions atom c1 c2 c3 cutoff_2 species
           sweep).bond_indices =
         applyPerm 0
           (asort ((fill2Body sqrtf positions atom c1 c2 c3 (fun _ => cutoff_2)
              species (sweepTriples sweep)).map (fun f => f.dist)))
           ((fill2Body sqrtf positions atom c1 c2 c3 (fun _ => cutoff_2) species
              (sweepTriples sweep)).map (fun f => toInt8 f.idx))) ∧
    (∀ (sqrtf : K → K) (asort : List K → List ℕ) (positions : List (V3 K))
       (atom : ℕ) (c1 c2 c3 : V3 K) (cutoff_2 : List K) (species : List ℤ)
       (sweep : List K) (nspecie : ℤ) (specie_mask bond_mask : ℤ → ℤ),
       (get_2_body_arrays_sepcut sqrtf asort positions atom c1 c2 c3 cutoff_2
           species sweep nspecie specie_mask bond_mask).etypes =
         applyPerm 0
           (asort ((fill2Body sqrtf positions atom c1 c2 c3
              (fun n => cutoff_2.getD (bond_mask (specie_mask (species.getD n 0) +
                nspecie * specie_mask (species.getD atom 0))).toNat 0)
              species ((sweepTriples sweep).take 27)).map (fun f => f.dist)))
           ((fill2Body sqrtf positions atom c1 c2 c3
              (fun n => cutoff_2.getD (bond_mask (specie_mask (species.getD n 0) +
                nspecie * specie_mask (species.getD atom 0))).toNat 0)
              species ((sweepTriples sweep).take 27)).map (fun f => toInt8 f.spec)) ∧
       (get_2_body_arrays_sepcut sqrtf asort positions atom c1 c2 c3 cutoff_2
           species sweep nspecie specie_mask bond_mask).bond_indices =
         applyPerm 0
           (asort ((fill2Body sqrtf positions atom c1 c2 c3
              (fun n => cutoff_2.getD (bond_mask (specie_mask (species.getD n 0) +
                nspecie * specie_mask (species.getD atom 0))).toNat 0)
              species ((sweepTriples sweep).take 27)).map (fun f => f.dist)))
           ((fill2Body sqrtf positions atom c1 c2 c3
              (fun n => cutoff_2.getD (bond_mask (specie_mask (species.getD n 0) +
                nspecie * specie_mask (species.getD atom 0))).toNat 0)
              species ((sweepTriples sweep).take 27)).map (fun f => toInt8 f.idx))) ∧
    (∀ (sqrtf : K → K) (bond_array_2 : List (List K))
       (bond_positions_2 : List (V3 K)) (cutoff_3 : K),
       (∀ row ∈ (get_3_body_arrays sqrtf bond_array_2 bond_positions_2
            cutoff_3).cross_bond_inds, ∀ x ∈ row, x = -1 ∨ ∃ n : ℕ, x = toInt8 n) ∧
       (∀ x ∈ (get_3_body_arrays sqrtf bond_array_2 bond_positions_2
            cutoff_3).triplet_counts, ∃ t : ℕ, x = toInt8 t)) ∧
    (∀ (sqrtf : K → K) (bond_array_2 : List (List K))
       (bond_positions_2 : List (V3 K)) (ctype : ℤ) (etypes : List ℤ)
       (cutoff_3 : List K) (nspecie : ℤ) (specie_mask cut3b_mask : ℤ → ℤ),
       (∀ row ∈ (get_3_body_arrays_sepcut sqrtf bond_array_2 bond_positions_2
            ctype etypes cutoff_3 nspecie specie_mask cut3b_mask).cross_bond_inds,
          ∀ x ∈ row, x = -1 ∨ ∃ n : ℕ, x = toInt8 n) ∧
       (∀ x ∈ (get_3_body_arrays_sepcut sqrtf bond_array_2 bond_positions_2
            ctype etypes cutoff_3 nspecie specie_mask cut3b_mask).triplet_counts,
          ∃ t : ℕ, x = toInt8 t)) := by
  refine ⟨fun v => ⟨toInt8_emod v, toInt8_ge v, toInt8_lt v, fun h0 => toInt8_eq_iff h0⟩,
    fun _ _ _ _ _ _ _ _ _ _ => ⟨rfl, rfl⟩,
    fun _ _ _ _ _ _ _ _ _ _ _ _ _ => ⟨rfl, rfl⟩,
    fun sqrtf ba bp c3 => ⟨?_, ?_⟩, fun sqrtf ba bp ctype et c3 ns sm cm => ⟨?_, ?_⟩⟩
  · intro row hrow x hx
    simp only [get_3_body_arrays, List.mem_map] at hrow
    obtain ⟨r, ⟨m, _, hr⟩, hrow⟩ := hrow
    rw [← hrow, ← hr, crossRow_eq] at hx
    rcases mem_writeSeq _ _ _ _ hx with h | h
    · exact Or.inl (List.eq_of_mem_replicate h)
    · obtain ⟨n, _, hn⟩ := List.mem_map.mp h
      exact Or.inr ⟨n, hn.symm⟩
  · intro x hx
    simp only [get_3_body_arrays, List.map_map, List.mem_map] at hx
    obtain ⟨m, _, hm⟩ := hx
    exact ⟨_, hm.symm⟩
  · intro row hrow x hx
    simp only [get_3_body_arrays_sepcut, List.mem_map] at hrow
    obtain ⟨r, ⟨m, _, hr⟩, hrow⟩ := hrow
    rw [← hrow, ← hr, crossRow_eq] at hx
    rcases mem_writeSeq _ _ _ _ hx with h | h
    · exact Or.inl (List.eq_of_mem_replicate h)
    · obtain ⟨n, _, hn⟩ := List.mem_map.mp h
      exact Or.inr ⟨n, hn.symm⟩
  · intro x hx
    simp only [get_3_body_arrays_sepcut, List.map_map, List.mem_map] at hx
    obtain ⟨m, _, hm⟩ := hx
    exact ⟨_, hm.symm⟩

/-- Witness for C10: at the true value 200 the faithfulness criterion of the
int8 storage fails, and the stored value is the signed reinterpretation -56. -/
theorem C10_int8_storage_witness :
    (0 : ℤ) ≤ 200 ∧ (toInt8 200 = 200 ↔ (200 : ℤ) ≤ 127) ∧ toInt8 200 = -56 :=
  ⟨by decide, ((C10_int8_storage (K := ℚ)).1 200).2.2.2 (by decide), by decide⟩

/-- C8: for every kernel order's hyperparameter-gradient variant, whenever
the signal variance `sig` is nonzero, the σ-entry of the returned gradient
equals `2 / sig` times the returned kernel value.  (For the many-body
variants this holds for every `sig`, the entry being stored literally as
`2 / sig * kern`.) -/
theorem C8_sig_gradient {K : Type} [LinearOrderedField K] (sig : K)
    (hsig : sig ≠ 0) :
    (∀ (cf : K → K → K → K × K) (base lsterm : List K → K) (ba1 : List (List K))
       (c1 : ℤ) (et1 : List ℤ) (ba2 : List (List K)) (c2 : ℤ) (et2 : List ℤ)
       (d1 d2 : ℕ) (ls r_cut : K),
       (two_body_mc_grad_jit cf base lsterm ba1 c1 et1 ba2 c2 et2 d1 d2 sig ls
          r_cut).2.1 =
         2 / sig * (two_body_mc_grad_jit cf base lsterm ba1 c1 et1 ba2 c2 et2 d1
           d2 sig ls r_cut).1) ∧
    (∀ (cf : K → K → K → K × K) (base1 lsterm1 base2 lsterm2 : List K → K)
       (ba1 : List (List K)) (c1 : ℤ) (et1 : List ℤ) (ba2 : List (List K))
       (c2 : ℤ) (et2 : List ℤ) (cbi1 cbi2 : List (List ℤ))
       (cbd1 cbd2 : List (List K)) (tc1 tc2 : List ℤ) (d1 d2 : ℕ) (ls r_cut : K),
       (three_body_mc_grad_jit cf base1 lsterm1 base2 lsterm2 ba1 c1 et1 ba2 c2
          et2 cbi1 cbi2 cbd1 cbd2 tc1 tc2 d1 d2 sig ls r_cut).2.1 =
         2 / sig * (three_body_mc_grad_jit cf base1 lsterm1 base2 lsterm2 ba1 c1
           et1 ba2 c2 et2 cbi1 cbi2 cbd1 cbd2 tc1 tc2 d1 d2 sig ls r_cut).1) ∧
    (∀ (kfn : K → K → K → K → K) (lsfn : K → K → K → K) (array_1 array_2 : List K)
       (grads_1 grads_2 : List (List K)) (neigh_array_1 neigh_array_2 : List (List K))
       (neigh_grads_1 neigh_grads_2 : List (List K)) (c1 c2 : ℤ)
       (etypes1 etypes2 : List ℤ) (species1 species2 : List ℤ) (d1 d2 : ℕ) (ls : K),
       (many_2body_mc_grad_jit kfn lsfn array_1 array_2 grads_1 grads_2
          neigh_array_1 neigh_array_2 neigh_grads_1 neigh_grads_2 c1 c2 etypes1
          etypes2 species1 species2 d1 d2 sig ls).2.1 =
         2 / sig * (many_2body_mc_grad_jit kfn lsfn array_1 array_2 grads_1
           grads_2 neigh_array_1 neigh_array_2 neigh_grads_1 neigh_grads_2 c1 c2
           etypes1 etypes2 species1 species2 d1 d2 sig ls).1) ∧
    (∀ (kfn : K → K → K → K → K) (lsfn : K → K → K → K)
       (array_1 array_2 : List (List K)) (grads_1 grads_2 : List (List (List K)))
       (neigh_array_1 neigh_array_2 : List (List (List K)))
       (neigh_grads_1 neigh_grads_2 : List (List (List K))) (c1 c2 : ℤ)
       (etypes1 etypes2 : List ℤ) (species1 species2 : List ℤ) (d1 d2 : ℕ) (ls : K),
       (many_3body_mc_grad_jit kfn lsfn array_1 array_2 grads_1 grads_2
          neigh_array_1 neigh_array_2 neigh_grads_1 neigh_grads_2 c1 c2 etypes1
          etypes2 species1 species2 d1 d2 sig ls).2.1 =
         2 / sig * (many_3body_mc_grad_jit kfn lsfn array_1 array_2 grads_1
           grads_2 neigh_array_1 neigh_array_2 neigh_grads_1 neigh_grads_2 c1 c2
           etypes1 etypes2 species1 species2 d1 d2 sig ls).1) :=
  ⟨fun cf base lsterm ba1 c1 et1 ba2 c2 et2 d1 d2 ls r_cut =>
     two_body_mc_grad_jit_sig cf base lsterm ba1 c1 et1 ba2 c2 et2 d1 d2 sig ls
       r_cut hsig,
   fun cf b1 l1 b2 l2 ba1 c1 et1 ba2 c2 et2 cbi1 cbi2 cbd1 cbd2 tc1 tc2 d1 d2 ls
       r_cut =>
     three_body_mc_grad_jit_sig cf b1 l1 b2 l2 ba1 c1 et1 ba2 c2 et2 cbi1 cbi2
       cbd1 cbd2 tc1 tc2 d1 d2 sig ls r_cut hsig,
   fun kfn lsfn a1 a2 g1 g2 na1 na2 ng1 ng2 c1 c2 e1 e2 s1 s2 d1 d2 ls =>
     many_2body_mc_grad_jit_sig kfn lsfn a1 a2 g1 g2 na1 na2 ng1 ng2 c1 c2 e1 e2
       s1 s2 d1 d2 sig ls,
   fun kfn lsfn a1 a2 g1 g2 na1 na2 ng1 ng2 c1 c2 e1 e2 s1 s2 d1 d2 ls =>
     many_3body_mc_grad_jit_sig kfn lsfn a1 a2 g1 g2 na1 na2 ng1 ng2 c1 c2 e1 e2
       s1 s2 d1 d2 sig ls⟩

/-- Witness for C8 at `sig = 1` over ℚ with concrete (empty) bond arrays. -/
theorem C8_sig_gradient_witness :
    ((1 : ℚ) ≠ 0) ∧
    (two_body_mc_grad_jit (fun _ _ _ => ((0 : ℚ), (0 : ℚ))) (fun _ => 0)
        (fun _ => 0) [] 0 [] [] 0 [] 0 0 1 1 1).2.1 =
      2 / 1 * (two_body_mc_grad_jit (fun _ _ _ => ((0 : ℚ), (0 : ℚ)))
        (fun _ => 0) (fun _ => 0) [] 0 [] [] 0 [] 0 0 1 1 1).1 :=
  ⟨by norm_num,
   (C8_sig_gradient (K := ℚ) 1 (by norm_num)).1 (fun _ _ _ => (0, 0))
     (fun _ => 0) (fun _ => 0) [] 0 [] [] 0 [] 0 0 1 1⟩

/-- C3 (amended): in both triplet builders, a cross-bond entry different from
the sentinel -1 sits at a column `k > m`, stores (through int8) an index `n`
with `m < n` strictly inside the 3-body-truncated neighbor list, and the
direct m-n distance is strictly below the (resolved) 3-body cutoff; the bond
distances `bondArray3[m,0]`, `bondArray3[n,0]` are below the cutoff only
non-strictly in the scalar builder (equality can occur), while the sepcut
builder checks them strictly. -/
theorem C3_cross_bond_invariant {K : Type} [LinearOrderedField K] :
    (∀ (sqrtf : K → K) (ba : List (List K)) (bp : List (V3 K)) (cutoff3 : K)
       (m k : ℕ),
       (((get_3_body_arrays sqrtf ba bp cutoff3).cross_bond_inds.getD m []).getD
           k (-1)) ≠ -1 →
       m < k ∧ ∃ n : ℕ, m < n ∧
         n < (get_3_body_arrays sqrtf ba bp cutoff3).bond_array_3.length ∧
         (((get_3_body_arrays sqrtf ba bp cutoff3).cross_bond_inds.getD m []).getD
             k (-1)) = toInt8 n ∧
         crossDistOf sqrtf bp m n < cutoff3 ∧
         rowDist ba m ≤ cutoff3 ∧ rowDist ba n ≤ cutoff3 ∧
         (((get_3_body_arrays sqrtf ba bp cutoff3).cross_bond_dists.getD m []).getD
             k 0) = crossDistOf sqrtf bp m n) ∧
    (∀ (sqrtf : K → K) (ba : List (List K)) (bp : List (V3 K)) (ctype : ℤ)
       (etypes : List ℤ) (cutoff_3 : List K) (nspecie : ℤ)
       (specie_mask cut3b_mask : ℤ → ℤ) (m k : ℕ),
       (((get_3_body_arrays_sepcut sqrtf ba bp ctype etypes cutoff_3 nspecie
           specie_mask cut3b_mask).cross_bond_inds.getD m []).getD k (-1)) ≠ -1 →
       m < k ∧ ∃ n : ℕ, m < n ∧
         n < (get_3_body_arrays_sepcut sqrtf ba bp ctype etypes cutoff_3 nspecie
           specie_mask cut3b_mask).bond_array_3.length ∧
         (((get_3_body_arrays_sepcut sqrtf ba bp ctype etypes cutoff_3 nspecie
             specie_mask cut3b_mask).cross_bond_inds.getD m []).getD k (-1))
           = toInt8 n ∧
         crossDistOf sqrtf bp m n <
           cutoff_3.getD (cut3b_mask (specie_mask (etypes.getD n 0) +
             nspecie * specie_mask (etypes.getD m 0))).toNat 0 ∧
         rowDist ba m <
           cutoff_3.getD (cut3b_mask (specie_mask (etypes.getD m 0) +
             nspecie * specie_mask ctype)).toNat 0 ∧
         rowDist ba n <
           cutoff_3.getD (cut3b_mask (specie_mask (etypes.getD n 0) +
             nspecie * specie_mask ctype)).toNat 0 ∧
         (((get_3_body_arrays_sepcut sqrtf ba bp ctype etypes cutoff_3 nspecie
             specie_mask cut3b_mask).cross_bond_dists.getD m []).getD k 0)
           = crossDistOf sqrtf bp m n) :=
  ⟨fun sqrtf ba bp cutoff3 m k h =>
     get_3_body_arrays_inds_spec sqrtf ba bp cutoff3 m k h,
   fun sqrtf ba bp ctype etypes cutoff_3 nspecie sm cm m k h =>
     get_3_body_arrays_sepcut_inds_spec sqrtf ba bp ctype etypes cutoff_3
       nspecie sm cm m k h⟩

/-- Witness for C3 at concrete rational inputs with one accepted edge in each
builder. -/
theorem C3_cross_bond_invariant_witness :
    ((((get_3_body_arrays (fun _ : ℚ => 0) [[0], [0]] [] 1).cross_bond_inds.getD
        0 []).getD 1 (-1)) ≠ -1 ∧
      ((0 : ℕ) < 1 ∧ ∃ n : ℕ, 0 < n ∧
        n < (get_3_body_arrays (fun _ : ℚ => 0) [[0], [0]] [] 1).bond_array_3.length ∧
        (((get_3_body_arrays (fun _ : ℚ => 0) [[0], [0]] [] 1).cross_bond_inds.getD
            0 []).getD 1 (-1)) = toInt8 n ∧
        crossDistOf (fun _ : ℚ => 0) [] 0 n < 1 ∧
        rowDist ([[0], [0]] : List (List ℚ)) 0 ≤ 1 ∧
        rowDist ([[0], [0]] : List (List ℚ)) n ≤ 1 ∧
        (((get_3_body_arrays (fun _ : ℚ => 0) [[0], [0]] [] 1).cross_bond_dists.getD
            0 []).getD 1 0) = crossDistOf (fun _ : ℚ => 0) [] 0 n)) ∧
    ((((get_3_body_arrays_sepcut (fun _ : ℚ => 0) [[0], [0]] [] 0 [0, 0] [1] 1
        (fun _ => 0) (fun _ => 0)).cross_bond_inds.getD 0 []).getD 1 (-1)) ≠ -1 ∧
      (0 : ℕ) < 1) :=
  ⟨⟨by decide,
    (C3_cross_bond_invariant (K := ℚ)).1 (fun _ => 0) [[0], [0]] [] 1 0 1
      (by decide)⟩,
   ⟨by decide,
    ((C3_cross_bond_invariant (K := ℚ)).2 (fun _ => 0) [[0], [0]] [] 0 [0, 0]
      [1] 1 (fun _ => 0) (fun _ => 0) 0 1 (by decide)).1⟩⟩

/-- C3 counterexample: in the scalar builder the bond distance of a stored
third atom need NOT be strictly below the 3-body cutoff: with bond distances
[1, 2] and cutoff exactly 2, the edge to neighbor 1 is accepted (the stored
index is 1, not -1) although its bond distance equals the cutoff. -/
theorem C3_cex_boundary_bond_not_below :
    (((get_3_body_arrays Real.sqrt [[1], [2]] [⟨1, 0, 0⟩, ⟨2, 0, 0⟩]
        2).cross_bond_inds.getD 0 []).getD 1 (-1)) = 1 ∧
    ¬ rowDist ([[1], [2]] : List (List ℝ)) 1 < 2 := by
  constructor
  · have hind : ind3Of (([[1], [2]] : List (List ℝ)).map (fun r => r.getD 0 0)) 2
        = 2 := by
      show ind3Of ([1, 2] : List ℝ) 2 = 2
      simp only [ind3Of]
      rw [if_neg (by norm_num), if_neg (by norm_num)]
    have hacc : (fun n => decide (crossDistOf Real.sqrt
        [⟨1, 0, 0⟩, ⟨2, 0, 0⟩] 0 n < 2)) 1 = true := by
      apply decide_eq_true
      show Real.sqrt (V3.normSq (V3.sub _ _)) < 2
      norm_num [V3.sub, V3.normSq, V3.zero, Real.sqrt_one]
    simp only [get_3_body_arrays, hind]
    show ((crossRow (K := ℝ) 2 0
      (fun n => decide (crossDistOf Real.sqrt [⟨1, 0, 0⟩, ⟨2, 0, 0⟩] 0 n < 2))
      (crossDistOf Real.sqrt [⟨1, 0, 0⟩, ⟨2, 0, 0⟩] 0)).inds).getD 1 (-1) = 1
    unfold crossRow
    rw [show List.range' (0 + 1) (2 - (0 + 1)) = [1] from rfl]
    rw [List.foldl_cons, List.foldl_nil, if_pos hacc]
    rfl
  · norm_num [rowDist]

/-- C7 (amended): under the trivial single-group species mask (one species
group, all mask entries zero, one-element cutoff array equal to the scalar
cutoff) the species-pair-resolved 2-body enumerator returns exactly the
scalar enumerator's output whenever the sweep window fits the 27 staging
image slots of the sepcut variant; the species-pair-resolved triplet builder
returns exactly the scalar builder's output PROVIDED no bond distance equals
the 3-body cutoff exactly — the sepcut accept condition additionally requires
both bond distances strictly below the cutoff, which the scalar builder does
not check, so the unconditional equivalence of the original claim fails at
such boundary inputs. -/
theorem C7_trivial_mask_refines_scalar {K : Type} [LinearOrderedField K] :
    (∀ (sqrtf : K → K) (asort : List K → List ℕ) (positions : List (V3 K))
       (atom : ℕ) (c1 c2 c3 : V3 K) (r2 : K) (species : List ℤ) (sweep : List K),
       (sweepTriples sweep).length ≤ 27 →
       get_2_body_arrays_sepcut sqrtf asort positions atom c1 c2 c3 [r2] species
           sweep 1 (fun _ => 0) (fun _ => 0) =
         get_2_body_arrays sqrtf asort positions atom c1 c2 c3 r2 species sweep) ∧
    (∀ (sqrtf : K → K) (ba : List (List K)) (bp : List (V3 K)) (ctype : ℤ)
       (etypes : List ℤ) (r3 : K),
       (∀ i, rowDist ba i ≠ r3) →
       get_3_body_arrays_sepcut sqrtf ba bp ctype etypes [r3] 1 (fun _ => 0)
           (fun _ => 0) =
         get_3_body_arrays sqrtf ba bp r3) :=
  ⟨fun sqrtf asort positions atom c1 c2 c3 r2 species sweep h27 =>
     get_2_body_arrays_sepcut_trivial sqrtf asort positions atom c1 c2 c3 r2
       species sweep h27,
   fun sqrtf ba bp ctype etypes r3 hne =>
     get_3_body_arrays_sepcut_trivial sqrtf ba bp ctype etypes r3 hne⟩

/-- Witness for C7 at concrete rational inputs. -/
theorem C7_trivial_mask_refines_scalar_witness :
    ((sweepTriples ([0] : List ℚ)).length ≤ 27 ∧
      get_2_body_arrays_sepcut (fun _ : ℚ => 0) insertionArgsort
          [⟨0, 0, 0⟩, ⟨1, 0, 0⟩] 0 ⟨1, 0, 0⟩ ⟨0, 1, 0⟩ ⟨0, 0, 1⟩ [2] [1, 1] [0] 1
          (fun _ => 0) (fun _ => 0) =
        get_2_body_arrays (fun _ : ℚ => 0) insertionArgsort
          [⟨0, 0, 0⟩, ⟨1, 0, 0⟩] 0 ⟨1, 0, 0⟩ ⟨0, 1, 0⟩ ⟨0, 0, 1⟩ 2 [1, 1] [0]) ∧
    ((∀ i, rowDist ([[1], [2]] : List (List ℚ)) i ≠ 3) ∧
      get_3_body_arrays_sepcut (fun _ : ℚ => 0) [[1], [2]] [⟨1, 0, 0⟩] 0 [1, 1]
          [3] 1 (fun _ => 0) (fun _ => 0) =
        get_3_body_arrays (fun _ : ℚ => 0) [[1], [2]] [⟨1, 0, 0⟩] 3) :=
  ⟨⟨by decide,
    (C7_trivial_mask_refines_scalar (K := ℚ)).1 (fun _ => 0) insertionArgsort
      [⟨0, 0, 0⟩, ⟨1, 0, 0⟩] 0 ⟨1, 0, 0⟩ ⟨0, 1, 0⟩ ⟨0, 0, 1⟩ 2 [1, 1] [0]
      (by decide)⟩,
   ⟨fun i => by rcases i with _ | _ | i <;> simp [rowDist],
    (C7_trivial_mask_refines_scalar (K := ℚ)).2 (fun _ => 0) [[1], [2]]
      [⟨1, 0, 0⟩] 0 [1, 1] 3
      (fun i => by rcases i with _ | _ | i <;> simp [rowDist])⟩⟩

set_option maxRecDepth 4000 in
/-- C7 counterexample: at a boundary input where a bond distance equals the
3-body cutoff, the species-pair-resolved triplet builder under the trivial
single-group mask does NOT agree with the scalar builder: the sepcut variant
rejects the edge (triplet counts [0, 0]) while the scalar variant accepts it
(triplet counts [1, 0]). -/
theorem C7_cex_boundary_mask_mismatch :
    (get_3_body_arrays_sepcut Real.sqrt [[1], [2]] [⟨1, 0, 0⟩, ⟨2, 0, 0⟩] 0
        [0, 0] [2] 1 (fun _ => 0) (fun _ => 0)).triplet_counts = [0, 0] ∧
    (get_3_body_arrays Real.sqrt [[1], [2]] [⟨1, 0, 0⟩, ⟨2, 0, 0⟩]
        2).triplet_counts = [1, 0] := by
  have hind : ind3Of (([[1], [2]] : List (List ℝ)).map (fun r => r.getD 0 0)) 2
      = 2 := by
    show ind3Of ([1, 2] : List ℝ) 2 = 2
    simp only [ind3Of]
    rw [if_neg (by norm_num), if_neg (by norm_num)]
  constructor
  · have hmax : (([2] : List ℝ).max?).getD 0 = 2 := rfl
    simp only [get_3_body_arrays_sepcut, hmax, hind]
    rw [show List.range 2 = [0, 1] from rfl]
    simp only [List.map_cons, List.map_nil]
    have key0 : ∀ (acc : ℕ → Bool) (cd : ℕ → ℝ), acc 1 = false →
        toInt8 (crossRow (K := ℝ) 2 0 acc cd).trips = 0 := by
      intro acc cd h
      unfold crossRow
      rw [show List.range' (0 + 1) (2 - (0 + 1)) = [1] from rfl,
        List.foldl_cons, List.foldl_nil, h]
      rfl
    have key1 : ∀ (acc : ℕ → Bool) (cd : ℕ → ℝ),
        toInt8 (crossRow (K := ℝ) 2 1 acc cd).trips = 0 := by
      intro acc cd
      rfl
    have main : ∀ (acc1 acc2 : ℕ → Bool) (cd1 cd2 : ℕ → ℝ), acc1 1 = false →
        [toInt8 (crossRow (K := ℝ) 2 0 acc1 cd1).trips,
         toInt8 (crossRow (K := ℝ) 2 1 acc2 cd2).trips] = [0, 0] := by
      intro acc1 acc2 cd1 cd2 h
      rw [key0 acc1 cd1 h, key1]
    apply main
    apply decide_eq_false
    intro h
    exact absurd h.2.2 (by norm_num [rowDist])
  · simp only [get_3_body_arrays, hind]
    rw [show List.range 2 = [0, 1] from rfl]
    simp only [List.map_cons, List.map_nil]
    have hacc : (fun n => decide (crossDistOf Real.sqrt
        [⟨1, 0, 0⟩, ⟨2, 0, 0⟩] 0 n < 2)) 1 = true := by
      apply decide_eq_true
      show Real.sqrt (V3.normSq (V3.sub _ _)) < 2
      norm_num [V3.sub, V3.normSq, V3.zero, Real.sqrt_one]
    unfold crossRow
    rw [show List.range' (0 + 1) (2 - (0 + 1)) = [1] from rfl]
    rw [show List.range' (1 + 1) (2 - (1 + 1)) = ([] : List ℕ) from rfl]
    rw [List.foldl_cons, List.foldl_nil, List.foldl_nil, if_pos hacc]
    rfl

theorem sort2Body_nonzero {K : Type} [LinearOrderedField K]
    {asort : List K → List ℕ} (h : IsArgsort asort) (sqrtf : K → K)
    (positions : List (V3 K)) (atom : ℕ) (c1 c2 c3 : V3 K) (rcut : ℕ → K)
    (species : List ℤ) (trips : List (K × K × K)) :
    ∀ r ∈ (sort2Body asort
        (fill2Body sqrtf positions atom c1 c2 c3 rcut species trips)).bond_array_2,
      r.getD 0 0 ≠ 0 := by
  intro r hr
  set fills := fill2Body sqrtf positions atom c1 c2 c3 rcut species trips with hf
  have hspec := sort2Body_spec h fills
  rw [hspec.2.1] at hr
  have hp : List.Perm (asort (fills.map (fun f => f.dist)))
      (List.range ((fills.map (fun f =>
        [f.dist, f.im.x / f.dist, f.im.y / f.dist, f.im.z / f.dist])).length)) := by
    rw [List.length_map]
    exact hspec.1
  have hr2 := mem_applyPerm_of_perm hp hr
  rw [List.mem_map] at hr2
  obtain ⟨f, hfm, rfl⟩ := hr2
  exact (fill2Body_mem hfm).2.2.2.2

/-- C4 (amended): for every conforming argsort (the contract of the default
`np.argsort`: the result is a permutation of the index range and indexing the
keys by it is ascending) and every input, both 2-body enumerators return
`bond_array_2` sorted by distance ascending with zero-distance self-images
excluded, and `bond_positions_2`, `etypes`, `bond_indices` are carried
through exactly the same permutation as `bond_array_2`; the sort is NOT
guaranteed stable — the default quicksort kind makes no promise about the
order of entries at equal distance. -/
theorem C4_sort_same_permutation {K : Type} [LinearOrderedField K]
    {asort : List K → List ℕ} (hsort : IsArgsort asort) :
    (∀ (sqrtf : K → K) (positions : List (V3 K)) (atom : ℕ) (c1 c2 c3 : V3 K)
       (cutoff_2 : K) (species : List ℤ) (sweep : List K),
       List.Perm
         (asort ((fill2Body sqrtf positions atom c1 c2 c3 (fun _ => cutoff_2)
           species (sweepTriples sweep)).map (fun f => f.dist)))
         (List.range (fill2Body sqrtf positions atom c1 c2 c3 (fun _ => cutoff_2)
           species (sweepTriples sweep)).length) ∧
       (get_2_body_arrays sqrtf asort positions atom c1 c2 c3 cutoff_2 species
           sweep).bond_array_2 =
         applyPerm [] (asort ((fill2Body sqrtf positions atom c1 c2 c3
             (fun _ => cutoff_2) species (sweepTriples sweep)).map (fun f => f.dist)))
           ((fill2Body sqrtf positions atom c1 c2 c3 (fun _ => cutoff_2) species
             (sweepTriples sweep)).map (fun f =>
               [f.dist, f.im.x / f.dist, f.im.y / f.dist, f.im.z / f.dist])) ∧
       (get_2_body_arrays sqrtf asort positions atom c1 c2 c3 cutoff_2 species
           sweep).bond_positions_2 =
         applyPerm V3.zero (asort ((fill2Body sqrtf positions atom c1 c2 c3
             (fun _ => cutoff_2) species (sweepTriples sweep)).map (fun f => f.dist)))
           ((fill2Body sqrtf positions atom c1 c2 c3 (fun _ => cutoff_2) species
             (sweepTriples sweep)).map (fun f => f.im)) ∧
       (get_2_body_arrays sqrtf asort positions atom c1 c2 c3 cutoff_2 species
           sweep).etypes =
         applyPerm 0 (asort ((fill2Body sqrtf positions atom c1 c2 c3
             (fun _ => cutoff_2) species (sweepTriples sweep)).map (fun f => f.dist)))
           ((fill2Body sqrtf positions atom c1 c2 c3 (fun _ => cutoff_2) species
             (sweepTriples sweep)).map (fun f => toInt8 f.spec)) ∧
       (get_2_body_arrays sqrtf asort positions atom c1 c2 c3 cutoff_2 species
           sweep).bond_indices =
         applyPerm 0 (asort ((fill2Body sqrtf positions atom c1 c2 c3
             (fun _ => cutoff_2) species (sweepTriples sweep)).map (fun f => f.dist)))
           ((fill2Body sqrtf positions atom c1 c2 c3 (fun _ => cutoff_2) species
             (sweepTriples sweep)).map (fun f => toInt8 f.idx)) ∧
       List.Sorted (· ≤ ·)
         ((get_2_body_arrays sqrtf asort positions atom c1 c2 c3 cutoff_2 species
           sweep).bond_array_2.map (fun r => r.getD 0 0)) ∧
       ∀ r ∈ (get_2_body_arrays sqrtf asort positions atom c1 c2 c3 cutoff_2
           species sweep).bond_array_2, r.getD 0 0 ≠ 0) ∧
    (∀ (sqrtf : K → K) (positions : List (V3 K)) (atom : ℕ) (c1 c2 c3 : V3 K)
       (cutoff_2 : List K) (species : List ℤ) (sweep : List K) (nspecie : ℤ)
       (specie_mask bond_mask : ℤ → ℤ),
       List.Perm
         (asort ((fill2Body sqrtf positions atom c1 c2 c3
           (fun n => cutoff_2.getD (bond_mask (specie_mask (species.getD n 0) +
             nspecie * specie_mask (species.getD atom 0))).toNat 0)
           species ((sweepTriples sweep).take 27)).map (fun f => f.dist)))
         (List.range (fill2Body sqrtf positions atom c1 c2 c3
           (fun n => cutoff_2.getD (bond_mask (specie_mask (species.getD n 0) +
             nspecie * specie_mask (species.getD atom 0))).toNat 0)
           species ((sweepTriples sweep).take 27)).length) ∧
       (get_2_body_arrays_sepcut sqrtf asort positions atom c1 c2 c3 cutoff_2
           species sweep nspecie specie_mask bond_mask).bond_array_2 =
         applyPerm [] (asort ((fill2Body sqrtf positions atom c1 c2 c3
             (fun n => cutoff_2.getD (bond_mask (specie_mask (species.getD n 0) +
               nspecie * specie_mask (species.getD atom 0))).toNat 0)
             species ((sweepTriples sweep).take 27)).map (fun f => f.dist)))
           ((fill2Body sqrtf positions atom c1 c2 c3
             (fun n => cutoff_2.getD (bond_mask (specie_mask (species.getD n 0) +
               nspecie * specie_mask (species.getD atom 0))).toNat 0)
             species ((sweepTriples sweep).take 27)).map (fun f =>
               [f.dist, f.im.x / f.dist, f.im.y / f.dist, f.im.z / f.dist])) ∧
       (get_2_body_arrays_sepcut sqrtf asort positions atom c1 c2 c3 cutoff_2
           species sweep nspecie specie_mask bond_mask).bond_positions_2 =
         applyPerm V3.zero (asort ((fill2Body sqrtf positions atom c1 c2 c3
             (fun n => cutoff_2.getD (bond_mask (specie_mask (species.getD n 0) +
               nspecie * specie_mask (species.getD atom 0))).toNat 0)
             species ((sweepTriples sweep).take 27)).map (fun f => f.dist)))
           ((fill2Body sqrtf positions atom c1 c2 c3
             (fun n => cutoff_2.getD (bond_mask (specie_mask (species.getD n 0) +
               nspecie * specie_mask (species.getD atom 0))).toNat 0)
             species ((sweepTriples sweep).take 27)).map (fun f => f.im)) ∧
       (get_2_body_arrays_sepcut sqrtf asort positions atom c1 c2 c3 cutoff_2
           species sweep nspecie specie_mask bond_mask).etypes =
         applyPerm 0 (asort ((fill2Body sqrtf positions atom c1 c2 c3
             (fun n => cutoff_2.getD (bond_mask (specie_mask (species.getD n 0) +
               nspecie * specie_mask (species.getD atom 0))).toNat 0)
             species ((sweepTriples sweep).take 27)).map (fun f => f.dist)))
           ((fill2Body sqrtf positions atom c1 c2 c3
             (fun n => cutoff_2.getD (bond_mask (specie_mask (species.getD n 0) +
               nspecie * specie_mask (species.getD atom 0))).toNat 0)
             species ((sweepTriples sweep).take 27)).map (fun f => toInt8 f.spec)) ∧
       (get_2_body_arrays_sepcut sqrtf asort positions atom c1 c2 c3 cutoff_2
           species sweep nspecie specie_mask bond_mask).bond_indices =
         applyPerm 0 (asort ((fill2Body sqrtf positions atom c1 c2 c3
             (fun n => cutoff_2.getD (bond_mask (specie_mask (species.getD n 0) +
               nspecie * specie_mask (species.getD atom 0))).toNat 0)
             species ((sweepTriples sweep).take 27)).map (fun f => f.dist)))
           ((fill2Body sqrtf positions atom c1 c2 c3
             (fun n => cutoff_2.getD (bond_mask (specie_mask (species.getD n 0) +
               nspecie * specie_mask (species.getD atom 0))).toNat 0)
             species ((sweepTriples sweep).take 27)).map (fun f => toInt8 f.idx)) ∧
       List.Sorted (· ≤ ·)
         ((get_2_body_arrays_sepcut sqrtf asort positions atom c1 c2 c3 cutoff_2
           species sweep nspecie specie_mask bond_mask).bond_array_2.map
             (fun r => r.getD 0 0)) ∧
       ∀ r ∈ (get_2_body_arrays_sepcut sqrtf asort positions atom c1 c2 c3
           cutoff_2 species sweep nspecie specie_mask bond_mask).bond_array_2,
         r.getD 0 0 ≠ 0) := by
  constructor
  · intro sqrtf positions atom c1 c2 c3 cutoff_2 species sweep
    have hs := sort2Body_spec hsort (fill2Body sqrtf positions atom c1 c2 c3
      (fun _ => cutoff_2) species (sweepTriples sweep))
    exact ⟨hs.1, hs.2.1, hs.2.2.1, hs.2.2.2.1, hs.2.2.2.2.1, hs.2.2.2.2.2,
      sort2Body_nonzero hsort sqrtf positions atom c1 c2 c3 (fun _ => cutoff_2)
        species (sweepTriples sweep)⟩
  · intro sqrtf positions atom c1 c2 c3 cutoff_2 species sweep nspecie
        specie_mask bond_mask
    have hs := sort2Body_spec hsort (fill2Body sqrtf positions atom c1 c2 c3
      (fun n => cutoff_2.getD (bond_mask (specie_mask (species.getD n 0) +
        nspecie * specie_mask (species.getD atom 0))).toNat 0)
      species ((sweepTriples sweep).take 27))
    exact ⟨hs.1, hs.2.1, hs.2.2.1, hs.2.2.2.1, hs.2.2.2.2.1, hs.2.2.2.2.2,
      sort2Body_nonzero hsort sqrtf positions atom c1 c2 c3
        (fun n => cutoff_2.getD (bond_mask (specie_mask (species.getD n 0) +
          nspecie * specie_mask (species.getD atom 0))).toNat 0)
        species ((sweepTriples sweep).take 27)⟩

/-- Witness for C4 with the insertion-sort argsort at a concrete rational
input. -/
theorem C4_sort_same_permutation_witness :
    IsArgsort (insertionArgsort (K := ℚ)) ∧
    List.Sorted (· ≤ ·)
      ((get_2_body_arrays (fun x : ℚ => x) insertionArgsort
        [⟨0, 0, 0⟩, ⟨1, 0, 0⟩] 0 ⟨100, 0, 0⟩ ⟨0, 100, 0⟩ ⟨0, 0, 100⟩ 2 [1, 1]
        [0]).bond_array_2.map (fun r => r.getD 0 0)) :=
  ⟨insertionArgsort_isArgsort,
   ((C4_sort_same_permutation (K := ℚ) insertionArgsort_isArgsort).1
     (fun x => x) [⟨0, 0, 0⟩, ⟨1, 0, 0⟩] 0 ⟨100, 0, 0⟩ ⟨0, 100, 0⟩ ⟨0, 0, 100⟩ 2
     [1, 1] [0]).2.2.2.2.2.1⟩

/-- Rewrites the fill condition `sqrt D < c ∧ sqrt D ≠ 0` into the
sqrt-free window `D < c^2 ∧ 0 < D`, for evaluating the enumerator over ℝ. -/
theorem sqrt_window_iff {c : ℝ} (hc : 0 < c) (D : ℝ) :
    (Real.sqrt D < c ∧ Real.sqrt D ≠ 0) ↔ (D < c ^ 2 ∧ 0 < D) := by
  rw [Real.sqrt_lt' hc, ne_eq, Real.sqrt_eq_zero', not_le]

theorem unstableArgsort_ones : unstableArgsort [(1 : ℝ), 1] = [1, 0] := by
  unfold unstableArgsort
  rw [if_pos rfl]

/-- C4 counterexample: stability fails.  `unstableArgsort` satisfies the full
argsort contract, yet on an environment with two neighbors at equal distance
1 (species 6 and 7, filled in that order) the enumerator lists the species as
[7, 6] — the tied entries do NOT keep their fill order, even though the
output is perfectly sorted by distance. -/
theorem C4_cex_tie_order_not_kept :
    IsArgsort (unstableArgsort (K := ℝ)) ∧
    (fill2Body Real.sqrt [⟨0, 0, 0⟩, ⟨1, 0, 0⟩, ⟨0, 1, 0⟩] 0 ⟨100, 0, 0⟩
        ⟨0, 100, 0⟩ ⟨0, 0, 100⟩ (fun _ => 2) [5, 6, 7] (sweepTriples [0])).map
          (fun f => toInt8 f.spec) = [6, 7] ∧
    (get_2_body_arrays Real.sqrt unstableArgsort
        [⟨0, 0, 0⟩, ⟨1, 0, 0⟩, ⟨0, 1, 0⟩] 0 ⟨100, 0, 0⟩ ⟨0, 100, 0⟩ ⟨0, 0, 100⟩ 2
        [5, 6, 7] [0]).etypes = [7, 6] ∧
    List.Sorted (· ≤ ·)
      ((get_2_body_arrays Real.sqrt unstableArgsort
        [⟨0, 0, 0⟩, ⟨1, 0, 0⟩, ⟨0, 1, 0⟩] 0 ⟨100, 0, 0⟩ ⟨0, 100, 0⟩ ⟨0, 0, 100⟩ 2
        [5, 6, 7] [0]).bond_array_2.map (fun r => r.getD 0 0)) := by
  have hfill : fill2Body Real.sqrt [⟨0, 0, 0⟩, ⟨1, 0, 0⟩, ⟨0, 1, 0⟩] 0
      ⟨100, 0, 0⟩ ⟨0, 100, 0⟩ ⟨0, 0, 100⟩ (fun _ => 2) [5, 6, 7]
      (sweepTriples [0]) = [⟨1, ⟨1, 0, 0⟩, 6, 1⟩, ⟨1, ⟨0, 1, 0⟩, 7, 2⟩] := by
    rw [show sweepTriples [(0 : ℝ)] = [(0, 0, 0)] from rfl]
    unfold fill2Body
    rw [show List.range
      ([⟨0, 0, 0⟩, ⟨1, 0, 0⟩, ⟨0, 1, 0⟩] : List (V3 ℝ)).length = [0, 1, 2] from rfl]
    norm_num [List.flatMap_cons, List.flatMap_nil, List.filterMap_cons,
      sqrt_window_iff (show (0 : ℝ) < 2 by norm_num), imageVec, V3.sub,
      V3.normSq, V3.zero, Real.sqrt_one]
  have hdist : ([⟨1, ⟨1, 0, 0⟩, 6, 1⟩, ⟨1, ⟨0, 1, 0⟩, 7, 2⟩] :
      List (BondFill ℝ)).map (fun f => f.dist) = [1, 1] := rfl
  refine ⟨unstableArgsort_isArgsort, ?_, ?_, ?_⟩
  · rw [hfill]
    rfl
  · show (sort2Body unstableArgsort (fill2Body Real.sqrt
      [⟨0, 0, 0⟩, ⟨1, 0, 0⟩, ⟨0, 1, 0⟩] 0 ⟨100, 0, 0⟩ ⟨0, 100, 0⟩ ⟨0, 0, 100⟩
      (fun _ => 2) [5, 6, 7] (sweepTriples [0]))).etypes = [7, 6]
    rw [hfill]
    unfold sort2Body
    rw [hdist, unstableArgsort_ones]
    rfl
  · show List.Sorted (· ≤ ·) ((sort2Body unstableArgsort (fill2Body Real.sqrt
      [⟨0, 0, 0⟩, ⟨1, 0, 0⟩, ⟨0, 1, 0⟩] 0 ⟨100, 0, 0⟩ ⟨0, 100, 0⟩ ⟨0, 0, 100⟩
      (fun _ => 2) [5, 6, 7] (sweepTriples [0]))).bond_array_2.map
        (fun r => r.getD 0 0))
    rw [hfill]
    unfold sort2Body
    rw [hdist, unstableArgsort_ones]
    simp [applyPerm, List.sorted_cons]

theorem sort2Body_singleton {K : Type} [LinearOrderedField K]
    {asort : List K → List ℕ} (h : IsArgsort asort) (f0 : BondFill K) :
    sort2Body asort [f0] =
      ⟨[[f0.dist, f0.im.x / f0.dist, f0.im.y / f0.dist, f0.im.z / f0.dist]],
       [f0.im], [toInt8 f0.spec], [toInt8 f0.idx]⟩ := by
  simp only [sort2Body]
  rw [show ([f0] : List (BondFill K)).map (fun f => f.dist) = [f0.dist] from rfl]
  rw [applyPerm_singleton h f0.dist []
      (([f0] : List (BondFill K)).map (fun f =>
        [f.dist, f.im.x / f.dist, f.im.y / f.dist, f.im.z / f.dist])) rfl,
    applyPerm_singleton h f0.dist V3.zero
      (([f0] : List (BondFill K)).map (fun f => f.im)) rfl,
    applyPerm_singleton h f0.dist 0
      (([f0] : List (BondFill K)).map (fun f => toInt8 f.spec)) rfl,
    applyPerm_singleton h f0.dist 0
      (([f0] : List (BondFill K)).map (fun f => toInt8 f.idx)) rfl]
  rfl

set_option maxHeartbeats 3200000 in
set_option maxRecDepth 8000 in
/-- C2: two atoms of the same species `s` at distance 1.5 in an (effectively
non-periodic) cubic cell of lattice constant 1e7, 2-body cutoff 3, full
3x3x3 sweep: the environment of atom 0 has exactly one bond row with
distance 1.5 and unit direction equal to the normalized separation vector
(1, 0, 0); its bond position, species and index arrays are the single
neighbor's; and for every 3-body cutoff the triplet table built on these
arrays has all triplet counts zero. -/
theorem C2_two_atom_scenario {asort : List ℝ → List ℕ} (hsort : IsArgsort asort)
    (s : ℤ) :
    (get_2_body_arrays Real.sqrt asort [⟨0, 0, 0⟩, ⟨1.5, 0, 0⟩] 0
        ⟨10000000, 0, 0⟩ ⟨0, 10000000, 0⟩ ⟨0, 0, 10000000⟩ 3 [s, s]
        [-1, 0, 1]).bond_array_2 = [[1.5, 1, 0, 0]] ∧
    (get_2_body_arrays Real.sqrt asort [⟨0, 0, 0⟩, ⟨1.5, 0, 0⟩] 0
        ⟨10000000, 0, 0⟩ ⟨0, 10000000, 0⟩ ⟨0, 0, 10000000⟩ 3 [s, s]
        [-1, 0, 1]).bond_positions_2 = [⟨1.5, 0, 0⟩] ∧
    (get_2_body_arrays Real.sqrt asort [⟨0, 0, 0⟩, ⟨1.5, 0, 0⟩] 0
        ⟨10000000, 0, 0⟩ ⟨0, 10000000, 0⟩ ⟨0, 0, 10000000⟩ 3 [s, s]
        [-1, 0, 1]).etypes = [toInt8 s] ∧
    (get_2_body_arrays Real.sqrt asort [⟨0, 0, 0⟩, ⟨1.5, 0, 0⟩] 0
        ⟨10000000, 0, 0⟩ ⟨0, 10000000, 0⟩ ⟨0, 0, 10000000⟩ 3 [s, s]
        [-1, 0, 1]).bond_indices = [1] ∧
    ∀ cutoff_3 : ℝ, ∀ x ∈ (get_3_body_arrays Real.sqrt [[1.5, 1, 0, 0]]
        [⟨1.5, 0, 0⟩] cutoff_3).triplet_counts, x = 0 := by
  have h225 : Real.sqrt 2.25 = 1.5 := by
    rw [show (2.25 : ℝ) = 1.5 ^ 2 by norm_num]
    exact Real.sqrt_sq (by norm_num)
  have h94 : Real.sqrt ((9 : ℝ) / 4) = 3 / 2 := by
    rw [show ((9 : ℝ) / 4) = (3 / 2) ^ 2 by norm_num]
    exact Real.sqrt_sq (by norm_num)
  have hfill : fill2Body Real.sqrt [⟨0, 0, 0⟩, ⟨1.5, 0, 0⟩] 0 ⟨10000000, 0, 0⟩
      ⟨0, 10000000, 0⟩ ⟨0, 0, 10000000⟩ (fun _ => 3) [s, s]
      (sweepTriples [-1, 0, 1]) = [⟨1.5, ⟨1.5, 0, 0⟩, s, 1⟩] := by
    unfold fill2Body
    rw [show List.range
      (([⟨0, 0, 0⟩, ⟨1.5, 0, 0⟩] : List (V3 ℝ))).length = [0, 1] from rfl]
    norm_num [sweepTriples, List.flatMap_cons, List.flatMap_nil,
      List.filterMap_cons, List.filterMap_append,
      sqrt_window_iff (show (0 : ℝ) < 3 by norm_num), imageVec, V3.sub,
      V3.normSq, V3.zero, h225, h94]
  have hdist : ([⟨1.5, ⟨1.5, 0, 0⟩, s, 1⟩] : List (BondFill ℝ)).map
      (fun f => f.dist) = [1.5] := rfl
  refine ⟨?_, ?_, ?_, ?_, ?_⟩
  · show (sort2Body asort (fill2Body Real.sqrt [⟨0, 0, 0⟩, ⟨1.5, 0, 0⟩] 0
      ⟨10000000, 0, 0⟩ ⟨0, 10000000, 0⟩ ⟨0, 0, 10000000⟩ (fun _ => 3) [s, s]
      (sweepTriples [-1, 0, 1]))).bond_array_2 = [[1.5, 1, 0, 0]]
    rw [hfill, sort2Body_singleton hsort]
    norm_num
  · show (sort2Body asort (fill2Body Real.sqrt [⟨0, 0, 0⟩, ⟨1.5, 0, 0⟩] 0
      ⟨10000000, 0, 0⟩ ⟨0, 10000000, 0⟩ ⟨0, 0, 10000000⟩ (fun _ => 3) [s, s]
      (sweepTriples [-1, 0, 1]))).bond_positions_2 = [⟨1.5, 0, 0⟩]
    rw [hfill, sort2Body_singleton hsort]
  · show (sort2Body asort (fill2Body Real.sqrt [⟨0, 0, 0⟩, ⟨1.5, 0, 0⟩] 0
      ⟨10000000, 0, 0⟩ ⟨0, 10000000, 0⟩ ⟨0, 0, 10000000⟩ (fun _ => 3) [s, s]
      (sweepTriples [-1, 0, 1]))).etypes = [toInt8 s]
    rw [hfill, sort2Body_singleton hsort]
  · show (sort2Body asort (fill2Body Real.sqrt [⟨0, 0, 0⟩, ⟨1.5, 0, 0⟩] 0
      ⟨10000000, 0, 0⟩ ⟨0, 10000000, 0⟩ ⟨0, 0, 10000000⟩ (fun _ => 3) [s, s]
      (sweepTriples [-1, 0, 1]))).bond_indices = [1]
    rw [hfill, sort2Body_singleton hsort]
    rfl
  · intro cutoff_3 x hx
    simp only [get_3_body_arrays] at hx
    rw [show (([[1.5, 1, 0, 0]] : List (List ℝ)).map (fun r => r.getD 0 0))
      = [1.5] from rfl] at hx
    by_cases hc : cutoff_3 < (1.5 : ℝ)
    · rw [show ind3Of [(1.5 : ℝ)] cutoff_3 = 0 from by
        simp only [ind3Of]
        rw [if_pos hc]] at hx
      simp at hx
    · rw [show ind3Of [(1.5 : ℝ)] cutoff_3 = 1 from by
        simp only [ind3Of]
        rw [if_neg hc]] at hx
      rw [show List.range 1 = [0] from rfl] at hx
      simp only [List.map_cons, List.map_nil] at hx
      rw [List.mem_singleton] at hx
      rw [hx]
      rfl

/-- Witness for C2 with the insertion-sort argsort and species 1. -/
theorem C2_two_atom_scenario_witness :
    (get_2_body_arrays Real.sqrt insertionArgsort [⟨0, 0, 0⟩, ⟨1.5, 0, 0⟩] 0
        ⟨10000000, 0, 0⟩ ⟨0, 10000000, 0⟩ ⟨0, 0, 10000000⟩ 3 [1, 1]
        [-1, 0, 1]).bond_array_2 = [[1.5, 1, 0, 0]] :=
  (C2_two_atom_scenario insertionArgsort_isArgsort 1).1
